import Mathlib

/-!
# gemini-mcp: tool handlers over an explicit world

A shallow embedding of `main.go` (the seven tool handlers, `registerTools`
and `main`) and of the configuration loaders of `internal/common/config.go`
and `internal/config/config.go`.

Modelling conventions

* Every call that leaves the handler (the genai client, the clock, the file
  system, `time.Sleep`) is an `Event`.  A handler returns its Go result
  together with the list of events it performed, oldest first.
* The outside world is a `World`: one oracle per external call.  Each oracle
  receives the history of events performed so far, so its answers may change
  from call to call in an arbitrary (deterministic) way.
* A Go pointer that the code dereferences is an `Option`; dereferencing `nil`
  is the handler outcome `HandlerResult.crashed`.  Elements of slices are
  taken to be non-nil.
* A Go `error` is the text of its message; `(value, err)` results that the
  code reads on both sides are pairs of options.
* `log.Printf` calls are not modelled: they influence neither the control
  flow nor any returned value.
* `filepath.Join` and `json.MarshalIndent` are standard-library functions and
  are parameters of the `World`.
* The process environment is a function from variable names to optional
  values; `main` returns what it ends in (`MainOutcome`) instead of exiting or
  serving forever.
-/

namespace GeminiMcp

/-! ## Data model -/

/-- Byte slices (`[]byte`). -/
abbrev Bytes := List Nat

/-- Configuration record of `internal/common/config.go`. -/
structure Config where
  apiKey : String
  projectID : String
  location : String
  port : String
  transport : String
  outputDir : String
  genmediaBucket : String
  deriving DecidableEq, Repr

/-- The `Server` of `main.go`; its genai client is the `World`. -/
structure Server where
  config : Config
  deriving DecidableEq, Repr

/-- Inline binary payload, `genai.Blob`. -/
structure Blob where
  mimeType : String
  data : Bytes
  deriving DecidableEq, Repr

/-- One content fragment, `genai.Part`; `inlineData` is a pointer. -/
structure Part where
  text : String
  inlineData : Option Blob
  deriving DecidableEq, Repr

/-- A `genai.Content`: a role and its parts. -/
structure Content where
  parts : List Part
  role : String
  deriving DecidableEq, Repr

/-- A `genai.Candidate`; `content` is a pointer the handlers test for nil. -/
structure Candidate where
  content : Option Content
  deriving DecidableEq, Repr

/-- Response of `Models.GenerateContent`. -/
structure GenerateContentResponse where
  candidates : List Candidate
  deriving DecidableEq, Repr

/-- A `genai.Image`. -/
structure Image where
  imageBytes : Bytes
  deriving DecidableEq, Repr

/-- A `genai.GeneratedImage`; `image` is a pointer. -/
structure GeneratedImage where
  image : Option Image
  deriving DecidableEq, Repr

/-- Response of `Models.GenerateImages`. -/
structure GenerateImagesResponse where
  generatedImages : List GeneratedImage
  deriving DecidableEq, Repr

/-- The `genai.GenerateImagesConfig` fields the handlers set. -/
structure GenerateImagesConfig where
  numberOfImages : Int
  aspectRatio : String
  deriving DecidableEq, Repr

/-- The `genai.GenerateVideosConfig` fields that correspond to tool inputs. -/
structure GenerateVideosConfig where
  aspectRatio : String
  resolution : String
  seed : Int
  deriving DecidableEq, Repr

/-- A `genai.Video`. -/
structure Video where
  uri : String
  videoBytes : Bytes
  deriving DecidableEq, Repr

/-- A `genai.GeneratedVideo`; `video` is a pointer. -/
structure GeneratedVideo where
  video : Option Video
  deriving DecidableEq, Repr

/-- Result payload of a video operation. -/
structure GenerateVideosResponse where
  generatedVideos : List GeneratedVideo
  deriving DecidableEq, Repr

/-- The operation handle `genai.GenerateVideosOperation`. -/
structure GenerateVideosOperation where
  name : String
  done : Bool
  error : Option String
  response : Option GenerateVideosResponse
  deriving DecidableEq, Repr

/-- Values stored in the `map[string]interface{}` metadata documents. -/
inductive JVal where
  | str (s : String)
  | num (n : Int)
  | bool (b : Bool)
  | strs (xs : List String)
  deriving DecidableEq, Repr

/-- Everything a handler does outside its own memory. -/
inductive Event where
  | generateContent (model : String) (contents : List Content)
  | generateImages (model prompt : String) (config : Option GenerateImagesConfig)
  | generateVideos (model prompt : String) (image : Option Image)
      (config : Option GenerateVideosConfig)
  | getVideosOperation (operation : GenerateVideosOperation)
  | download (video : Video)
  | sleep (seconds : Nat)
  | now
  | readFile (path : String)
  | stat (path : String)
  | mkdirAll (path : String)
  | writeFile (path : String) (data : Bytes)
  deriving DecidableEq, Repr

/-- The external collaborators.  Every oracle sees the events so far. -/
structure World where
  /-- `client.Models.GenerateContent`: `(response, err)`. -/
  generateContent : List Event → String → List Content →
    Option GenerateContentResponse × Option String
  /-- `client.Models.GenerateImages`: `(response, err)`. -/
  generateImages : List Event → String → String → Option GenerateImagesConfig →
    Option GenerateImagesResponse × Option String
  /-- `client.Models.GenerateVideos`: `(operation, err)`. -/
  generateVideos : List Event → String → String → Option Image →
    Option GenerateVideosConfig → Option GenerateVideosOperation × Option String
  /-- `client.Operations.GetVideosOperation`: `(operation, err)`. -/
  getVideosOperation : List Event → GenerateVideosOperation →
    Option GenerateVideosOperation × Option String
  /-- `client.Files.Download`: the `VideoBytes` of the video after the call. -/
  download : List Event → Video → Bytes
  /-- `time.Now().Format("20060102_150405")`. -/
  now : List Event → String
  /-- `os.ReadFile`. -/
  readFile : List Event → String → Except String Bytes
  /-- `os.IsNotExist` of the error of `os.Stat`. -/
  statNotExist : List Event → String → Bool
  /-- `os.MkdirAll(dir, 0755)`: `true` when `err == nil`. -/
  mkdirAll : List Event → String → Bool
  /-- `os.WriteFile(path, data, 0644)`: `true` when `err == nil`. -/
  writeFile : List Event → String → Bytes → Bool
  /-- `filepath.Join` of a directory and a file name. -/
  filepathJoin : String → String → String
  /-- `json.MarshalIndent(doc, "", "  ")`: `none` when it fails. -/
  jsonMarshalIndent : List (String × JVal) → Option Bytes

/-- What a handler invocation ends in: the output with a nil error, a non-nil
error, or a nil-pointer dereference. -/
inductive HandlerResult (α : Type) where
  | ok (out : α)
  | error (msg : String)
  | crashed
  deriving DecidableEq, Repr

/-- Lookup in a `map[string]string` written as a list of entries. -/
def lookup (m : List (String × String)) (k : String) : Option String :=
  (m.find? (fun e => e.1 == k)).map (fun e => e.2)

/-- The calls that go to the remote media API. -/
def Event.isRemote : Event → Bool
  | .generateContent _ _ => true
  | .generateImages _ _ _ => true
  | .generateVideos _ _ _ _ => true
  | .getVideosOperation _ => true
  | .download _ => true
  | _ => false

/-- File writes. -/
def Event.isWrite : Event → Bool
  | .writeFile _ _ => true
  | _ => false

/-- Status checks of a video operation. -/
def Event.isStatusCheck : Event → Bool
  | .getVideosOperation _ => true
  | _ => false

/-- The two kinds of events of the poll loop: sleeps and status checks. -/
def Event.isPoll : Event → Bool
  | .getVideosOperation _ => true
  | .sleep _ => true
  | _ => false

/-- Number of remote API calls in a trace. -/
def remoteCalls (tr : List Event) : Nat := tr.countP Event.isRemote

/-- Number of file writes in a trace. -/
def fileWrites (tr : List Event) : Nat := tr.countP Event.isWrite

/-- Number of status checks in a trace. -/
def statusChecks (tr : List Event) : Nat := tr.countP Event.isStatusCheck

/-- The default idiom `v := input.Field; if v == "" { v = d }`. -/
def orDefault (value defaultValue : String) : String :=
  if value = "" then defaultValue else value

/-- `strings.Join`. -/
def stringsJoin (parts : List String) (sep : String) : String :=
  sep.intercalate parts

/-- `genai.Text`: one user content holding one text part. -/
def genaiText (text : String) : List Content :=
  [{ parts := [{ text := text, inlineData := none }], role := "user" }]

/-- `genai.NewPartFromText`. -/
def newPartFromText (text : String) : Part :=
  { text := text, inlineData := none }

/-- `genai.NewContentFromParts(parts, genai.RoleUser)`. -/
def newContentFromParts (parts : List Part) : Content :=
  { parts := parts, role := "user" }

/-! ## Tool inputs and outputs -/

structure GeminiImageGenerationInput where
  prompt : String
  model : String
  style : String
  aspectRatio : String
  quality : String
  safetyLevel : String
  language : String
  includeText : Bool
  tags : List String
  outputDirectory : String
  deriving DecidableEq, Repr

structure GeminiImageGenerationOutput where
  description : String
  model : String
  style : String
  aspectRatio : String
  quality : String
  language : String
  tags : List String
  savedFiles : List String
  metadata : List (String × String)
  generatedAt : String
  imagesCreated : Nat
  deriving DecidableEq, Repr

structure GeminiImageEditInput where
  inputImagePath : String
  editPrompt : String
  model : String
  preserveStyle : Bool
  editType : String
  maskArea : String
  outputDirectory : String
  deriving DecidableEq, Repr

structure GeminiImageEditOutput where
  originalImage : String
  editedImage : String
  editType : String
  model : String
  savedFiles : List String
  metadata : List (String × String)
  generatedAt : String
  deriving DecidableEq, Repr

structure GeminiMultiImageInput where
  inputImagePaths : List String
  combinePrompt : String
  model : String
  blendMode : String
  outputStyle : String
  outputDirectory : String
  deriving DecidableEq, Repr

structure GeminiMultiImageOutput where
  inputImages : List String
  combinedImage : String
  blendMode : String
  model : String
  savedFiles : List String
  metadata : List (String × String)
  generatedAt : String
  imagesProcessed : Nat
  deriving DecidableEq, Repr

structure ImagenGenerationInput where
  prompt : String
  model : String
  numImages : Int
  aspectRatio : String
  outputDirectory : String
  deriving DecidableEq, Repr

structure ImagenGenerationOutput where
  imagesGenerated : Nat
  model : String
  savedFiles : List String
  deriving DecidableEq, Repr

structure VeoTextToVideoInput where
  prompt : String
  negativePrompt : String
  aspectRatio : String
  resolution : String
  model : String
  seed : Int
  outputDirectory : String
  deriving DecidableEq, Repr

structure VeoImageToVideoInput where
  imagePath : String
  prompt : String
  negativePrompt : String
  aspectRatio : String
  resolution : String
  model : String
  seed : Int
  outputDirectory : String
  deriving DecidableEq, Repr

structure VeoGenerationInput where
  prompt : String
  negativePrompt : String
  aspectRatio : String
  resolution : String
  model : String
  imagePath : String
  seed : Int
  outputDirectory : String
  deriving DecidableEq, Repr

structure VeoGenerationOutput where
  operationID : String
  status : String
  videoURL : String
  savedFiles : List String
  model : String
  aspectRatio : String
  resolution : String
  metadata : List (String × String)
  generatedAt : String
  estimatedLength : String
  deriving DecidableEq, Repr

/-! ## Shared blocks of the handlers -/

/-- The block
`if err := os.MkdirAll(dir, 0755); err == nil { outputPath := filepath.Join(dir, filename);
 if err := os.WriteFile(outputPath, data, 0644); err == nil { ... } }`
of the Gemini image handlers: the path when both calls succeeded, and the
extended trace. -/
def saveFile (w : World) (tr : List Event) (dir filename : String) (data : Bytes) :
    Option String × List Event :=
  let tr1 := tr ++ [Event.mkdirAll dir]
  if w.mkdirAll tr dir then
    let outputPath := w.filepathJoin dir filename
    let tr2 := tr1 ++ [Event.writeFile outputPath data]
    if w.writeFile tr1 outputPath data then (some outputPath, tr2) else (none, tr2)
  else (none, tr1)

/-- The metadata sidecar block: `MkdirAll`, `filepath.Join`, `json.MarshalIndent`
and `os.WriteFile`, each step only when the previous one succeeded. -/
def saveMetadata (w : World) (tr : List Event) (dir filename : String)
    (doc : List (String × JVal)) : Option String × List Event :=
  let tr1 := tr ++ [Event.mkdirAll dir]
  if w.mkdirAll tr dir then
    let outputPath := w.filepathJoin dir filename
    match w.jsonMarshalIndent doc with
    | some jsonData =>
      let tr2 := tr1 ++ [Event.writeFile outputPath jsonData]
      if w.writeFile tr1 outputPath jsonData then (some outputPath, tr2) else (none, tr2)
    | none => (none, tr1)
  else (none, tr1)

/-! ## handleGeminiImageGeneration -/

/-- Loop variables of the response loop of `handleGeminiImageGeneration`. -/
structure GenLoop where
  resultText : String
  savedFiles : List String
  imagesCreated : Nat
  trace : List Event
  deriving DecidableEq, Repr

/-- Body of `for i, part := range candidate.Content.Parts` in
`handleGeminiImageGeneration`. -/
def genPart (w : World) (s : Server) (input : GeminiImageGenerationInput)
    (style timestamp : String) (i : Nat) (part : Part) (st : GenLoop) : GenLoop :=
  let st1 := if part.text ≠ "" then { st with resultText := part.text } else st
  match part.inlineData with
  | none => st1
  | some blob =>
    if blob.data.length > 0 then
      let st2 := { st1 with imagesCreated := st1.imagesCreated + 1 }
      let outputDir :=
        if input.outputDirectory = "" then s.config.outputDir else input.outputDirectory
      if outputDir ≠ "" then
        let filename :=
          "gemini_generated_" ++ style ++ "_" ++ timestamp ++ "_" ++ toString i ++ ".png"
        let r := saveFile w st2.trace outputDir filename blob.data
        match r.1 with
        | some outputPath =>
          { st2 with savedFiles := st2.savedFiles ++ [outputPath], trace := r.2 }
        | none => { st2 with trace := r.2 }
      else st2
    else st1

/-- The loop `for i, part := range candidate.Content.Parts`, from index `i`. -/
def genParts (w : World) (s : Server) (input : GeminiImageGenerationInput)
    (style timestamp : String) : Nat → List Part → GenLoop → GenLoop
  | _, [], st => st
  | i, part :: rest, st =>
    genParts w s input style timestamp (i + 1) rest
      (genPart w s input style timestamp i part st)

/-- The loop `for _, candidate := range response.Candidates`. -/
def genCandidates (w : World) (s : Server) (input : GeminiImageGenerationInput)
    (style timestamp : String) : List Candidate → GenLoop → GenLoop
  | [], st => st
  | candidate :: rest, st =>
    match candidate.content with
    | none => genCandidates w s input style timestamp rest st
    | some content =>
      genCandidates w s input style timestamp rest
        (genParts w s input style timestamp 0 content.parts st)

/-- The clause list `promptParts` of `handleGeminiImageGeneration`. -/
def genPromptParts (input : GeminiImageGenerationInput) (style quality : String) :
    List String :=
  let promptParts := ["Create a picture of " ++ input.prompt]
  let promptParts :=
    if style ≠ "" then promptParts ++ ["Style: " ++ style] else promptParts
  let promptParts :=
    if input.aspectRatio ≠ "" then promptParts ++ ["Aspect ratio: " ++ input.aspectRatio]
    else promptParts
  let promptParts :=
    if input.includeText then promptParts ++ ["Include high-fidelity text rendering"]
    else promptParts
  let promptParts :=
    if quality = "high" then promptParts ++ ["High quality, detailed rendering"]
    else promptParts
  promptParts

/-- The handler `handleGeminiImageGeneration`. -/
def handleGeminiImageGeneration (w : World) (s : Server)
    (input : GeminiImageGenerationInput) :
    HandlerResult GeminiImageGenerationOutput × List Event :=
  if input.prompt = "" then (.error "prompt is required", []) else
  let model := orDefault input.model "gemini-2.5-flash-image-preview"
  let style := orDefault input.style "photorealistic"
  let quality := orDefault input.quality "high"
  let language := orDefault input.language "en"
  let promptText := stringsJoin (genPromptParts input style quality) ". "
  let contents := genaiText promptText
  let r := w.generateContent [] model contents
  let tr := [Event.generateContent model contents]
  match r.2 with
  | some err => (.error ("error generating content: " ++ err), tr)
  | none =>
  match r.1 with
  | none => (.error "no content was generated", tr)
  | some response =>
  if response.candidates.length = 0 then (.error "no content was generated", tr) else
  let timestamp := w.now tr
  let st := genCandidates w s input style timestamp response.candidates
    { resultText := "", savedFiles := [], imagesCreated := 0, trace := tr ++ [Event.now] }
  let resultText :=
    if st.resultText = "" then "Image generated successfully" else st.resultText
  let metadata := [
    ("original_prompt", input.prompt),
    ("enhanced_prompt", promptText),
    ("quality", quality),
    ("safety_level", input.safetyLevel)]
  let metadataContent := [
    ("model", JVal.str model),
    ("prompt", JVal.str input.prompt),
    ("enhanced_prompt", JVal.str promptText),
    ("style", JVal.str style),
    ("aspect_ratio", JVal.str input.aspectRatio),
    ("quality", JVal.str quality),
    ("language", JVal.str language),
    ("include_text", JVal.bool input.includeText),
    ("tags", JVal.strs input.tags),
    ("generated_at", JVal.str timestamp),
    ("images_created", JVal.num st.imagesCreated)]
  let sidecar :=
    if input.outputDirectory ≠ "" then
      saveMetadata w st.trace input.outputDirectory
        ("gemini_metadata_" ++ timestamp ++ ".json") metadataContent
    else (none, st.trace)
  (.ok {
    description := resultText
    model := model
    style := style
    aspectRatio := input.aspectRatio
    quality := quality
    language := language
    tags := input.tags
    savedFiles := st.savedFiles ++ sidecar.1.toList
    metadata := metadata
    generatedAt := timestamp
    imagesCreated := st.imagesCreated }, sidecar.2)

/-! ## handleGeminiImageEdit and handleGeminiMultiImage -/

/-- Loop variables of the response loops of the edit and the multi-image
handler: `savedFiles`, the last saved path (`editedImagePath`,
`combinedImagePath`) and the trace. -/
structure SaveLoop where
  savedFiles : List String
  lastPath : String
  trace : List Event
  deriving DecidableEq, Repr

/-- Body of `for i, part := range candidate.Content.Parts` in the edit and the
multi-image handler.  `stem` is `"gemini_edited_" ++ editType`, respectively
`"gemini_combined_" ++ blendMode`. -/
def savePart (w : World) (s : Server) (outputDirectory stem timestamp : String)
    (i : Nat) (part : Part) (st : SaveLoop) : SaveLoop :=
  match part.inlineData with
  | none => st
  | some blob =>
    if blob.data.length > 0 then
      let outputDir := if outputDirectory = "" then s.config.outputDir else outputDirectory
      if outputDir ≠ "" then
        let filename := stem ++ "_" ++ timestamp ++ "_" ++ toString i ++ ".png"
        let r := saveFile w st.trace outputDir filename blob.data
        match r.1 with
        | some outputPath =>
          { savedFiles := st.savedFiles ++ [outputPath], lastPath := outputPath, trace := r.2 }
        | none => { st with trace := r.2 }
      else st
    else st

/-- The loop over the parts of one candidate, from index `i`. -/
def saveParts (w : World) (s : Server) (outputDirectory stem timestamp : String) :
    Nat → List Part → SaveLoop → SaveLoop
  | _, [], st => st
  | i, part :: rest, st =>
    saveParts w s outputDirectory stem timestamp (i + 1) rest
      (savePart w s outputDirectory stem timestamp i part st)

/-- The loop over the candidates, skipping those with nil content. -/
def saveCandidates (w : World) (s : Server) (outputDirectory stem timestamp : String) :
    List Candidate → SaveLoop → SaveLoop
  | [], st => st
  | candidate :: rest, st =>
    match candidate.content with
    | none => saveCandidates w s outputDirectory stem timestamp rest st
    | some content =>
      saveCandidates w s outputDirectory stem timestamp rest
        (saveParts w s outputDirectory stem timestamp 0 content.parts st)

/-- The clause list `promptParts` of `handleGeminiImageEdit`. -/
def editPromptParts (input : GeminiImageEditInput) (editType : String) : List String :=
  let promptParts := [input.editPrompt]
  let promptParts :=
    if input.preserveStyle then
      promptParts ++ ["Preserve the original image style and characteristics"]
    else promptParts
  let promptParts :=
    if input.maskArea ≠ "" then
      promptParts ++ ["Focus changes on the " ++ input.maskArea ++ " area"]
    else promptParts
  let promptParts :=
    if editType = "add" then promptParts ++ ["Add the requested elements to the image"]
    else if editType = "remove" then
      promptParts ++ ["Remove the specified elements from the image"]
    else if editType = "style" then
      promptParts ++ ["Change the style while keeping the subject matter"]
    else promptParts ++ ["Modify the image as requested"]
  promptParts

/-- The handler `handleGeminiImageEdit`. -/
def handleGeminiImageEdit (w : World) (s : Server) (input : GeminiImageEditInput) :
    HandlerResult GeminiImageEditOutput × List Event :=
  if input.inputImagePath = "" then (.error "input_image_path is required", []) else
  if input.editPrompt = "" then (.error "edit_prompt is required", []) else
  let model := orDefault input.model "gemini-2.5-flash-image-preview"
  let editType := orDefault input.editType "modify"
  let tr0 := [Event.readFile input.inputImagePath]
  match w.readFile [] input.inputImagePath with
  | .error err => (.error ("failed to read input image: " ++ err), tr0)
  | .ok imgData =>
  let promptText := stringsJoin (editPromptParts input editType) ". "
  let parts := [newPartFromText promptText,
    { text := "", inlineData := some { mimeType := "image/png", data := imgData } }]
  let contents := [newContentFromParts parts]
  let r := w.generateContent tr0 model contents
  let tr := tr0 ++ [Event.generateContent model contents]
  match r.2 with
  | some err => (.error ("error editing image: " ++ err), tr)
  | none =>
  match r.1 with
  | none => (.error "no edited content was generated", tr)
  | some response =>
  if response.candidates.length = 0 then (.error "no edited content was generated", tr) else
  let timestamp := w.now tr
  let st := saveCandidates w s input.outputDirectory ("gemini_edited_" ++ editType) timestamp
    response.candidates { savedFiles := [], lastPath := "", trace := tr ++ [Event.now] }
  let metadata := [
    ("original_image", input.inputImagePath),
    ("edit_prompt", input.editPrompt),
    ("edit_type", editType),
    ("preserve_style", toString input.preserveStyle),
    ("mask_area", input.maskArea)]
  (.ok {
    originalImage := input.inputImagePath
    editedImage := st.lastPath
    editType := editType
    model := model
    savedFiles := st.savedFiles
    metadata := metadata
    generatedAt := timestamp }, st.trace)

/-- The clause list `promptParts` of `handleGeminiMultiImage`. -/
def multiPromptParts (input : GeminiMultiImageInput) (blendMode : String) : List String :=
  let promptParts := [input.combinePrompt]
  let promptParts :=
    if blendMode = "collage" then
      promptParts ++ ["Create a collage arrangement of the images"]
    else if blendMode = "overlay" then
      promptParts ++ ["Overlay the images with artistic blending"]
    else if blendMode = "sequence" then
      promptParts ++ ["Arrange the images in a sequence or timeline"]
    else promptParts ++ ["Seamlessly merge the images into a cohesive composition"]
  let promptParts :=
    if input.outputStyle ≠ "" then promptParts ++ ["Output style: " ++ input.outputStyle]
    else promptParts
  promptParts

/-- The loop `for i, imagePath := range input.InputImagePaths` of
`handleGeminiMultiImage`, from index `i`: the parts with one inline image
appended per path, or the error of the first failing read. -/
def readImages (w : World) : Nat → List String → List Part → List Event →
    Except String (List Part) × List Event
  | _, [], parts, tr => (.ok parts, tr)
  | i, imagePath :: rest, parts, tr =>
    match w.readFile tr imagePath with
    | .error err =>
      (.error ("failed to read image " ++ toString (i + 1) ++ " (" ++ imagePath ++ "): " ++ err),
        tr ++ [Event.readFile imagePath])
    | .ok imgData =>
      readImages w (i + 1) rest
        (parts ++ [{ text := "", inlineData := some { mimeType := "image/png", data := imgData } }])
        (tr ++ [Event.readFile imagePath])

/-- The handler `handleGeminiMultiImage`. -/
def handleGeminiMultiImage (w : World) (s : Server) (input : GeminiMultiImageInput) :
    HandlerResult GeminiMultiImageOutput × List Event :=
  if input.inputImagePaths.length < 2 then
    (.error "at least 2 input images are required", []) else
  if input.inputImagePaths.length > 3 then
    (.error "maximum 3 input images supported", []) else
  if input.combinePrompt = "" then (.error "combine_prompt is required", []) else
  let model := orDefault input.model "gemini-2.5-flash-image-preview"
  let blendMode := orDefault input.blendMode "merge"
  let promptText := stringsJoin (multiPromptParts input blendMode) ". "
  let rd := readImages w 0 input.inputImagePaths [newPartFromText promptText] []
  match rd.1 with
  | .error msg => (.error msg, rd.2)
  | .ok parts =>
  let contents := [newContentFromParts parts]
  let r := w.generateContent rd.2 model contents
  let tr := rd.2 ++ [Event.generateContent model contents]
  match r.2 with
  | some err => (.error ("error combining images: " ++ err), tr)
  | none =>
  match r.1 with
  | none => (.error "no combined content was generated", tr)
  | some response =>
  if response.candidates.length = 0 then
    (.error "no combined content was generated", tr) else
  let timestamp := w.now tr
  let st := saveCandidates w s input.outputDirectory ("gemini_combined_" ++ blendMode)
    timestamp response.candidates
    { savedFiles := [], lastPath := "", trace := tr ++ [Event.now] }
  let metadata := [
    ("combine_prompt", input.combinePrompt),
    ("blend_mode", blendMode),
    ("output_style", input.outputStyle),
    ("images_count", toString input.inputImagePaths.length)]
  (.ok {
    inputImages := input.inputImagePaths
    combinedImage := st.lastPath
    blendMode := blendMode
    model := model
    savedFiles := st.savedFiles
    metadata := metadata
    generatedAt := timestamp
    imagesProcessed := input.inputImagePaths.length }, st.trace)

/-! ## handleImagenGeneration -/

/-- The conversion `int32(n)` of a Go `int`. -/
def toInt32 (n : Int) : Int := (n + 2147483648) % 4294967296 - 2147483648

/-- Body of `for i, generatedImage := range response.GeneratedImages`. -/
def imagenStep (w : World) (input : ImagenGenerationInput) (timestamp : String) (i : Nat)
    (generatedImage : GeneratedImage) (st : List String × List Event) :
    List String × List Event :=
  match generatedImage.image with
  | none => st
  | some image =>
    if input.outputDirectory ≠ "" then
      let filename := "imagen_" ++ timestamp ++ "_" ++ toString i ++ ".png"
      let outputPath := w.filepathJoin input.outputDirectory filename
      let tr1 := st.2 ++ [Event.mkdirAll input.outputDirectory]
      if w.mkdirAll st.2 input.outputDirectory then
        if image.imageBytes.length > 0 then
          let tr2 := tr1 ++ [Event.writeFile outputPath image.imageBytes]
          if w.writeFile tr1 outputPath image.imageBytes then (st.1 ++ [outputPath], tr2)
          else (st.1, tr2)
        else (st.1, tr1)
      else (st.1, tr1)
    else st

/-- The loop over the generated images, from index `i`; the state is
`savedFiles` and the trace. -/
def imagenLoop (w : World) (input : ImagenGenerationInput) (timestamp : String) :
    Nat → List GeneratedImage → List String × List Event → List String × List Event
  | _, [], st => st
  | i, generatedImage :: rest, st =>
    imagenLoop w input timestamp (i + 1) rest (imagenStep w input timestamp i generatedImage st)

/-- The handler `handleImagenGeneration`. -/
def handleImagenGeneration (w : World) (_s : Server) (input : ImagenGenerationInput) :
    HandlerResult ImagenGenerationOutput × List Event :=
  if input.prompt = "" then (.error "prompt is required", []) else
  let model := orDefault input.model "imagen-4.0-generate-001"
  let numImages := if input.numImages = 0 then 1 else input.numImages
  let aspectRatio := orDefault input.aspectRatio "1:1"
  let config : GenerateImagesConfig :=
    { numberOfImages := toInt32 numImages, aspectRatio := aspectRatio }
  let r := w.generateImages [] model input.prompt (some config)
  let tr := [Event.generateImages model input.prompt (some config)]
  match r.2 with
  | some err => (.error ("error generating images: " ++ err), tr)
  | none =>
  match r.1 with
  | none => (.error "no images were generated", tr)
  | some response =>
  if response.generatedImages.length = 0 then (.error "no images were generated", tr) else
  let timestamp := w.now tr
  let st := imagenLoop w input timestamp 0 response.generatedImages ([], tr ++ [Event.now])
  (.ok {
    imagesGenerated := response.generatedImages.length
    model := model
    savedFiles := st.1 }, st.2)

/-! ## The video handlers -/

/-- The poll loop
`for i := 0; i < maxAttempts && !operation.Done; i++ { time.Sleep(10 * time.Second);
 operation, err = GetVideosOperation(ctx, operation, nil); if err != nil { break } }`
with the first argument counting the attempts that remain (`maxAttempts - i`).
`operation` is overwritten by whatever the status check returned, also when the
check failed.  A nil `operation` ends the loop here; the dereference that
follows in the handler is where the crash is recorded. -/
def pollLoop (w : World) : Nat → Option GenerateVideosOperation → List Event →
    Option GenerateVideosOperation × List Event
  | 0, operation, tr => (operation, tr)
  | _ + 1, none, tr => (none, tr)
  | n + 1, some operation, tr =>
    if operation.done then (some operation, tr)
    else
      let tr1 := tr ++ [Event.sleep 10]
      let r := w.getVideosOperation tr1 operation
      let tr2 := tr1 ++ [Event.getVideosOperation operation]
      if r.2.isSome then (r.1, tr2)
      else pollLoop w n r.1 tr2

/-- What the block after the poll loop computes. -/
structure VideoOutcome where
  status : String
  savedFiles : List String
  videoURL : String
  deriving DecidableEq, Repr

/-- The block after the poll loop, from `status := "generating"` to the end of
`if operation.Done { ... } else { ... }`.  `none` is a nil dereference
(`operation.Response` or `video.Video`). -/
def videoOutcome (w : World) (tr : List Event) (operation : GenerateVideosOperation)
    (outputDirectory videoFilename : String) : Option VideoOutcome × List Event :=
  if operation.done then
    if operation.error.isSome then
      (some { status := "failed", savedFiles := [], videoURL := "" }, tr)
    else
      match operation.response with
      | none => (none, tr)
      | some response =>
        match response.generatedVideos with
        | [] => (some { status := "generating", savedFiles := [], videoURL := "" }, tr)
        | video :: _ =>
          if outputDirectory ≠ "" then
            let tr1 := tr ++ [Event.mkdirAll outputDirectory]
            if w.mkdirAll tr outputDirectory then
              let outputPath := w.filepathJoin outputDirectory videoFilename
              match video.video with
              | none => (none, tr1)
              | some v =>
                let videoBytes := w.download tr1 v
                let tr2 := tr1 ++ [Event.download v]
                let tr3 := tr2 ++ [Event.writeFile outputPath videoBytes]
                if w.writeFile tr2 outputPath videoBytes then
                  (some { status := "completed", savedFiles := [outputPath],
                          videoURL := outputPath }, tr3)
                else (some { status := "completed", savedFiles := [], videoURL := "" }, tr3)
            else (some { status := "completed", savedFiles := [], videoURL := "" }, tr1)
          else (some { status := "completed", savedFiles := [], videoURL := "" }, tr)
  else (some { status := "timeout", savedFiles := [], videoURL := "" }, tr)

/-- The text sent to `GenerateVideos`: the prompt, followed by the negative
prompt when there is one. -/
def videoPromptText (prompt negativePrompt : String) : String :=
  if negativePrompt ≠ "" then prompt ++ ". Avoid: " ++ negativePrompt else prompt

/-- The handler `handleVeoGeneration` (legacy tool). -/
def handleVeoGeneration (w : World) (_s : Server) (input : VeoGenerationInput) :
    HandlerResult VeoGenerationOutput × List Event :=
  if input.prompt = "" then (.error "prompt is required", []) else
  let aspectRatio := orDefault input.aspectRatio "16:9"
  let resolution := orDefault input.resolution "720p"
  let model := orDefault input.model "veo-3.0-generate-001"
  let timestamp := w.now []
  let tr0 := [Event.now]
  let promptText := videoPromptText input.prompt input.negativePrompt
  let sub := w.generateVideos tr0 model promptText none none
  let tr1 := tr0 ++ [Event.generateVideos model promptText none none]
  match sub.2 with
  | some err => (.error ("error starting video generation: " ++ err), tr1)
  | none =>
  match sub.1 with
  | none => (.crashed, tr1)
  | some submitted =>
  let operationID := submitted.name
  let polled := pollLoop w 60 (some submitted) tr1
  match polled.1 with
  | none => (.crashed, polled.2)
  | some operation =>
  let vo := videoOutcome w polled.2 operation input.outputDirectory
    ("veo_video_" ++ timestamp ++ ".mp4")
  match vo.1 with
  | none => (.crashed, vo.2)
  | some outcome =>
  let metadata := [
    ("original_prompt", input.prompt),
    ("negative_prompt", input.negativePrompt),
    ("operation_id", operationID)]
  let metadataContent := [
    ("model", JVal.str model),
    ("prompt", JVal.str input.prompt),
    ("negative_prompt", JVal.str input.negativePrompt),
    ("aspect_ratio", JVal.str aspectRatio),
    ("resolution", JVal.str resolution),
    ("operation_id", JVal.str operationID),
    ("video_url", JVal.str outcome.videoURL),
    ("status", JVal.str outcome.status),
    ("generated_at", JVal.str timestamp),
    ("estimated_length", JVal.str "8 seconds")]
  let sidecar :=
    if input.outputDirectory ≠ "" then
      saveMetadata w vo.2 input.outputDirectory
        ("veo_metadata_" ++ timestamp ++ ".json") metadataContent
    else (none, vo.2)
  (.ok {
    operationID := operationID
    status := outcome.status
    videoURL := outcome.videoURL
    savedFiles := outcome.savedFiles ++ sidecar.1.toList
    model := model
    aspectRatio := aspectRatio
    resolution := resolution
    metadata := metadata
    generatedAt := timestamp
    estimatedLength := "8 seconds" }, sidecar.2)

/-- The handler `handleVeoTextToVideo`. -/
def handleVeoTextToVideo (w : World) (_s : Server) (input : VeoTextToVideoInput) :
    HandlerResult VeoGenerationOutput × List Event :=
  if input.prompt = "" then (.error "prompt is required", []) else
  let aspectRatio := orDefault input.aspectRatio "16:9"
  let resolution := orDefault input.resolution "720p"
  let model := orDefault input.model "veo-3.0-generate-001"
  let timestamp := w.now []
  let tr0 := [Event.now]
  let promptText := videoPromptText input.prompt input.negativePrompt
  let sub := w.generateVideos tr0 model promptText none none
  let tr1 := tr0 ++ [Event.generateVideos model promptText none none]
  match sub.2 with
  | some err => (.error ("error starting text-to-video generation: " ++ err), tr1)
  | none =>
  match sub.1 with
  | none => (.crashed, tr1)
  | some submitted =>
  let operationID := submitted.name
  let polled := pollLoop w 60 (some submitted) tr1
  match polled.1 with
  | none => (.crashed, polled.2)
  | some operation =>
  let vo := videoOutcome w polled.2 operation input.outputDirectory
    ("veo_text_to_video_" ++ timestamp ++ ".mp4")
  match vo.1 with
  | none => (.crashed, vo.2)
  | some outcome =>
  let metadata := [
    ("generation_type", "text-to-video"),
    ("original_prompt", input.prompt),
    ("negative_prompt", input.negativePrompt),
    ("operation_id", operationID)]
  let metadata :=
    if input.seed > 0 then metadata ++ [("seed", toString input.seed)] else metadata
  let metadataContent := [
    ("generation_type", JVal.str "text-to-video"),
    ("model", JVal.str model),
    ("prompt", JVal.str input.prompt),
    ("negative_prompt", JVal.str input.negativePrompt),
    ("aspect_ratio", JVal.str aspectRatio),
    ("resolution", JVal.str resolution),
    ("seed", JVal.num input.seed),
    ("operation_id", JVal.str operationID),
    ("video_url", JVal.str outcome.videoURL),
    ("status", JVal.str outcome.status),
    ("generated_at", JVal.str timestamp),
    ("estimated_length", JVal.str "8 seconds")]
  let sidecar :=
    if input.outputDirectory ≠ "" then
      saveMetadata w vo.2 input.outputDirectory
        ("veo_text_to_video_metadata_" ++ timestamp ++ ".json") metadataContent
    else (none, vo.2)
  (.ok {
    operationID := operationID
    status := outcome.status
    videoURL := outcome.videoURL
    savedFiles := outcome.savedFiles ++ sidecar.1.toList
    model := model
    aspectRatio := aspectRatio
    resolution := resolution
    metadata := metadata
    generatedAt := timestamp
    estimatedLength := "8 seconds" }, sidecar.2)

/-- The lines
`var inputImage *genai.Image; if imagenResponse != nil && len(imagenResponse.GeneratedImages) > 0
 { inputImage = imagenResponse.GeneratedImages[0].Image }` of `handleVeoImageToVideo`. -/
def firstGeneratedImage (imagenResponse : Option GenerateImagesResponse) : Option Image :=
  match imagenResponse with
  | none => none
  | some response =>
    match response.generatedImages with
    | [] => none
    | first :: _ => first.image

/-- The handler `handleVeoImageToVideo`. -/
def handleVeoImageToVideo (w : World) (_s : Server) (input : VeoImageToVideoInput) :
    HandlerResult VeoGenerationOutput × List Event :=
  if input.imagePath = "" then (.error "image_path is required", []) else
  if input.prompt = "" then (.error "prompt is required", []) else
  let trS := [Event.stat input.imagePath]
  if w.statNotExist [] input.imagePath then
    (.error ("image file not found: " ++ input.imagePath), trS) else
  let aspectRatio := orDefault input.aspectRatio "16:9"
  let resolution := orDefault input.resolution "720p"
  let model := orDefault input.model "veo-3.0-generate-001"
  let timestamp := w.now trS
  let tr0 := trS ++ [Event.now]
  let imagePrompt := "Transform this image: " ++ input.prompt
  let imagenResponse := (w.generateImages tr0 "imagen-4.0-generate-001" imagePrompt none).1
  let trI := tr0 ++ [Event.generateImages "imagen-4.0-generate-001" imagePrompt none]
  let inputImage := firstGeneratedImage imagenResponse
  let promptText := videoPromptText input.prompt input.negativePrompt
  let sub := w.generateVideos trI model promptText inputImage none
  let tr1 := trI ++ [Event.generateVideos model promptText inputImage none]
  match sub.2 with
  | some err => (.error ("error starting image-to-video generation: " ++ err), tr1)
  | none =>
  match sub.1 with
  | none => (.crashed, tr1)
  | some submitted =>
  let operationID := submitted.name
  let polled := pollLoop w 60 (some submitted) tr1
  match polled.1 with
  | none => (.crashed, polled.2)
  | some operation =>
  let vo := videoOutcome w polled.2 operation input.outputDirectory
    ("veo_image_to_video_" ++ timestamp ++ ".mp4")
  match vo.1 with
  | none => (.crashed, vo.2)
  | some outcome =>
  let metadata := [
    ("generation_type", "image-to-video"),
    ("input_image", input.imagePath),
    ("original_prompt", input.prompt),
    ("negative_prompt", input.negativePrompt),
    ("operation_id", operationID)]
  let metadata :=
    if input.seed > 0 then metadata ++ [("seed", toString input.seed)] else metadata
  let metadataContent := [
    ("generation_type", JVal.str "image-to-video"),
    ("model", JVal.str model),
    ("input_image", JVal.str input.imagePath),
    ("prompt", JVal.str input.prompt),
    ("negative_prompt", JVal.str input.negativePrompt),
    ("aspect_ratio", JVal.str aspectRatio),
    ("resolution", JVal.str resolution),
    ("seed", JVal.num input.seed),
    ("operation_id", JVal.str operationID),
    ("video_url", JVal.str outcome.videoURL),
    ("status", JVal.str outcome.status),
    ("generated_at", JVal.str timestamp),
    ("estimated_length", JVal.str "8 seconds")]
  let sidecar :=
    if input.outputDirectory ≠ "" then
      saveMetadata w vo.2 input.outputDirectory
        ("veo_image_to_video_metadata_" ++ timestamp ++ ".json") metadataContent
    else (none, vo.2)
  (.ok {
    operationID := operationID
    status := outcome.status
    videoURL := outcome.videoURL
    savedFiles := outcome.savedFiles ++ sidecar.1.toList
    model := model
    aspectRatio := aspectRatio
    resolution := resolution
    metadata := metadata
    generatedAt := timestamp
    estimatedLength := "8 seconds" }, sidecar.2)

/-! ## Concrete worlds and inputs used to exercise the handlers -/

/-- A world in which nothing fails and nothing is produced: every remote call
returns an empty, unfinished result, every file operation succeeds. -/
def quietWorld : World where
  generateContent := fun _ _ _ => (some { candidates := [] }, none)
  generateImages := fun _ _ _ _ => (some { generatedImages := [] }, none)
  generateVideos := fun _ _ _ _ _ =>
    (some { name := "op-1", done := false, error := none, response := none }, none)
  getVideosOperation := fun _ operation => (some operation, none)
  download := fun _ v => v.videoBytes
  now := fun _ => "20240101_000000"
  readFile := fun _ _ => .ok [1, 2, 3]
  statNotExist := fun _ _ => false
  mkdirAll := fun _ _ => true
  writeFile := fun _ _ _ => true
  filepathJoin := fun dir name => dir ++ "/" ++ name
  jsonMarshalIndent := fun _ => some [123, 125]

/-- A server whose default output directory is `./output`. -/
def defaultServer : Server :=
  { config := { apiKey := "key", projectID := "", location := "us-central1", port := "8080",
                transport := "stdio", outputDir := "./output", genmediaBucket := "" } }

/-- A handler result that is a non-nil Go error. -/
def HandlerResult.isError {α : Type} : HandlerResult α → Bool
  | .error _ => true
  | _ => false

/-- A handler result that is an output with a nil error. -/
def HandlerResult.isOk {α : Type} : HandlerResult α → Bool
  | .ok _ => true
  | _ => false

/-- Directory creations and file writes: the events of the artifact writer. -/
def Event.isFileOut : Event → Bool
  | .mkdirAll _ => true
  | .writeFile _ _ => true
  | _ => false

/-- The trace `tr2` is `tr1` followed by artifact-writer events only. -/
def GrowsByFileOut (tr1 tr2 : List Event) : Prop :=
  ∃ rest, tr2 = tr1 ++ rest ∧ ∀ e ∈ rest, e.isFileOut = true

/-- An image-generation input with the given prompt and nothing else. -/
def promptOnly (prompt : String) : GeminiImageGenerationInput :=
  { prompt := prompt, model := "", style := "", aspectRatio := "", quality := "",
    safetyLevel := "", language := "", includeText := false, tags := [],
    outputDirectory := "" }

/-- An edit input with the two required fields and nothing else. -/
def editOnly (inputImagePath editPrompt : String) : GeminiImageEditInput :=
  { inputImagePath := inputImagePath, editPrompt := editPrompt, model := "",
    preserveStyle := false, editType := "", maskArea := "", outputDirectory := "" }

/-- A multi-image input with the two required fields and nothing else. -/
def multiOnly (paths : List String) (combinePrompt : String) : GeminiMultiImageInput :=
  { inputImagePaths := paths, combinePrompt := combinePrompt, model := "", blendMode := "",
    outputStyle := "", outputDirectory := "" }

/-- An Imagen input with the given prompt and nothing else. -/
def imagenOnly (prompt : String) : ImagenGenerationInput :=
  { prompt := prompt, model := "", numImages := 0, aspectRatio := "", outputDirectory := "" }

/-- A text-to-video input with the given prompt and nothing else. -/
def textToVideoOnly (prompt : String) : VeoTextToVideoInput :=
  { prompt := prompt, negativePrompt := "", aspectRatio := "", resolution := "", model := "",
    seed := 0, outputDirectory := "" }

/-- An image-to-video input with the two required fields and nothing else. -/
def imageToVideoOnly (imagePath prompt : String) : VeoImageToVideoInput :=
  { imagePath := imagePath, prompt := prompt, negativePrompt := "", aspectRatio := "",
    resolution := "", model := "", seed := 0, outputDirectory := "" }

/-- A legacy video input with the given prompt and nothing else. -/
def legacyVideoOnly (prompt : String) : VeoGenerationInput :=
  { prompt := prompt, negativePrompt := "", aspectRatio := "", resolution := "", model := "",
    imagePath := "", seed := 0, outputDirectory := "" }

/-- The events of a run of poll iterations: for each operation handle that
was checked, one 10-second sleep followed by the status check. -/
def pollEvents (ops : List GenerateVideosOperation) : List Event :=
  ops.flatMap (fun o => [Event.sleep 10, Event.getVideosOperation o])

/-- The handler run `r` ends in a result record with a nil error and status
`timeout`, after exactly `n` status checks; its sleeps and status checks, in
order, are `n` repetitions of one 10-second sleep followed by one status
check. -/
def TimesOutAfter (n : Nat) (r : HandlerResult VeoGenerationOutput × List Event) : Prop :=
  ∃ out ops, r.1 = .ok out ∧ out.status = "timeout" ∧ ops.length = n ∧
    statusChecks r.2 = n ∧ r.2.filter Event.isPoll = pollEvents ops

/-- A world whose video backend accepts every job and never reports it done. -/
def stuckWorld : World :=
  { quietWorld with
    getVideosOperation := fun _ operation => (some { operation with done := false }, none) }

/-- A world whose video backend reports the job finished at once, without an
error and with an empty list of generated videos. -/
def emptyDoneWorld : World :=
  { quietWorld with
    generateVideos := fun _ _ _ _ _ =>
      (some { name := "op-1", done := true, error := none,
              response := some { generatedVideos := [] } }, none) }

/-- A world whose status checks succeed twice (operation not done) and fail
from the third on; a failing call returns a nil operation together with its
error, the way the genai client reports a transport error. -/
def flakyWorld : World :=
  { quietWorld with
    getVideosOperation := fun tr operation =>
      if statusChecks tr < 2 then (some { operation with done := false }, none)
      else (none, some "connection reset") }

/-- The handler run `r` ends in a nil dereference after exactly `n` status
checks; its sleeps and status checks, in order, are `n` repetitions of one
10-second sleep followed by one status check. -/
def CrashesAfter (n : Nat) (r : HandlerResult VeoGenerationOutput × List Event) : Prop :=
  r.1 = .crashed ∧ ∃ ops, ops.length = n ∧
    statusChecks r.2 = n ∧ r.2.filter Event.isPoll = pollEvents ops

/-- A world whose status checks fail and return a nil operation, the way the
genai client reports a transport error. -/
def brokenWorld : World :=
  { quietWorld with getVideosOperation := fun _ _ => (none, some "connection reset") }

/-- Generation requests to the remote API: content, image and video
generation. -/
def Event.isGeneration : Event → Bool
  | .generateContent _ _ => true
  | .generateImages _ _ _ => true
  | .generateVideos _ _ _ _ => true
  | _ => false

/-- The trace `tr2` is `tr1` followed by events none of which is a generation
request. -/
def Quiet (tr1 tr2 : List Event) : Prop :=
  ∃ rest, tr2 = tr1 ++ rest ∧ ∀ e ∈ rest, e.isGeneration = false

/-- A world whose content generation returns one candidate holding one image
fragment; everything else as in `quietWorld`. -/
def pictureWorld : World :=
  { quietWorld with
    generateContent := fun _ _ _ =>
      (some { candidates := [
        { content := some {
            parts := [
              { text := "",
                inlineData := some { mimeType := "image/png", data := [137, 80, 78, 71] } }],
            role := "model" } }] }, none) }

/-- The handler run `r` ends in an error after exactly one remote API call and
without any file write. -/
def FailsAfterOneCall {α : Type} (r : HandlerResult α × List Event) : Prop :=
  r.1.isError = true ∧ remoteCalls r.2 = 1 ∧ fileWrites r.2 = 0

/-- A world whose image backends answer every generation request with an
error. -/
def failingWorld : World :=
  { quietWorld with
    generateContent := fun _ _ _ => (none, some "quota exceeded")
    generateImages := fun _ _ _ _ => (none, some "quota exceeded") }

/-- The candidates of the response together contain zero content fragments. -/
def NoFragments (r : GenerateContentResponse) : Prop :=
  ∀ c ∈ r.candidates, ∀ content, c.content = some content → content.parts = []

/-- A response with one candidate whose content has no parts. -/
def emptyPartsResponse : GenerateContentResponse :=
  { candidates := [{ content := some { parts := [], role := "model" } }] }

/-- A world whose content generation succeeds with `emptyPartsResponse`. -/
def emptyPartsWorld : World :=
  { quietWorld with generateContent := fun _ _ _ => (some emptyPartsResponse, none) }

/-- File reads. -/
def Event.isRead : Event → Bool
  | .readFile _ => true
  | _ => false

/-- The paths of the file writes of a trace, in order. -/
def writtenPaths : List Event → List String
  | [] => []
  | .writeFile path _ :: rest => path :: writtenPaths rest
  | _ :: rest => writtenPaths rest

/-- The file name `handleGeminiImageGeneration` gives to the image it finds at
index `i` of a candidate: the `fmt.Sprintf("gemini_generated_%s_%s_%d.png", ...)`
of the handler. -/
def generatedImageName (style timestamp : String) (i : Nat) : String :=
  "gemini_generated_" ++ style ++ "_" ++ timestamp ++ "_" ++ toString i ++ ".png"

/-- A candidate holding one image fragment with the given bytes. -/
def imageCandidate (data : Bytes) : Candidate :=
  { content := some
      { parts := [{ text := "", inlineData := some { mimeType := "image/png", data := data } }],
        role := "model" } }

/-- A world whose content generation returns two candidates, each holding one
image fragment; the two payloads differ. -/
def twoCandidatesWorld : World :=
  { quietWorld with
    generateContent := fun _ _ _ =>
      (some { candidates := [imageCandidate [1, 1, 1], imageCandidate [2, 2, 2]] }, none) }

/-- A world whose Imagen backend returns one image with bytes `[9, 9]`; the
files on disk read as `[1, 2, 3]`, as in `quietWorld`. -/
def imagenWorld : World :=
  { quietWorld with
    generateImages := fun _ _ _ _ =>
      (some { generatedImages := [{ image := some { imageBytes := [9, 9] } }] }, none) }

/-- An image-to-video request for the file `fox.png`. -/
def foxToVideo : VeoImageToVideoInput := imageToVideoOnly "fox.png" "make it move"

/-- A legacy video request that names a starting image. -/
def legacyWithImage : VeoGenerationInput :=
  { legacyVideoOnly "a fox" with imagePath := "fox.png" }

/-- An Imagen request for `n` images. -/
def imagenCount (n : Int) : ImagenGenerationInput :=
  { imagenOnly "a fox" with numImages := n }

/-! ## Configuration (`internal/common/config.go`, `internal/config/config.go`) -/

/-- The process environment: `none` for a variable that is not set. -/
abbrev Environ := String → Option String

/-- `os.Getenv`: the value of the variable, `""` when it is not set. -/
def osGetenv (env : Environ) (key : String) : String :=
  (env key).getD ""

/-- The variable is not set, or set to the empty string. -/
def unsetOrEmpty (env : Environ) (key : String) : Prop :=
  env key = none ∨ env key = some ""

/-- The function `getEnvOrDefault` of `internal/common/config.go`. -/
def getEnvOrDefault (env : Environ) (key defaultValue : String) : String :=
  let value := osGetenv env key
  if value ≠ "" then value else defaultValue

/-- The function `LoadConfig` of `internal/common/config.go`.  The result of
`os.MkdirAll` only decides whether a warning is printed. -/
def LoadConfig (env : Environ) : Config × List Event :=
  let config : Config := {
    apiKey := osGetenv env "GOOGLE_API_KEY"
    projectID := osGetenv env "GOOGLE_PROJECT_ID"
    location := getEnvOrDefault env "GOOGLE_LOCATION" "us-central1"
    port := getEnvOrDefault env "PORT" "8080"
    transport := getEnvOrDefault env "TRANSPORT" "stdio"
    outputDir := getEnvOrDefault env "OUTPUT_DIR" "./output"
    genmediaBucket := osGetenv env "GENMEDIA_BUCKET" }
  if config.outputDir ≠ "" then (config, [Event.mkdirAll config.outputDir]) else (config, [])

/-- The method `(c *Config) Validate` of `internal/common/config.go`: the
error, and the configuration after the call. -/
def Config.Validate (c : Config) : Option String × Config :=
  if c.apiKey = "" then (some "GOOGLE_API_KEY environment variable is required", c)
  else (none, c)

namespace config

/-- Configuration record of `internal/config/config.go`. -/
structure Config where
  apiKey : String
  projectID : String
  location : String
  outputDir : String
  transport : String
  ssePort : Int
  deriving DecidableEq, Repr

/-- The function `getEnvOrDefault` of `internal/config/config.go`. -/
def getEnvOrDefault (env : Environ) (key defaultValue : String) : String :=
  let value := osGetenv env key
  if value ≠ "" then value else defaultValue

/-- The function `Load` of `internal/config/config.go`.  The text of the
operating-system error wrapped into the second message is not modelled. -/
def Load (w : World) (env : Environ) : Except String Config × List Event :=
  let config : Config := {
    apiKey := osGetenv env "GOOGLE_API_KEY"
    projectID := osGetenv env "GOOGLE_PROJECT_ID"
    location := getEnvOrDefault env "GOOGLE_LOCATION" "us-central1"
    outputDir := getEnvOrDefault env "OUTPUT_DIR" "./output"
    transport := getEnvOrDefault env "TRANSPORT" "stdio"
    ssePort := 8080 }
  if config.apiKey = "" then
    (.error "GOOGLE_API_KEY environment variable is required", [])
  else if w.mkdirAll [] config.outputDir then (.ok config, [Event.mkdirAll config.outputDir])
  else (.error "failed to create output directory", [Event.mkdirAll config.outputDir])

end config

/-! ## Start-up (`main` and `registerTools` of `main.go`) -/

/-- The seven handler methods of the server. -/
inductive ToolHandler where
  | handleGeminiImageGeneration
  | handleGeminiImageEdit
  | handleGeminiMultiImage
  | handleImagenGeneration
  | handleVeoTextToVideo
  | handleVeoImageToVideo
  | handleVeoGeneration
  deriving DecidableEq, Repr

/-- One `mcp.AddTool` registration: the tool name and the handler bound to it.
The description texts are not modelled. -/
structure Tool where
  name : String
  handler : ToolHandler
  deriving DecidableEq, Repr

/-- The function `registerTools`: the registrations in source order. -/
def registerTools : List Tool := [
  { name := "gemini_image_generation", handler := .handleGeminiImageGeneration },
  { name := "gemini_image_edit", handler := .handleGeminiImageEdit },
  { name := "gemini_multi_image", handler := .handleGeminiMultiImage },
  { name := "imagen_t2i", handler := .handleImagenGeneration },
  { name := "veo_text_to_video", handler := .handleVeoTextToVideo },
  { name := "veo_image_to_video", handler := .handleVeoImageToVideo },
  { name := "veo_generate_video", handler := .handleVeoGeneration }]

/-- The command-line flags of `main.go`. -/
structure Flags where
  transport : String
  showVersion : Bool
  deriving DecidableEq, Repr

/-- The build variables `version`, `buildTime` and `gitCommit`. -/
structure BuildInfo where
  version : String
  buildTime : String
  gitCommit : String
  deriving DecidableEq, Repr

/-- The transports a server can be run on, as the help text of the
`--transport` flag names them. -/
inductive McpTransport where
  | stdio
  | http
  | sse
  deriving DecidableEq, Repr

/-- The flag value that names a transport. -/
def McpTransport.name : McpTransport → String
  | .stdio => "stdio"
  | .http => "http"
  | .sse => "sse"

/-- How `main` ends or what it ends up doing. -/
inductive MainOutcome where
  /-- The `--version` branch: the printed lines, then `return`. -/
  | version (lines : List String)
  /-- A `log.Fatalf`. -/
  | fatal (msg : String)
  /-- The call `mcpServer.Run(ctx, transport)`, with the configuration in
  force, the registered tools and the start-up log line. -/
  | serving (transport : McpTransport) (config : Config) (tools : List Tool)
      (logLine : String)
  deriving DecidableEq, Repr

/-- The transport the service runs on, when it runs. -/
def MainOutcome.transport? : MainOutcome → Option McpTransport
  | .serving transport _ _ _ => some transport
  | _ => none

/-- The configuration in force when the service runs. -/
def MainOutcome.config? : MainOutcome → Option Config
  | .serving _ config _ _ => some config
  | _ => none

/-- The constant `serviceName`. -/
def serviceName : String := "gemini-mcp"

/-- The function `main`.  `newClient` is `genai.NewClient`, given the API key:
its error, if any. -/
def main (build : BuildInfo) (flags : Flags) (env : Environ)
    (newClient : String → Option String) : MainOutcome × List Event :=
  if flags.showVersion then
    (.version [
      serviceName ++ " v" ++ build.version,
      "A Model Context Protocol server for Google Gemini AI services",
      "Built: " ++ build.buildTime,
      "Commit: " ++ build.gitCommit], [])
  else
    let loaded := LoadConfig env
    let config := loaded.1
    match config.Validate.1 with
    | some err => (.fatal ("Configuration error: " ++ err), loaded.2)
    | none =>
    let config :=
      if flags.transport ≠ "" then { config with transport := flags.transport } else config
    match newClient config.apiKey with
    | some err => (.fatal ("Failed to create Gemini client: " ++ err), loaded.2)
    | none =>
    (.serving McpTransport.stdio config registerTools
      ("Starting " ++ serviceName ++ " v" ++ build.version ++ " (Transport: " ++
        config.transport ++ ")"), loaded.2)

/-- The build variables of a development build. -/
def devBuild : BuildInfo := { version := "dev", buildTime := "unknown", gitCommit := "unknown" }

/-- An environment in which only the listed variables are set. -/
def environOf (vars : List (String × String)) : Environ :=
  fun key => (vars.find? (fun kv => kv.1 == key)).map (fun kv => kv.2)

/-! ## Successful writes of a trace -/

/-- The path of the event `e`, performed after the history `pre`, when `e` is
a file write that succeeded. -/
def successfulWriteOf (w : World) (pre : List Event) (e : Event) : List String :=
  match e with
  | .writeFile path data => if w.writeFile pre path data then [path] else []
  | _ => []

/-- The paths of the file writes among `events` that succeeded, in order, when
`events` are performed after the history `pre`. -/
def successfulWritesFrom (w : World) : List Event → List Event → List String
  | _, [] => []
  | pre, e :: rest => successfulWriteOf w pre e ++ successfulWritesFrom w (pre ++ [e]) rest

/-- The paths whose write succeeded in the run with trace `tr`, in write
order. -/
def successfulWrites (w : World) (tr : List Event) : List String :=
  successfulWritesFrom w [] tr

/-- From the trace `tr1` and the saved-file list `saved1`, a block arrives at
`tr2` and `saved2` by appending events and, to the list, exactly the paths of
the appended writes that succeeded. -/
def Tracks (w : World) (tr1 : List Event) (saved1 : List String) (tr2 : List Event)
    (saved2 : List String) : Prop :=
  ∃ added, tr2 = tr1 ++ added ∧ saved2 = saved1 ++ successfulWritesFrom w tr1 added

/-- A disk on which writing the payload `[1, 1, 1]` fails and every other
write succeeds, with the two-candidate content backend and the Imagen backend
of `imagenWorld`. -/
def flakyDiskWorld : World :=
  { imagenWorld with
    generateContent := twoCandidatesWorld.generateContent
    writeFile := fun _ _ data => data != [1, 1, 1] }

/-! ## JSON documents -/

/-- The value stored under a key of a JSON object. -/
def docLookup (doc : List (String × JVal)) (k : String) : Option JVal :=
  (doc.find? (fun e => e.1 == k)).map (fun e => e.2)

/-- Characters as natural numbers, for the serialisation below. -/
instance charEncodable : Encodable Char :=
  Encodable.ofLeftInjection Char.toNat (fun n => some (Char.ofNat n)) (by intro c; simp)

/-- Strings as lists of characters, for the serialisation below. -/
instance stringEncodable : Encodable String :=
  Encodable.ofLeftInjection String.toList (fun l => some (String.mk l)) (by intro s; rfl)

/-- JSON values as a sum, for the serialisation below. -/
instance jvalEncodable : Encodable JVal :=
  Encodable.ofLeftInjection
    (fun v : JVal => match v with
      | .str s => (Sum.inl (Sum.inl s) : (String ⊕ Int) ⊕ (Bool ⊕ List String))
      | .num n => Sum.inl (Sum.inr n)
      | .bool b => Sum.inr (Sum.inl b)
      | .strs xs => Sum.inr (Sum.inr xs))
    (fun x => match x with
      | Sum.inl (Sum.inl s) => some (.str s)
      | Sum.inl (Sum.inr n) => some (.num n)
      | Sum.inr (Sum.inl b) => some (.bool b)
      | Sum.inr (Sum.inr xs) => some (.strs xs))
    (by intro v; cases v <;> rfl)

/-- A lossless serialisation of JSON documents, standing in for
`json.MarshalIndent` in the concrete worlds below. -/
def codecMarshal (doc : List (String × JVal)) : Option Bytes :=
  some [Encodable.encode doc]

/-- The parser that goes with `codecMarshal`, standing in for
`json.Unmarshal`. -/
def codecUnmarshal (d : Bytes) : Option (List (String × JVal)) :=
  match d with
  | [n] => Encodable.decode n
  | _ => none

/-- The world `pictureWorld` with the lossless serialisation. -/
def codecWorld : World :=
  { pictureWorld with jsonMarshalIndent := codecMarshal }

/-- An image request that supplies a safety level and an output directory. -/
def strictRequest : GeminiImageGenerationInput :=
  { promptOnly "a red fox in snow" with safetyLevel := "strict", outputDirectory := "out" }

/-- What the document `doc` holds about the image request `i` and its output
`out`: the prompt, aspect ratio, text flag and tags as supplied; the model,
style, quality and language in force (the supplied value, or the default of
the handler when the field is empty); the enhanced prompt and the timestamp
that the handler returns, and the image count; and no safety level. -/
def SidecarEntries (i : GeminiImageGenerationInput) (out : GeminiImageGenerationOutput)
    (doc : List (String × JVal)) : Prop :=
  docLookup doc "prompt" = some (.str i.prompt) ∧
  docLookup doc "model" = some (.str
    (if i.model = "" then "gemini-2.5-flash-image-preview" else i.model)) ∧
  docLookup doc "style" = some (.str (if i.style = "" then "photorealistic" else i.style)) ∧
  docLookup doc "aspect_ratio" = some (.str i.aspectRatio) ∧
  docLookup doc "quality" = some (.str (if i.quality = "" then "high" else i.quality)) ∧
  docLookup doc "language" = some (.str (if i.language = "" then "en" else i.language)) ∧
  docLookup doc "include_text" = some (.bool i.includeText) ∧
  docLookup doc "tags" = some (.strs i.tags) ∧
  (∃ enhanced, lookup out.metadata "enhanced_prompt" = some enhanced ∧
    docLookup doc "enhanced_prompt" = some (.str enhanced)) ∧
  docLookup doc "generated_at" = some (.str out.generatedAt) ∧
  docLookup doc "images_created" = some (.num out.imagesCreated) ∧
  docLookup doc "safety_level" = none

/-! ## Prompt clauses as the specification lists them -/

/-- The clauses of the image-generation prompt in the order the specification
gives: base instruction, style, aspect ratio (only if non-empty), text
rendering (only if requested), quality (only if the quality in force is
`high`). -/
def specImagePromptClauses (i : GeminiImageGenerationInput) : List String :=
  ["Create a picture of " ++ i.prompt, "Style: " ++ orDefault i.style "photorealistic"] ++
  (if i.aspectRatio ≠ "" then ["Aspect ratio: " ++ i.aspectRatio] else []) ++
  (if i.includeText then ["Include high-fidelity text rendering"] else []) ++
  (if orDefault i.quality "high" = "high" then ["High quality, detailed rendering"] else [])

/-- The edit-type clause: the text the `switch editType` of
`handleGeminiImageEdit` selects. -/
def editTypeClause (editType : String) : String :=
  if editType = "add" then "Add the requested elements to the image"
  else if editType = "remove" then "Remove the specified elements from the image"
  else if editType = "style" then "Change the style while keeping the subject matter"
  else "Modify the image as requested"

/-- The clauses of the edit prompt in the order the specification gives: base
instruction, edit-type clause, mask-area clause (only if a mask area is
given), preservation clause (only if requested). -/
def specEditPromptClauses (i : GeminiImageEditInput) : List String :=
  [i.editPrompt, editTypeClause (orDefault i.editType "modify")] ++
  (if i.maskArea ≠ "" then ["Focus changes on the " ++ i.maskArea ++ " area"] else []) ++
  (if i.preserveStyle then ["Preserve the original image style and characteristics"] else [])

/-- The clauses of the edit prompt in the order of the source: base
instruction, preservation clause (only if requested), mask-area clause (only
if a mask area is given), edit-type clause. -/
def sourceEditPromptClauses (i : GeminiImageEditInput) : List String :=
  [i.editPrompt] ++
  (if i.preserveStyle then ["Preserve the original image style and characteristics"] else []) ++
  (if i.maskArea ≠ "" then ["Focus changes on the " ++ i.maskArea ++ " area"] else []) ++
  [editTypeClause (orDefault i.editType "modify")]

/-- The request `handleGeminiImageEdit` sends for the prompt text `text` and
the image bytes `imgData`: one user content with the text part and the inline
image. -/
def editContents (text : String) (imgData : Bytes) : List Content :=
  [newContentFromParts [newPartFromText text,
    { text := "", inlineData := some { mimeType := "image/png", data := imgData } }]]

/-- An edit request with a mask area, style preservation and the edit type
`add`. -/
def maskedEdit : GeminiImageEditInput :=
  { editOnly "fox.png" "add a hat" with
    preserveStyle := true, editType := "add", maskArea := "background" }

/-- Video-generation requests. -/
def Event.isVideoRequest : Event → Bool
  | .generateVideos _ _ _ _ => true
  | _ => false

/-- Two text-to-video requests that differ in aspect ratio, resolution and
seed only. -/
def wideVideo : VeoTextToVideoInput :=
  { textToVideoOnly "a fox running" with aspectRatio := "16:9", resolution := "1080p", seed := 7 }

/-- The companion of `wideVideo`. -/
def tallVideo : VeoTextToVideoInput :=
  { textToVideoOnly "a fox running" with aspectRatio := "9:16", resolution := "720p", seed := 9 }

/-- The properties of a video output, for a request with the given output
directory: the status is one of the four status words; video_url is non-empty
only if the status is `completed` and an output directory was given;
saved_files is at most one video file followed by at most one metadata
sidecar, the video file is present only if the status is `completed` and an
output directory was given, and it is then the file that video_url names; so
saved_files has at most two entries. -/
def VideoOutputInvariant (outputDirectory : String) (out : VeoGenerationOutput) : Prop :=
  out.status ∈ ["completed", "failed", "timeout", "generating"] ∧
  (out.videoURL ≠ "" → out.status = "completed" ∧ outputDirectory ≠ "") ∧
  (∃ video sidecar, out.savedFiles = video ++ sidecar ∧
    video.length ≤ 1 ∧ sidecar.length ≤ 1 ∧
    (video ≠ [] → out.status = "completed" ∧ outputDirectory ≠ "" ∧ video = [out.videoURL]) ∧
    (sidecar ≠ [] → outputDirectory ≠ "")) ∧
  out.savedFiles.length ≤ 2

/-- A world whose video backend reports the job finished at once, with one
generated video. -/
def doneWorld : World :=
  { quietWorld with
    generateVideos := fun _ _ _ _ _ =>
      (some { name := "op-1", done := true, error := none,
              response := some { generatedVideos :=
                [{ video := some { uri := "https://example.invalid/v", videoBytes := [] } }] } },
        none)
    download := fun _ _ => [0, 0, 1] }

/-- A text-to-video request that names an output directory. -/
def savedVideo : VeoTextToVideoInput :=
  { textToVideoOnly "a fox running" with outputDirectory := "out" }

/-- The part carries inline binary data that is not empty
(`part.InlineData != nil && len(part.InlineData.Data) > 0`). -/
def Part.hasImage (part : Part) : Bool :=
  match part.inlineData with
  | some blob => decide (blob.data.length > 0)
  | none => false

/-- The number of content fragments with non-empty inline binary data over the
candidates with non-nil content. -/
def candidateFragments : List Candidate → Nat
  | [] => 0
  | candidate :: rest =>
    (match candidate.content with
      | none => 0
      | some content => content.parts.countP Part.hasImage) + candidateFragments rest

/-- The number of image fragments of a response. -/
def imageFragments (resp : GenerateContentResponse) : Nat :=
  candidateFragments resp.candidates

/-- The path `p` is a generated-image path of the call: some directory joined
with a `gemini_generated_..._<index>.png` name of the call. -/
def IsGeneratedImagePath (w : World) (style timestamp : String) (p : String) : Prop :=
  ∃ dir k, p = w.filepathJoin dir (generatedImageName style timestamp k)

/-- The loop state `st2` comes from `st1` by counting `n` images and saving at
most `n` generated-image paths. -/
def CountsImages (w : World) (style timestamp : String) (n : Nat) (st1 st2 : GenLoop) : Prop :=
  st2.imagesCreated = st1.imagesCreated + n ∧
  ∃ extra, st2.savedFiles = st1.savedFiles ++ extra ∧ extra.length ≤ n ∧
    ∀ p ∈ extra, IsGeneratedImagePath w style timestamp p

/-- What the outputs of the legacy video tool (`o1`) and of the text-to-video
tool (`o2`) have in common, and how their `metadata` maps differ: the
text-to-video map has the additional entry `generation_type`, and the entry
`seed` when the seed is positive. -/
def VideoOutputsAgree (seed : Int) (o1 o2 : VeoGenerationOutput) : Prop :=
  o1.status = o2.status ∧ o1.operationID = o2.operationID ∧ o1.model = o2.model ∧
  o1.aspectRatio = o2.aspectRatio ∧ o1.resolution = o2.resolution ∧
  o1.estimatedLength = o2.estimatedLength ∧ o1.generatedAt = o2.generatedAt ∧
  o2.metadata = [("generation_type", "text-to-video")] ++ o1.metadata ++
    (if seed > 0 then [("seed", toString seed)] else [])

/-- How the results of `handleVeoGeneration` and of `handleVeoTextToVideo`
correspond: both return an output, both return an error (the same validation
error, or the error of the submit call under the two wordings of the
handlers), or both dereference nil. -/
def VideoResultsAgree (seed : Int) :
    HandlerResult VeoGenerationOutput → HandlerResult VeoGenerationOutput → Prop
  | .ok o1, .ok o2 => VideoOutputsAgree seed o1 o2
  | .error e1, .error e2 =>
    (e1 = "prompt is required" ∧ e2 = "prompt is required") ∨
    ∃ err, e1 = "error starting video generation: " ++ err ∧
      e2 = "error starting text-to-video generation: " ++ err
  | .crashed, .crashed => True
  | _, _ => False

/-- A file system on which `os.MkdirAll` and `os.WriteFile` never fail, with a
`json.MarshalIndent` that never fails. -/
def WorkingFileSystem (w : World) : Prop :=
  (∀ tr dir, w.mkdirAll tr dir = true) ∧ (∀ tr path data, w.writeFile tr path data = true) ∧
  (∀ doc, (w.jsonMarshalIndent doc).isSome = true)

/-- The files a video output reports when nothing fails on disk: the video
under `videoName` when the job completed and a directory was given, followed by
the sidecar under `sidecarName` when a directory was given. -/
def ReportsVideoFiles (w : World) (dir videoName sidecarName : String)
    (o : VeoGenerationOutput) : Prop :=
  o.savedFiles =
    (if o.status = "completed" ∧ dir ≠ "" then [w.filepathJoin dir videoName] else []) ++
    (if dir ≠ "" then [w.filepathJoin dir sidecarName] else []) ∧
  o.videoURL = (if o.status = "completed" ∧ dir ≠ "" then w.filepathJoin dir videoName else "")

/-- A legacy video request and a text-to-video request with the same common
fields; the seeds differ. -/
def legacySaved : VeoGenerationInput :=
  { legacyVideoOnly "a fox running" with
    negativePrompt := "rain", outputDirectory := "out", seed := 3 }

def textSaved : VeoTextToVideoInput :=
  { textToVideoOnly "a fox running" with
    negativePrompt := "rain", outputDirectory := "out", seed := 7 }

/-! ## Traces of the shared blocks -/

theorem growsByFileOut_refl (tr : List Event) : GrowsByFileOut tr tr :=
  ⟨[], by simp, by simp⟩

theorem growsByFileOut_trans {a b c : List Event} (h1 : GrowsByFileOut a b)
    (h2 : GrowsByFileOut b c) : GrowsByFileOut a c := by
  obtain ⟨r1, rfl, hr1⟩ := h1
  obtain ⟨r2, rfl, hr2⟩ := h2
  refine ⟨r1 ++ r2, by simp, ?_⟩
  intro e he
  rcases List.mem_append.mp he with h | h
  · exact hr1 e h
  · exact hr2 e h

theorem saveFile_grows (w : World) (tr : List Event) (dir filename : String) (data : Bytes) :
    GrowsByFileOut tr (saveFile w tr dir filename data).2 := by
  unfold saveFile
  by_cases h1 : w.mkdirAll tr dir = true
  · by_cases h2 :
      w.writeFile (tr ++ [Event.mkdirAll dir]) (w.filepathJoin dir filename) data = true
    · simp only [h1, h2, if_true]
      exact ⟨[Event.mkdirAll dir, Event.writeFile (w.filepathJoin dir filename) data],
        by simp, by simp [Event.isFileOut]⟩
    · simp only [h1, h2, if_true]
      exact ⟨[Event.mkdirAll dir, Event.writeFile (w.filepathJoin dir filename) data],
        by simp, by simp [Event.isFileOut]⟩
  · simp only [h1]
    exact ⟨[Event.mkdirAll dir], by simp, by simp [Event.isFileOut]⟩

theorem saveMetadata_grows (w : World) (tr : List Event) (dir filename : String)
    (doc : List (String × JVal)) :
    GrowsByFileOut tr (saveMetadata w tr dir filename doc).2 := by
  unfold saveMetadata
  by_cases h1 : w.mkdirAll tr dir = true
  · simp only [h1, if_true]
    cases hj : w.jsonMarshalIndent doc with
    | none => exact ⟨[Event.mkdirAll dir], by simp, by simp [Event.isFileOut]⟩
    | some jsonData =>
      by_cases h2 :
        w.writeFile (tr ++ [Event.mkdirAll dir]) (w.filepathJoin dir filename) jsonData = true
      · simp only [h2, if_true]
        exact ⟨[Event.mkdirAll dir, Event.writeFile (w.filepathJoin dir filename) jsonData],
          by simp, by simp [Event.isFileOut]⟩
      · simp only [h2]
        exact ⟨[Event.mkdirAll dir, Event.writeFile (w.filepathJoin dir filename) jsonData],
          by simp, by simp [Event.isFileOut]⟩
  · simp only [h1]
    exact ⟨[Event.mkdirAll dir], by simp, by simp [Event.isFileOut]⟩

theorem growsByFileOut_mkdir (tr : List Event) (dir : String) :
    GrowsByFileOut tr (tr ++ [Event.mkdirAll dir]) :=
  ⟨[Event.mkdirAll dir], rfl, by simp [Event.isFileOut]⟩

theorem growsByFileOut_mkdir_write (tr : List Event) (dir path : String) (data : Bytes) :
    GrowsByFileOut tr (tr ++ [Event.mkdirAll dir] ++ [Event.writeFile path data]) :=
  ⟨[Event.mkdirAll dir, Event.writeFile path data], by simp, by simp [Event.isFileOut]⟩

theorem genPart_grows (w : World) (s : Server) (input : GeminiImageGenerationInput)
    (style timestamp : String) (i : Nat) (part : Part) (st : GenLoop) :
    GrowsByFileOut st.trace (genPart w s input style timestamp i part st).trace := by
  unfold genPart
  simp only []
  repeat' split
  all_goals first
    | exact growsByFileOut_refl _
    | exact saveFile_grows _ _ _ _ _

theorem genParts_grows (w : World) (s : Server) (input : GeminiImageGenerationInput)
    (style timestamp : String) (parts : List Part) :
    ∀ (i : Nat) (st : GenLoop),
      GrowsByFileOut st.trace (genParts w s input style timestamp i parts st).trace := by
  induction parts with
  | nil => intro i st; simp [genParts, growsByFileOut_refl]
  | cons part rest ih =>
    intro i st
    simp only [genParts]
    exact growsByFileOut_trans (genPart_grows w s input style timestamp i part st) (ih _ _)

theorem genCandidates_grows (w : World) (s : Server) (input : GeminiImageGenerationInput)
    (style timestamp : String) (cands : List Candidate) :
    ∀ st : GenLoop,
      GrowsByFileOut st.trace (genCandidates w s input style timestamp cands st).trace := by
  induction cands with
  | nil => intro st; simp [genCandidates, growsByFileOut_refl]
  | cons c rest ih =>
    intro st
    simp only [genCandidates]
    cases c.content with
    | none => exact ih st
    | some content =>
      exact growsByFileOut_trans (genParts_grows w s input style timestamp content.parts 0 st)
        (ih _)

theorem savePart_grows (w : World) (s : Server) (outputDirectory stem timestamp : String)
    (i : Nat) (part : Part) (st : SaveLoop) :
    GrowsByFileOut st.trace (savePart w s outputDirectory stem timestamp i part st).trace := by
  unfold savePart
  simp only []
  repeat' split
  all_goals first
    | exact growsByFileOut_refl _
    | exact saveFile_grows _ _ _ _ _

theorem saveParts_grows (w : World) (s : Server) (outputDirectory stem timestamp : String)
    (parts : List Part) :
    ∀ (i : Nat) (st : SaveLoop),
      GrowsByFileOut st.trace
        (saveParts w s outputDirectory stem timestamp i parts st).trace := by
  induction parts with
  | nil => intro i st; simp [saveParts, growsByFileOut_refl]
  | cons part rest ih =>
    intro i st
    simp only [saveParts]
    exact growsByFileOut_trans (savePart_grows w s outputDirectory stem timestamp i part st)
      (ih _ _)

theorem saveCandidates_grows (w : World) (s : Server)
    (outputDirectory stem timestamp : String) (cands : List Candidate) :
    ∀ st : SaveLoop,
      GrowsByFileOut st.trace
        (saveCandidates w s outputDirectory stem timestamp cands st).trace := by
  induction cands with
  | nil => intro st; simp [saveCandidates, growsByFileOut_refl]
  | cons c rest ih =>
    intro st
    simp only [saveCandidates]
    cases c.content with
    | none => exact ih st
    | some content =>
      exact growsByFileOut_trans
        (saveParts_grows w s outputDirectory stem timestamp content.parts 0 st) (ih _)

theorem imagenStep_grows (w : World) (input : ImagenGenerationInput) (timestamp : String)
    (i : Nat) (g : GeneratedImage) (st : List String × List Event) :
    GrowsByFileOut st.2 (imagenStep w input timestamp i g st).2 := by
  unfold imagenStep
  simp only []
  repeat' split
  all_goals first
    | exact growsByFileOut_refl _
    | exact growsByFileOut_mkdir _ _
    | exact growsByFileOut_mkdir_write _ _ _ _

theorem imagenLoop_grows (w : World) (input : ImagenGenerationInput) (timestamp : String)
    (imgs : List GeneratedImage) :
    ∀ (i : Nat) (st : List String × List Event),
      GrowsByFileOut st.2 (imagenLoop w input timestamp i imgs st).2 := by
  induction imgs with
  | nil => intro i st; simp [imagenLoop, growsByFileOut_refl]
  | cons g rest ih =>
    intro i st
    simp only [imagenLoop]
    exact growsByFileOut_trans (imagenStep_grows w input timestamp i g st) (ih _ _)

/-! ## C1: a missing required field is rejected before any remote call -/

/-- C1.  In each of the seven handlers, an input whose required string field
is empty (prompt; input_image_path or edit_prompt; combine_prompt; image_path
or prompt) is answered with an error, and the handler has performed no remote
API call. -/
theorem C1_missing_required_field_rejected (w : World) (s : Server) :
    (∀ i : GeminiImageGenerationInput, i.prompt = "" →
      (handleGeminiImageGeneration w s i).1.isError = true ∧
      remoteCalls (handleGeminiImageGeneration w s i).2 = 0) ∧
    (∀ i : GeminiImageEditInput, i.inputImagePath = "" ∨ i.editPrompt = "" →
      (handleGeminiImageEdit w s i).1.isError = true ∧
      remoteCalls (handleGeminiImageEdit w s i).2 = 0) ∧
    (∀ i : GeminiMultiImageInput, i.combinePrompt = "" →
      (handleGeminiMultiImage w s i).1.isError = true ∧
      remoteCalls (handleGeminiMultiImage w s i).2 = 0) ∧
    (∀ i : ImagenGenerationInput, i.prompt = "" →
      (handleImagenGeneration w s i).1.isError = true ∧
      remoteCalls (handleImagenGeneration w s i).2 = 0) ∧
    (∀ i : VeoGenerationInput, i.prompt = "" →
      (handleVeoGeneration w s i).1.isError = true ∧
      remoteCalls (handleVeoGeneration w s i).2 = 0) ∧
    (∀ i : VeoTextToVideoInput, i.prompt = "" →
      (handleVeoTextToVideo w s i).1.isError = true ∧
      remoteCalls (handleVeoTextToVideo w s i).2 = 0) ∧
    (∀ i : VeoImageToVideoInput, i.imagePath = "" ∨ i.prompt = "" →
      (handleVeoImageToVideo w s i).1.isError = true ∧
      remoteCalls (handleVeoImageToVideo w s i).2 = 0) := by
  refine ⟨?_, ?_, ?_, ?_, ?_, ?_, ?_⟩
  · intro i h
    simp [handleGeminiImageGeneration, h, HandlerResult.isError, remoteCalls]
  · intro i h
    by_cases h1 : i.inputImagePath = ""
    · simp [handleGeminiImageEdit, h1, HandlerResult.isError, remoteCalls]
    · have h2 : i.editPrompt = "" := h.resolve_left h1
      simp [handleGeminiImageEdit, h1, h2, HandlerResult.isError, remoteCalls]
  · intro i h
    by_cases h1 : i.inputImagePaths.length < 2
    · simp [handleGeminiMultiImage, h1, HandlerResult.isError, remoteCalls]
    · by_cases h2 : i.inputImagePaths.length > 3
      · simp [handleGeminiMultiImage, h1, h2, HandlerResult.isError, remoteCalls]
      · simp [handleGeminiMultiImage, h1, h2, h, HandlerResult.isError, remoteCalls]
  · intro i h
    simp [handleImagenGeneration, h, HandlerResult.isError, remoteCalls]
  · intro i h
    simp [handleVeoGeneration, h, HandlerResult.isError, remoteCalls]
  · intro i h
    simp [handleVeoTextToVideo, h, HandlerResult.isError, remoteCalls]
  · intro i h
    by_cases h1 : i.imagePath = ""
    · simp [handleVeoImageToVideo, h1, HandlerResult.isError, remoteCalls]
    · have h2 : i.prompt = "" := h.resolve_left h1
      simp [handleVeoImageToVideo, h1, h2, HandlerResult.isError, remoteCalls]

/-- C1 at concrete inputs: the empty prompt for image generation and the empty
image path for image-to-video, in the quiet world. -/
theorem C1_missing_required_field_rejected_witness :
    ((promptOnly "").prompt = "" ∧
      (handleGeminiImageGeneration quietWorld defaultServer (promptOnly "")).1.isError = true ∧
      remoteCalls (handleGeminiImageGeneration quietWorld defaultServer (promptOnly "")).2 = 0) ∧
    ((imageToVideoOnly "" "a fox").imagePath = "" ∧
      (handleVeoImageToVideo quietWorld defaultServer
        (imageToVideoOnly "" "a fox")).1.isError = true ∧
      remoteCalls (handleVeoImageToVideo quietWorld defaultServer
        (imageToVideoOnly "" "a fox")).2 = 0) :=
  ⟨⟨rfl, (C1_missing_required_field_rejected quietWorld defaultServer).1 (promptOnly "") rfl⟩,
   ⟨rfl, (C1_missing_required_field_rejected quietWorld defaultServer).2.2.2.2.2.2
      (imageToVideoOnly "" "a fox") (Or.inl rfl)⟩⟩

/-! ## C2: the image-count check of the multi-image handler -/

theorem readImages_ok (w : World) (paths : List String)
    (hread : ∀ tr p, p ∈ paths → ∃ d, w.readFile tr p = .ok d) :
    ∀ (i : Nat) (parts : List Part) (tr : List Event),
      ∃ parts2, readImages w i paths parts tr = (.ok parts2, tr ++ paths.map Event.readFile) := by
  induction paths with
  | nil => intro i parts tr; exact ⟨parts, by simp [readImages]⟩
  | cons p rest ih =>
    intro i parts tr
    obtain ⟨d, hd⟩ := hread tr p (List.mem_cons_self _ _)
    have hrest : ∀ tr q, q ∈ rest → ∃ d, w.readFile tr q = .ok d :=
      fun tr q hq => hread tr q (List.mem_cons_of_mem _ hq)
    obtain ⟨parts2, h2⟩ := ih hrest (i + 1)
      (parts ++ [{ text := "", inlineData := some { mimeType := "image/png", data := d } }])
      (tr ++ [Event.readFile p])
    exact ⟨parts2, by simp [readImages, hd, h2]⟩

theorem readImages_extends (w : World) (paths : List String) :
    ∀ (i : Nat) (parts : List Part) (tr : List Event),
      ∃ more, (readImages w i paths parts tr).2 = tr ++ more := by
  induction paths with
  | nil => intro i parts tr; exact ⟨[], by simp [readImages]⟩
  | cons p rest ih =>
    intro i parts tr
    cases hd : w.readFile tr p with
    | error err => exact ⟨[Event.readFile p], by simp [readImages, hd]⟩
    | ok d =>
      obtain ⟨more, hm⟩ := ih (i + 1)
        (parts ++ [{ text := "", inlineData := some { mimeType := "image/png", data := d } }])
        (tr ++ [Event.readFile p])
      exact ⟨Event.readFile p :: more, by simp [readImages, hd, hm]⟩

theorem readImages_starts (w : World) (p : String) (rest : List String) (i : Nat)
    (parts : List Part) (tr : List Event) :
    ∃ more, (readImages w i (p :: rest) parts tr).2 = tr ++ Event.readFile p :: more := by
  cases hd : w.readFile tr p with
  | error err => exact ⟨[], by simp [readImages, hd]⟩
  | ok d =>
    obtain ⟨more, hm⟩ := readImages_extends w rest (i + 1)
      (parts ++ [{ text := "", inlineData := some { mimeType := "image/png", data := d } }])
      (tr ++ [Event.readFile p])
    exact ⟨more, by simp [readImages, hd, hm]⟩

/-- The multi-image handler keeps, as a prefix of its trace, the trace of its
read loop. -/
theorem multi_trace_after_reads (w : World) (s : Server) (i : GeminiMultiImageInput)
    (h2 : ¬ i.inputImagePaths.length < 2) (h3 : ¬ i.inputImagePaths.length > 3)
    (hp : i.combinePrompt ≠ "") :
    ∃ more, (handleGeminiMultiImage w s i).2 =
      (readImages w 0 i.inputImagePaths
        [newPartFromText (stringsJoin (multiPromptParts i
          (orDefault i.blendMode "merge")) ". ")] []).2 ++ more := by
  unfold handleGeminiMultiImage
  simp only [h2, h3, hp, if_false]
  split
  · exact ⟨[], (List.append_nil _).symm⟩
  · split
    · exact ⟨[_], rfl⟩
    · split
      · exact ⟨[_], rfl⟩
      · split
        · exact ⟨[_], rfl⟩
        · obtain ⟨rest, hrest, -⟩ := saveCandidates_grows w s i.outputDirectory
            ("gemini_combined_" ++ orDefault i.blendMode "merge") (w.now _) _
            { savedFiles := [], lastPath := "", trace := _ ++ [Event.now] }
          rw [hrest]
          simp only [List.append_assoc]
          exact ⟨_, rfl⟩

/-- C2 (as amended).  `handleGeminiMultiImage` answers a list of 0 or 1 paths
and a list of 4 or more paths with an error, before anything else happens.  A
list of 2 or 3 paths together with a non-empty combine_prompt passes
validation: the handler goes on to read the first image, and when every read
succeeds it reads all images in order and then issues the remote generation
call with the effective model. -/
theorem C2_multi_image_count_check (w : World) (s : Server) (i : GeminiMultiImageInput) :
    (i.inputImagePaths.length < 2 →
      (handleGeminiMultiImage w s i).1.isError = true ∧ (handleGeminiMultiImage w s i).2 = []) ∧
    (4 ≤ i.inputImagePaths.length →
      (handleGeminiMultiImage w s i).1.isError = true ∧ (handleGeminiMultiImage w s i).2 = []) ∧
    (i.inputImagePaths.length = 2 ∨ i.inputImagePaths.length = 3 → i.combinePrompt ≠ "" →
      (∃ p more, i.inputImagePaths.head? = some p ∧
        (handleGeminiMultiImage w s i).2 = Event.readFile p :: more) ∧
      ((∀ tr p, p ∈ i.inputImagePaths → ∃ d, w.readFile tr p = .ok d) →
        ∃ contents more, (handleGeminiMultiImage w s i).2 =
          i.inputImagePaths.map Event.readFile ++
            Event.generateContent (orDefault i.model "gemini-2.5-flash-image-preview") contents
              :: more)) := by
  refine ⟨?_, ?_, ?_⟩
  · intro h
    simp [handleGeminiMultiImage, h, HandlerResult.isError]
  · intro h
    have h1 : ¬ i.inputImagePaths.length < 2 := by omega
    have h2 : i.inputImagePaths.length > 3 := by omega
    simp [handleGeminiMultiImage, h1, h2, HandlerResult.isError]
  · intro hlen hp
    have h2 : ¬ i.inputImagePaths.length < 2 := by omega
    have h3 : ¬ i.inputImagePaths.length > 3 := by omega
    obtain ⟨more, hmore⟩ := multi_trace_after_reads w s i h2 h3 hp
    constructor
    · cases hpaths : i.inputImagePaths with
      | nil => simp [hpaths] at h2
      | cons p rest =>
        obtain ⟨more2, hm2⟩ := readImages_starts w p rest 0
          [newPartFromText (stringsJoin (multiPromptParts i
            (orDefault i.blendMode "merge")) ". ")] []
        refine ⟨p, more2 ++ more, rfl, ?_⟩
        rw [hmore, hpaths, hm2]
        simp
    · intro hread
      obtain ⟨parts2, hrd⟩ := readImages_ok w i.inputImagePaths hread 0
        [newPartFromText (stringsJoin (multiPromptParts i
          (orDefault i.blendMode "merge")) ". ")] []
      unfold handleGeminiMultiImage
      simp only [h2, h3, hp, if_false, hrd, List.nil_append]
      split
      · exact ⟨_, [], rfl⟩
      · split
        · exact ⟨_, [], rfl⟩
        · split
          · exact ⟨_, [], rfl⟩
          · obtain ⟨rest, hrest, -⟩ := saveCandidates_grows w s i.outputDirectory
              ("gemini_combined_" ++ orDefault i.blendMode "merge") (w.now _) _
              { savedFiles := [], lastPath := "", trace := _ ++ [Event.now] }
            rw [hrest]
            simp only [List.append_assoc]
            exact ⟨_, _, rfl⟩

/-- C2 (as amended) at a concrete input: two paths and a prompt in the quiet
world. -/
theorem C2_multi_image_count_check_witness :
    ((multiOnly ["a.png", "b.png"] "blend them").inputImagePaths.length = 2 ∨
      (multiOnly ["a.png", "b.png"] "blend them").inputImagePaths.length = 3) ∧
    (multiOnly ["a.png", "b.png"] "blend them").combinePrompt ≠ "" ∧
    ((∃ p more, (multiOnly ["a.png", "b.png"] "blend them").inputImagePaths.head? = some p ∧
        (handleGeminiMultiImage quietWorld defaultServer
          (multiOnly ["a.png", "b.png"] "blend them")).2 = Event.readFile p :: more) ∧
      ((∀ tr p, p ∈ (multiOnly ["a.png", "b.png"] "blend them").inputImagePaths →
          ∃ d, quietWorld.readFile tr p = .ok d) →
        ∃ contents more, (handleGeminiMultiImage quietWorld defaultServer
            (multiOnly ["a.png", "b.png"] "blend them")).2 =
          (multiOnly ["a.png", "b.png"] "blend them").inputImagePaths.map Event.readFile ++
            Event.generateContent
              (orDefault (multiOnly ["a.png", "b.png"] "blend them").model
                "gemini-2.5-flash-image-preview") contents :: more)) :=
  ⟨Or.inl rfl, by decide,
    (C2_multi_image_count_check quietWorld defaultServer
      (multiOnly ["a.png", "b.png"] "blend them")).2.2 (Or.inl rfl) (by decide)⟩

/-- C2, counterexample to the claim as stated: a list of two paths does not
by itself make the handler proceed.  With an empty combine_prompt the handler
returns an error without reading any image and without a remote call. -/
theorem C2_two_images_still_rejected :
    (multiOnly ["a.png", "b.png"] "").inputImagePaths.length = 2 ∧
    handleGeminiMultiImage quietWorld defaultServer (multiOnly ["a.png", "b.png"] "") =
      (.error "combine_prompt is required", []) := by
  constructor
  · rfl
  · simp [handleGeminiMultiImage, multiOnly]

/-! ## C3: the poll loop is bounded -/

theorem filter_poll_pollEvents (ops : List GenerateVideosOperation) :
    (pollEvents ops).filter Event.isPoll = pollEvents ops := by
  induction ops with
  | nil => rfl
  | cons o rest ih =>
    simp only [pollEvents, List.flatMap_cons] at ih ⊢
    simp [List.filter_append, ih, Event.isPoll]

theorem statusChecks_pollEvents (ops : List GenerateVideosOperation) :
    statusChecks (pollEvents ops) = ops.length := by
  induction ops with
  | nil => rfl
  | cons o rest ih =>
    simp only [statusChecks, pollEvents, List.flatMap_cons] at ih ⊢
    simp [List.countP_append, ih, Event.isStatusCheck, List.countP_cons]

theorem filter_poll_fileOut (rest : List Event) (h : ∀ e ∈ rest, e.isFileOut = true) :
    rest.filter Event.isPoll = [] := by
  rw [List.filter_eq_nil_iff]
  intro e he
  have := h e he
  cases e <;> simp_all [Event.isFileOut, Event.isPoll]

theorem statusChecks_fileOut (rest : List Event) (h : ∀ e ∈ rest, e.isFileOut = true) :
    statusChecks rest = 0 := by
  unfold statusChecks
  rw [List.countP_eq_zero]
  intro e he
  have := h e he
  cases e <;> simp_all [Event.isFileOut, Event.isStatusCheck]

/-- With a backend that answers every status check without error and never
reports done, `n` remaining attempts are all used: the loop performs `n`
sleep-then-check iterations and leaves an unfinished operation. -/
theorem pollLoop_never_done (w : World)
    (hcheck : ∀ tr op, ∃ o, w.getVideosOperation tr op = (some o, none) ∧ o.done = false) :
    ∀ (n : Nat) (op : GenerateVideosOperation) (tr : List Event), op.done = false →
      ∃ ops o, ops.length = n ∧ o.done = false ∧
        pollLoop w n (some op) tr = (some o, tr ++ pollEvents ops) := by
  intro n
  induction n with
  | zero =>
    intro op tr hop
    exact ⟨[], op, rfl, hop, by simp [pollLoop, pollEvents]⟩
  | succ n ih =>
    intro op tr hop
    obtain ⟨o1, h1, hd1⟩ := hcheck (tr ++ [Event.sleep 10]) op
    obtain ⟨ops, o, hlen, hdone, hrun⟩ := ih o1
      (tr ++ [Event.sleep 10] ++ [Event.getVideosOperation op]) hd1
    refine ⟨op :: ops, o, by simp [hlen], hdone, ?_⟩
    have hstep : pollLoop w (n + 1) (some op) tr =
        pollLoop w n (some o1) (tr ++ [Event.sleep 10] ++ [Event.getVideosOperation op]) := by
      simp [pollLoop, hop, h1]
    rw [hstep, hrun]
    simp [pollEvents]

/-- An operation that is not done yields the status `timeout` and no file. -/
theorem videoOutcome_not_done (w : World) (tr : List Event) (op : GenerateVideosOperation)
    (dir filename : String) (h : op.done = false) :
    videoOutcome w tr op dir filename =
      (some { status := "timeout", savedFiles := [], videoURL := "" }, tr) := by
  simp [videoOutcome, h]

theorem statusChecks_filter_poll (tr : List Event) :
    statusChecks (tr.filter Event.isPoll) = statusChecks tr := by
  induction tr with
  | nil => rfl
  | cons e rest ih =>
    unfold statusChecks at ih ⊢
    cases e <;> simp [List.filter_cons, List.countP_cons, Event.isPoll, Event.isStatusCheck, ih]

/-- The poll events of a trace that ends with a run of poll iterations and the
optional metadata sidecar are those of the run, when nothing before the run is
a poll event. -/
theorem filter_poll_sidecar (w : World) (pre : List Event)
    (ops : List GenerateVideosOperation) (dir filename : String) (doc : List (String × JVal))
    (c : Prop) [Decidable c] (hpre : pre.filter Event.isPoll = []) :
    (if c then saveMetadata w (pre ++ pollEvents ops) dir filename doc
      else (none, pre ++ pollEvents ops)).2.filter Event.isPoll = pollEvents ops := by
  by_cases hc : c
  · obtain ⟨rest, hrest, hfo⟩ := saveMetadata_grows w (pre ++ pollEvents ops) dir filename doc
    simp only [hc, if_true, hrest, List.filter_append, hpre, filter_poll_pollEvents,
      filter_poll_fileOut rest hfo, List.nil_append, List.append_nil]
  · simp only [hc, if_false, List.filter_append, hpre, filter_poll_pollEvents, List.nil_append]

/-- The legacy handler, once the submission succeeded and the poll loop ended
after the status checks of `ops` with an unfinished operation. -/
theorem legacy_timesOut (w : World) (s : Server) (i : VeoGenerationInput) (hp : i.prompt ≠ "")
    (o o2 : GenerateVideosOperation) (ops : List GenerateVideosOperation)
    (ho : w.generateVideos [Event.now] (orDefault i.model "veo-3.0-generate-001")
      (videoPromptText i.prompt i.negativePrompt) none none = (some o, none))
    (hrun : pollLoop w 60 (some o) ([Event.now] ++ [Event.generateVideos (orDefault i.model "veo-3.0-generate-001")
        (videoPromptText i.prompt i.negativePrompt) none none]) = (some o2, ([Event.now] ++ [Event.generateVideos (orDefault i.model "veo-3.0-generate-001")
        (videoPromptText i.prompt i.negativePrompt) none none]) ++ pollEvents ops))
    (hdone2 : o2.done = false) :
    TimesOutAfter ops.length (handleVeoGeneration w s i) := by
  have hfilter := fun c [Decidable c] dir filename doc => filter_poll_sidecar w
    ([Event.now] ++ [Event.generateVideos (orDefault i.model "veo-3.0-generate-001")
        (videoPromptText i.prompt i.negativePrompt) none none]) ops dir filename doc c (by simp [Event.isPoll])
  unfold TimesOutAfter handleVeoGeneration
  simp only [hp, if_false, ho, hrun, videoOutcome_not_done _ _ _ _ _ hdone2]
  refine ⟨_, ops, rfl, rfl, rfl, ?_, hfilter _ _ _ _⟩
  rw [← statusChecks_filter_poll, hfilter, statusChecks_pollEvents]

/-- The text-to-video handler, once the submission succeeded and the poll loop
ended after the status checks of `ops` with an unfinished operation. -/
theorem textToVideo_timesOut (w : World) (s : Server) (i : VeoTextToVideoInput)
    (hp : i.prompt ≠ "") (o o2 : GenerateVideosOperation) (ops : List GenerateVideosOperation)
    (ho : w.generateVideos [Event.now] (orDefault i.model "veo-3.0-generate-001")
      (videoPromptText i.prompt i.negativePrompt) none none = (some o, none))
    (hrun : pollLoop w 60 (some o) ([Event.now] ++ [Event.generateVideos (orDefault i.model "veo-3.0-generate-001")
        (videoPromptText i.prompt i.negativePrompt) none none]) = (some o2, ([Event.now] ++ [Event.generateVideos (orDefault i.model "veo-3.0-generate-001")
        (videoPromptText i.prompt i.negativePrompt) none none]) ++ pollEvents ops))
    (hdone2 : o2.done = false) :
    TimesOutAfter ops.length (handleVeoTextToVideo w s i) := by
  have hfilter := fun c [Decidable c] dir filename doc => filter_poll_sidecar w
    ([Event.now] ++ [Event.generateVideos (orDefault i.model "veo-3.0-generate-001")
        (videoPromptText i.prompt i.negativePrompt) none none]) ops dir filename doc c (by simp [Event.isPoll])
  unfold TimesOutAfter handleVeoTextToVideo
  simp only [hp, if_false, ho, hrun, videoOutcome_not_done _ _ _ _ _ hdone2]
  refine ⟨_, ops, rfl, rfl, rfl, ?_, hfilter _ _ _ _⟩
  rw [← statusChecks_filter_poll, hfilter, statusChecks_pollEvents]

/-- The image-to-video handler, once validation passed, the submission
succeeded and the poll loop ended after the status checks of `ops` with an
unfinished operation. -/
theorem imageToVideo_timesOut (w : World) (s : Server) (i : VeoImageToVideoInput)
    (hpath : i.imagePath ≠ "") (hp : i.prompt ≠ "")
    (hstat : w.statNotExist [] i.imagePath = false)
    (o o2 : GenerateVideosOperation) (ops : List GenerateVideosOperation)
    (ho : w.generateVideos
      ([Event.stat i.imagePath] ++ [Event.now] ++
        [Event.generateImages "imagen-4.0-generate-001" ("Transform this image: " ++ i.prompt) none])
      (orDefault i.model "veo-3.0-generate-001")
      (videoPromptText i.prompt i.negativePrompt)
      (firstGeneratedImage (w.generateImages ([Event.stat i.imagePath] ++ [Event.now])
        "imagen-4.0-generate-001" ("Transform this image: " ++ i.prompt) none).1) none
      = (some o, none))
    (hrun : pollLoop w 60 (some o) ([Event.stat i.imagePath] ++ [Event.now] ++
        [Event.generateImages "imagen-4.0-generate-001" ("Transform this image: " ++ i.prompt) none]
        ++ [Event.generateVideos (orDefault i.model "veo-3.0-generate-001")
          (videoPromptText i.prompt i.negativePrompt)
          (firstGeneratedImage (w.generateImages ([Event.stat i.imagePath] ++ [Event.now])
            "imagen-4.0-generate-001" ("Transform this image: " ++ i.prompt) none).1) none]) = (some o2, ([Event.stat i.imagePath] ++ [Event.now] ++
        [Event.generateImages "imagen-4.0-generate-001" ("Transform this image: " ++ i.prompt) none]
        ++ [Event.generateVideos (orDefault i.model "veo-3.0-generate-001")
          (videoPromptText i.prompt i.negativePrompt)
          (firstGeneratedImage (w.generateImages ([Event.stat i.imagePath] ++ [Event.now])
            "imagen-4.0-generate-001" ("Transform this image: " ++ i.prompt) none).1) none]) ++ pollEvents ops))
    (hdone2 : o2.done = false) :
    TimesOutAfter ops.length (handleVeoImageToVideo w s i) := by
  have hfilter := fun c [Decidable c] dir filename doc => filter_poll_sidecar w
    ([Event.stat i.imagePath] ++ [Event.now] ++
        [Event.generateImages "imagen-4.0-generate-001" ("Transform this image: " ++ i.prompt) none]
        ++ [Event.generateVideos (orDefault i.model "veo-3.0-generate-001")
          (videoPromptText i.prompt i.negativePrompt)
          (firstGeneratedImage (w.generateImages ([Event.stat i.imagePath] ++ [Event.now])
            "imagen-4.0-generate-001" ("Transform this image: " ++ i.prompt) none).1) none]) ops dir filename doc c (by simp [Event.isPoll])
  unfold TimesOutAfter handleVeoImageToVideo
  simp only [hpath, hp, hstat, if_false, Bool.false_eq_true, ho, hrun,
    videoOutcome_not_done _ _ _ _ _ hdone2]
  refine ⟨_, ops, rfl, rfl, rfl, ?_, hfilter _ _ _ _⟩
  rw [← statusChecks_filter_poll, hfilter, statusChecks_pollEvents]

/-- C3.  In each video handler, when the submission succeeds and every status
check succeeds, and the operation handle they return is never done, the
handler performs exactly 60 status checks, each one directly preceded by one
10-second sleep (and no other sleep), and returns a result record with a nil
error whose status is `timeout`. -/
theorem C3_poll_loop_bounded (w : World) (s : Server)
    (hsub : ∀ tr m p img cfg, ∃ o, w.generateVideos tr m p img cfg = (some o, none) ∧
      o.done = false)
    (hcheck : ∀ tr op, ∃ o, w.getVideosOperation tr op = (some o, none) ∧ o.done = false) :
    (∀ i : VeoGenerationInput, i.prompt ≠ "" →
      TimesOutAfter 60 (handleVeoGeneration w s i)) ∧
    (∀ i : VeoTextToVideoInput, i.prompt ≠ "" →
      TimesOutAfter 60 (handleVeoTextToVideo w s i)) ∧
    (∀ i : VeoImageToVideoInput, i.imagePath ≠ "" → i.prompt ≠ "" →
      w.statNotExist [] i.imagePath = false →
      TimesOutAfter 60 (handleVeoImageToVideo w s i)) := by
  refine ⟨?_, ?_, ?_⟩
  · intro i hp
    obtain ⟨o, ho, hdone⟩ := hsub [Event.now] (orDefault i.model "veo-3.0-generate-001")
      (videoPromptText i.prompt i.negativePrompt) none none
    obtain ⟨ops, o2, hlen, hdone2, hrun⟩ := pollLoop_never_done w hcheck 60 o ([Event.now] ++ [Event.generateVideos (orDefault i.model "veo-3.0-generate-001")
        (videoPromptText i.prompt i.negativePrompt) none none]) hdone
    rw [← hlen]
    exact legacy_timesOut w s i hp o o2 ops ho hrun hdone2
  · intro i hp
    obtain ⟨o, ho, hdone⟩ := hsub [Event.now] (orDefault i.model "veo-3.0-generate-001")
      (videoPromptText i.prompt i.negativePrompt) none none
    obtain ⟨ops, o2, hlen, hdone2, hrun⟩ := pollLoop_never_done w hcheck 60 o ([Event.now] ++ [Event.generateVideos (orDefault i.model "veo-3.0-generate-001")
        (videoPromptText i.prompt i.negativePrompt) none none]) hdone
    rw [← hlen]
    exact textToVideo_timesOut w s i hp o o2 ops ho hrun hdone2
  · intro i hpath hp hstat
    obtain ⟨o, ho, hdone⟩ := hsub
      ([Event.stat i.imagePath] ++ [Event.now] ++
        [Event.generateImages "imagen-4.0-generate-001" ("Transform this image: " ++ i.prompt) none])
      (orDefault i.model "veo-3.0-generate-001")
      (videoPromptText i.prompt i.negativePrompt)
      (firstGeneratedImage (w.generateImages ([Event.stat i.imagePath] ++ [Event.now])
        "imagen-4.0-generate-001" ("Transform this image: " ++ i.prompt) none).1) none
    obtain ⟨ops, o2, hlen, hdone2, hrun⟩ := pollLoop_never_done w hcheck 60 o ([Event.stat i.imagePath] ++ [Event.now] ++
        [Event.generateImages "imagen-4.0-generate-001" ("Transform this image: " ++ i.prompt) none]
        ++ [Event.generateVideos (orDefault i.model "veo-3.0-generate-001")
          (videoPromptText i.prompt i.negativePrompt)
          (firstGeneratedImage (w.generateImages ([Event.stat i.imagePath] ++ [Event.now])
            "imagen-4.0-generate-001" ("Transform this image: " ++ i.prompt) none).1) none]) hdone
    rw [← hlen]
    exact imageToVideo_timesOut w s i hpath hp hstat o o2 ops ho hrun hdone2

/-- C3 at a concrete world: in `stuckWorld` a text-to-video request with a
prompt and nothing else times out after 60 status checks. -/
theorem C3_poll_loop_bounded_witness :
    (textToVideoOnly "a fox running").prompt ≠ "" ∧
    TimesOutAfter 60
      (handleVeoTextToVideo stuckWorld defaultServer (textToVideoOnly "a fox running")) :=
  ⟨by decide,
    (C3_poll_loop_bounded stuckWorld defaultServer
      (fun _ _ _ _ _ => ⟨_, rfl, rfl⟩) (fun _ _ => ⟨_, rfl, rfl⟩)).2.1
      (textToVideoOnly "a fox running") (by decide)⟩

/-! ## C4: mapping of a finished operation to a status -/

/-- A finished operation with an error payload has status `failed`. -/
theorem videoOutcome_failed (w : World) (tr : List Event) (op : GenerateVideosOperation)
    (dir filename : String) (hd : op.done = true) (he : op.error.isSome = true) :
    videoOutcome w tr op dir filename =
      (some { status := "failed", savedFiles := [], videoURL := "" }, tr) := by
  simp [videoOutcome, hd, he]

/-- A finished operation without error and with at least one generated video
has status `completed`, unless the handler crashes on a nil video. -/
theorem videoOutcome_completed (w : World) (tr : List Event) (op : GenerateVideosOperation)
    (dir filename : String) (response : GenerateVideosResponse) (hd : op.done = true)
    (he : op.error = none) (hr : op.response = some response)
    (hv : response.generatedVideos ≠ []) (out : VideoOutcome)
    (hout : (videoOutcome w tr op dir filename).1 = some out) :
    out.status = "completed" := by
  unfold videoOutcome at hout
  simp only [hd, he, hr, if_true, Option.isSome_none, Bool.false_eq_true, if_false] at hout
  cases hvs : response.generatedVideos with
  | nil => exact absurd hvs hv
  | cons video rest =>
    simp only [hvs] at hout
    repeat' split at hout
    all_goals first
      | (simp at hout; done)
      | (simp only [Option.some.injEq] at hout; rw [← hout])

/-- C4, the failing input evaluated: when the backend reports the operation
done, without error and with zero generated videos, each of the three video
handlers returns a nil error and a result record whose status is `generating`:
neither the `failed` status nor an empty-result error. -/
theorem C4_done_without_videos_reports_generating :
    (∃ out, (handleVeoGeneration emptyDoneWorld defaultServer
        (legacyVideoOnly "a fox")).1 = .ok out ∧ out.status = "generating") ∧
    (∃ out, (handleVeoTextToVideo emptyDoneWorld defaultServer
        (textToVideoOnly "a fox")).1 = .ok out ∧ out.status = "generating") ∧
    (∃ out, (handleVeoImageToVideo emptyDoneWorld defaultServer
        (imageToVideoOnly "fox.png" "a fox")).1 = .ok out ∧ out.status = "generating") :=
  ⟨⟨_, rfl, rfl⟩, ⟨_, rfl, rfl⟩, ⟨_, rfl, rfl⟩⟩

/-! ## C5: a failing status check -/

theorem statusChecks_sleep (tr : List Event) (n : Nat) :
    statusChecks (tr ++ [Event.sleep n]) = statusChecks tr := by
  simp [statusChecks, List.countP_append, Event.isStatusCheck]

theorem statusChecks_check (tr : List Event) (n : Nat) (op : GenerateVideosOperation) :
    statusChecks (tr ++ [Event.sleep n] ++ [Event.getVideosOperation op]) =
      statusChecks tr + 1 := by
  simp [statusChecks, List.countP_append, Event.isStatusCheck]

/-- When the first `k` status checks succeed with an unfinished operation and
check number `k + 1` fails, returning a nil operation with its error, the loop
ends right after that check and leaves `operation` nil, provided the attempt
budget is not used up before. -/
theorem pollLoop_failing_check (w : World) (k : Nat)
    (hok : ∀ tr op, statusChecks tr < k →
      ∃ o, w.getVideosOperation tr op = (some o, none) ∧ o.done = false)
    (hfail : ∀ tr op, statusChecks tr = k →
      ∃ e, w.getVideosOperation tr op = (none, some e)) :
    ∀ (j n : Nat) (op : GenerateVideosOperation) (tr : List Event), j < n →
      op.done = false → statusChecks tr + j = k →
      ∃ ops, ops.length = j + 1 ∧
        pollLoop w n (some op) tr = (none, tr ++ pollEvents ops) := by
  intro j
  induction j with
  | zero =>
    intro n op tr hn hop hk
    obtain ⟨m, rfl⟩ : ∃ m, n = m + 1 := ⟨n - 1, by omega⟩
    obtain ⟨e, h1⟩ := hfail (tr ++ [Event.sleep 10]) op
      (by rw [statusChecks_sleep]; omega)
    exact ⟨[op], rfl, by simp [pollLoop, hop, h1, pollEvents]⟩
  | succ j ih =>
    intro n op tr hn hop hk
    obtain ⟨m, rfl⟩ : ∃ m, n = m + 1 := ⟨n - 1, by omega⟩
    obtain ⟨o1, h1, hd1⟩ := hok (tr ++ [Event.sleep 10]) op
      (by rw [statusChecks_sleep]; omega)
    obtain ⟨ops, hlen, hrun⟩ := ih m o1
      (tr ++ [Event.sleep 10] ++ [Event.getVideosOperation op]) (by omega) hd1
      (by rw [statusChecks_check]; omega)
    refine ⟨op :: ops, by simp [hlen], ?_⟩
    have hstep : pollLoop w (m + 1) (some op) tr =
        pollLoop w m (some o1) (tr ++ [Event.sleep 10] ++ [Event.getVideosOperation op]) := by
      simp [pollLoop, hop, h1]
    rw [hstep, hrun]
    simp [pollEvents]

/-- A trace without sleeps and status checks, followed by a run of poll
iterations: its poll events are that run, one status check per iteration. -/
theorem crashesAfter_of_trace (pre : List Event) (ops : List GenerateVideosOperation)
    (hpre : pre.filter Event.isPoll = []) :
    CrashesAfter ops.length
      ((.crashed : HandlerResult VeoGenerationOutput), pre ++ pollEvents ops) := by
  have hfilter : (pre ++ pollEvents ops).filter Event.isPoll = pollEvents ops := by
    simp only [List.filter_append, hpre, filter_poll_pollEvents, List.nil_append]
  refine ⟨rfl, ops, rfl, ?_, hfilter⟩
  rw [← statusChecks_filter_poll, hfilter, statusChecks_pollEvents]

/-- In each video handler, when the submission succeeded with an unfinished
operation, the first `k` status checks (`k < 60`) succeed with an unfinished
operation and status check number `k + 1` fails, returning a nil operation
with its error, the poll loop stops right there and the handler dereferences
the nil operation in `operation.Done`: it performs exactly `k + 1` status
checks and returns nothing. -/
theorem failed_status_check_crashes (w : World) (s : Server) (k : Nat) (hk : k < 60)
    (hsub : ∀ tr m p img cfg, ∃ o, w.generateVideos tr m p img cfg = (some o, none) ∧
      o.done = false)
    (hok : ∀ tr op, statusChecks tr < k →
      ∃ o, w.getVideosOperation tr op = (some o, none) ∧ o.done = false)
    (hfail : ∀ tr op, statusChecks tr = k →
      ∃ e, w.getVideosOperation tr op = (none, some e)) :
    (∀ i : VeoGenerationInput, i.prompt ≠ "" →
      CrashesAfter (k + 1) (handleVeoGeneration w s i)) ∧
    (∀ i : VeoTextToVideoInput, i.prompt ≠ "" →
      CrashesAfter (k + 1) (handleVeoTextToVideo w s i)) ∧
    (∀ i : VeoImageToVideoInput, i.imagePath ≠ "" → i.prompt ≠ "" →
      w.statNotExist [] i.imagePath = false →
      CrashesAfter (k + 1) (handleVeoImageToVideo w s i)) := by
  refine ⟨?_, ?_, ?_⟩
  · intro i hp
    obtain ⟨o, ho, hdone⟩ := hsub [Event.now] (orDefault i.model "veo-3.0-generate-001")
      (videoPromptText i.prompt i.negativePrompt) none none
    obtain ⟨ops, hlen, hrun⟩ := pollLoop_failing_check w k hok hfail k 60 o
      ([Event.now] ++ [Event.generateVideos (orDefault i.model "veo-3.0-generate-001")
        (videoPromptText i.prompt i.negativePrompt) none none]) hk hdone
      (by simp [statusChecks, Event.isStatusCheck])
    rw [← hlen]
    unfold handleVeoGeneration
    simp only [hp, if_false, ho, hrun]
    exact crashesAfter_of_trace _ ops (by simp [Event.isPoll])
  · intro i hp
    obtain ⟨o, ho, hdone⟩ := hsub [Event.now] (orDefault i.model "veo-3.0-generate-001")
      (videoPromptText i.prompt i.negativePrompt) none none
    obtain ⟨ops, hlen, hrun⟩ := pollLoop_failing_check w k hok hfail k 60 o
      ([Event.now] ++ [Event.generateVideos (orDefault i.model "veo-3.0-generate-001")
        (videoPromptText i.prompt i.negativePrompt) none none]) hk hdone
      (by simp [statusChecks, Event.isStatusCheck])
    rw [← hlen]
    unfold handleVeoTextToVideo
    simp only [hp, if_false, ho, hrun]
    exact crashesAfter_of_trace _ ops (by simp [Event.isPoll])
  · intro i hpath hp hstat
    obtain ⟨o, ho, hdone⟩ := hsub
      ([Event.stat i.imagePath] ++ [Event.now] ++
        [Event.generateImages "imagen-4.0-generate-001" ("Transform this image: " ++ i.prompt) none])
      (orDefault i.model "veo-3.0-generate-001")
      (videoPromptText i.prompt i.negativePrompt)
      (firstGeneratedImage (w.generateImages ([Event.stat i.imagePath] ++ [Event.now])
        "imagen-4.0-generate-001" ("Transform this image: " ++ i.prompt) none).1) none
    obtain ⟨ops, hlen, hrun⟩ := pollLoop_failing_check w k hok hfail k 60 o
      ([Event.stat i.imagePath] ++ [Event.now] ++
        [Event.generateImages "imagen-4.0-generate-001" ("Transform this image: " ++ i.prompt) none]
        ++ [Event.generateVideos (orDefault i.model "veo-3.0-generate-001")
          (videoPromptText i.prompt i.negativePrompt)
          (firstGeneratedImage (w.generateImages ([Event.stat i.imagePath] ++ [Event.now])
            "imagen-4.0-generate-001" ("Transform this image: " ++ i.prompt) none).1) none]) hk hdone
      (by simp [statusChecks, Event.isStatusCheck])
    rw [← hlen]
    unfold handleVeoImageToVideo
    simp only [hpath, hp, hstat, if_false, Bool.false_eq_true, ho, hrun]
    exact crashesAfter_of_trace _ ops (by simp [Event.isPoll])

/-- C5, the failing input evaluated: a valid video request against a backend
whose status check fails.  The failing `GetVideosOperation` returns a nil
operation with its error; the loop stops at once (one status check in
`brokenWorld`, where the first check fails, and three in `flakyWorld`, where
the third does), and the handler then dereferences the nil operation in
`operation.Done`: no output is returned, so no status `generating`. -/
theorem C5_failed_status_check_dereferences_nil :
    ((handleVeoGeneration brokenWorld defaultServer (legacyVideoOnly "a fox")).1 = .crashed ∧
      statusChecks (handleVeoGeneration brokenWorld defaultServer
        (legacyVideoOnly "a fox")).2 = 1) ∧
    ((handleVeoTextToVideo brokenWorld defaultServer (textToVideoOnly "a fox")).1 = .crashed ∧
      statusChecks (handleVeoTextToVideo brokenWorld defaultServer
        (textToVideoOnly "a fox")).2 = 1) ∧
    ((handleVeoImageToVideo brokenWorld defaultServer
        (imageToVideoOnly "fox.png" "a fox")).1 = .crashed ∧
      statusChecks (handleVeoImageToVideo brokenWorld defaultServer
        (imageToVideoOnly "fox.png" "a fox")).2 = 1) ∧
    ((handleVeoTextToVideo flakyWorld defaultServer (textToVideoOnly "a fox")).1 = .crashed ∧
      statusChecks (handleVeoTextToVideo flakyWorld defaultServer
        (textToVideoOnly "a fox")).2 = 3) ∧
    (handleVeoTextToVideo flakyWorld defaultServer (textToVideoOnly "a fox")).2.getLast? =
      some (Event.getVideosOperation
        { name := "op-1", done := false, error := none, response := none }) :=
  ⟨⟨rfl, rfl⟩, ⟨rfl, rfl⟩, ⟨rfl, rfl⟩, ⟨rfl, rfl⟩, rfl⟩

/-! ## C6: defaults of the optional fields -/

theorem quiet_refl (tr : List Event) : Quiet tr tr :=
  ⟨[], by simp, by simp⟩

theorem quiet_trans {a b c : List Event} (h1 : Quiet a b) (h2 : Quiet b c) : Quiet a c := by
  obtain ⟨r1, rfl, hr1⟩ := h1
  obtain ⟨r2, rfl, hr2⟩ := h2
  refine ⟨r1 ++ r2, by simp, ?_⟩
  intro e he
  rcases List.mem_append.mp he with h | h
  · exact hr1 e h
  · exact hr2 e h

theorem quiet_of_growsByFileOut {a b : List Event} (h : GrowsByFileOut a b) : Quiet a b := by
  obtain ⟨r, rfl, hr⟩ := h
  refine ⟨r, rfl, ?_⟩
  intro e he
  have := hr e he
  cases e <;> simp_all [Event.isFileOut, Event.isGeneration]

theorem quiet_snoc {a b : List Event} (e : Event) (he : e.isGeneration = false)
    (h : Quiet (a ++ [e]) b) : Quiet a b := by
  obtain ⟨r, rfl, hr⟩ := h
  refine ⟨e :: r, by simp, ?_⟩
  intro x hx
  rcases List.mem_cons.mp hx with h | h
  · rw [h]; exact he
  · exact hr x h

theorem quiet_mem {a b : List Event} (h : Quiet a b) (e : Event) (he : e.isGeneration = true)
    (hm : e ∈ b) : e ∈ a := by
  obtain ⟨r, rfl, hr⟩ := h
  rcases List.mem_append.mp hm with h | h
  · exact h
  · have := hr e h
    rw [he] at this
    exact absurd this (by decide)

theorem quiet_append (tr rest : List Event) (h : ∀ e ∈ rest, e.isGeneration = false) :
    Quiet tr (tr ++ rest) :=
  ⟨rest, rfl, h⟩

theorem pollLoop_quiet (w : World) :
    ∀ (n : Nat) (op : Option GenerateVideosOperation) (tr : List Event),
      Quiet tr (pollLoop w n op tr).2 := by
  intro n
  induction n with
  | zero => intro op tr; simp [pollLoop, quiet_refl]
  | succ n ih =>
    intro op tr
    cases op with
    | none => simp [pollLoop, quiet_refl]
    | some operation =>
      simp only [pollLoop]
      split
      · exact quiet_refl _
      · split
        · exact ⟨[Event.sleep 10, Event.getVideosOperation operation], by simp,
            by simp [Event.isGeneration]⟩
        · refine quiet_trans ?_ (ih _ _)
          exact ⟨[Event.sleep 10, Event.getVideosOperation operation], by simp,
            by simp [Event.isGeneration]⟩

theorem videoOutcome_quiet (w : World) (tr : List Event) (op : GenerateVideosOperation)
    (dir filename : String) : Quiet tr (videoOutcome w tr op dir filename).2 := by
  unfold videoOutcome
  simp only []
  repeat' split
  all_goals first
    | exact quiet_refl _
    | exact quiet_append _ _ (by simp [Event.isGeneration])
    | (simp only [List.append_assoc]; exact quiet_append _ _ (by simp [Event.isGeneration]))

/-- The optional metadata sidecar adds no generation request. -/
theorem sidecar_quiet (w : World) (tr : List Event) (dir filename : String)
    (doc : List (String × JVal)) (c : Prop) [Decidable c] :
    Quiet tr (if c then saveMetadata w tr dir filename doc else (none, tr)).2 := by
  split
  · exact quiet_of_growsByFileOut (saveMetadata_grows _ _ _ _ _)
  · exact quiet_refl _

/-- After validation, the trace of `handleGeminiImageGeneration` is its one
generation request followed by events that are no generation requests. -/
theorem imageGeneration_trace (w : World) (s : Server) (i : GeminiImageGenerationInput)
    (hp : i.prompt ≠ "") :
    Quiet [Event.generateContent (orDefault i.model "gemini-2.5-flash-image-preview")
        (genaiText (stringsJoin (genPromptParts i (orDefault i.style "photorealistic")
          (orDefault i.quality "high")) ". "))]
      (handleGeminiImageGeneration w s i).2 := by
  unfold handleGeminiImageGeneration
  simp only [hp, if_false]
  split
  · exact quiet_refl _
  · split
    · exact quiet_refl _
    · split
      · exact quiet_refl _
      · refine quiet_trans ?_ (sidecar_quiet _ _ _ _ _ _)
        exact quiet_snoc Event.now rfl
          (quiet_of_growsByFileOut (genCandidates_grows _ _ _ _ _ _ _))

/-- Every content-generation request of `handleGeminiImageEdit` carries the
effective model. -/
theorem imageEdit_request_model (w : World) (s : Server) (i : GeminiImageEditInput)
    (m : String) (c : List Content)
    (hm : Event.generateContent m c ∈ (handleGeminiImageEdit w s i).2) :
    m = orDefault i.model "gemini-2.5-flash-image-preview" := by
  unfold handleGeminiImageEdit at hm
  simp only [] at hm
  split at hm
  · simp at hm
  · split at hm
    · simp at hm
    · split at hm
      · simp at hm
      · have key : ∀ cs tr, Quiet ([Event.readFile i.inputImagePath] ++
            [Event.generateContent (orDefault i.model "gemini-2.5-flash-image-preview") cs]) tr →
            Event.generateContent m c ∈ tr →
            m = orDefault i.model "gemini-2.5-flash-image-preview" := by
          intro cs tr hq hmem
          have := quiet_mem hq (Event.generateContent m c) rfl hmem
          simp at this
          exact this.1
        split at hm
        · exact key _ _ (quiet_refl _) hm
        · split at hm
          · exact key _ _ (quiet_refl _) hm
          · split at hm
            · exact key _ _ (quiet_refl _) hm
            · exact key _ _ (quiet_snoc Event.now rfl
                (quiet_of_growsByFileOut (saveCandidates_grows _ _ _ _ _ _ _))) hm

theorem readImages_quiet (w : World) (paths : List String) :
    ∀ (i : Nat) (parts : List Part) (tr : List Event),
      Quiet tr (readImages w i paths parts tr).2 := by
  induction paths with
  | nil => intro i parts tr; simp [readImages, quiet_refl]
  | cons p rest ih =>
    intro i parts tr
    simp only [readImages]
    split
    · exact quiet_append _ _ (by simp [Event.isGeneration])
    · exact quiet_trans (quiet_append _ _ (by simp [Event.isGeneration])) (ih _ _ _)

/-- Every content-generation request of `handleGeminiMultiImage` carries the
effective model. -/
theorem multiImage_request_model (w : World) (s : Server) (i : GeminiMultiImageInput)
    (m : String) (c : List Content)
    (hm : Event.generateContent m c ∈ (handleGeminiMultiImage w s i).2) :
    m = orDefault i.model "gemini-2.5-flash-image-preview" := by
  have hrd := readImages_quiet w i.inputImagePaths 0
    [newPartFromText (stringsJoin (multiPromptParts i (orDefault i.blendMode "merge")) ". ")] []
  have hno : ∀ tr, Quiet (readImages w 0 i.inputImagePaths
      [newPartFromText (stringsJoin (multiPromptParts i (orDefault i.blendMode "merge")) ". ")]
      []).2 tr → Event.generateContent m c ∈ tr → False := by
    intro tr hq hmem
    have := quiet_mem (quiet_trans hrd hq) (Event.generateContent m c) rfl hmem
    simp at this
  unfold handleGeminiMultiImage at hm
  simp only [] at hm
  split at hm
  · simp at hm
  · split at hm
    · simp at hm
    · split at hm
      · simp at hm
      · split at hm
        · exact (hno _ (quiet_refl _) hm).elim
        · have key : ∀ cs tr, Quiet ((readImages w 0 i.inputImagePaths
              [newPartFromText (stringsJoin (multiPromptParts i
                (orDefault i.blendMode "merge")) ". ")] []).2 ++
              [Event.generateContent (orDefault i.model "gemini-2.5-flash-image-preview") cs]) tr →
              Event.generateContent m c ∈ tr →
              m = orDefault i.model "gemini-2.5-flash-image-preview" := by
            intro cs tr hq hmem
            have := quiet_mem hq (Event.generateContent m c) rfl hmem
            rcases List.mem_append.mp this with h | h
            · exact (hno _ (quiet_refl _) h).elim
            · simp at h
              exact h.1
          split at hm
          · exact key _ _ (quiet_refl _) hm
          · split at hm
            · exact key _ _ (quiet_refl _) hm
            · split at hm
              · exact key _ _ (quiet_refl _) hm
              · exact key _ _ (quiet_snoc Event.now rfl
                  (quiet_of_growsByFileOut (saveCandidates_grows _ _ _ _ _ _ _))) hm

/-- After validation, the trace of `handleVeoGeneration` is the clock reading and
its one submission, followed by events that are no generation requests. -/
theorem legacyVideo_trace (w : World) (s : Server) (i : VeoGenerationInput) (hp : i.prompt ≠ "") :
    Quiet ([Event.now] ++ [Event.generateVideos (orDefault i.model "veo-3.0-generate-001")
        (videoPromptText i.prompt i.negativePrompt) none none])
      (handleVeoGeneration w s i).2 := by
  unfold handleVeoGeneration
  simp only [hp, if_false]
  split
  · exact quiet_refl _
  · split
    · exact quiet_refl _
    · split
      · exact pollLoop_quiet _ _ _ _
      · split
        · exact quiet_trans (pollLoop_quiet _ _ _ _) (videoOutcome_quiet _ _ _ _ _)
        · exact quiet_trans (quiet_trans (pollLoop_quiet _ _ _ _) (videoOutcome_quiet _ _ _ _ _))
            (sidecar_quiet _ _ _ _ _ _)

/-- After validation, the trace of `handleVeoTextToVideo` is the clock reading and
its one submission, followed by events that are no generation requests. -/
theorem textToVideo_trace (w : World) (s : Server) (i : VeoTextToVideoInput) (hp : i.prompt ≠ "") :
    Quiet ([Event.now] ++ [Event.generateVideos (orDefault i.model "veo-3.0-generate-001")
        (videoPromptText i.prompt i.negativePrompt) none none])
      (handleVeoTextToVideo w s i).2 := by
  unfold handleVeoTextToVideo
  simp only [hp, if_false]
  split
  · exact quiet_refl _
  · split
    · exact quiet_refl _
    · split
      · exact pollLoop_quiet _ _ _ _
      · split
        · exact quiet_trans (pollLoop_quiet _ _ _ _) (videoOutcome_quiet _ _ _ _ _)
        · exact quiet_trans (quiet_trans (pollLoop_quiet _ _ _ _) (videoOutcome_quiet _ _ _ _ _))
            (sidecar_quiet _ _ _ _ _ _)

/-- After validation, the trace of `handleVeoImageToVideo` is the stat call,
the clock reading, the Imagen request and the one submission, followed by
events that are no generation requests. -/
theorem imageToVideo_trace (w : World) (s : Server) (i : VeoImageToVideoInput)
    (hpath : i.imagePath ≠ "") (hp : i.prompt ≠ "")
    (hstat : w.statNotExist [] i.imagePath = false) :
    Quiet ([Event.stat i.imagePath] ++ [Event.now] ++
        [Event.generateImages "imagen-4.0-generate-001" ("Transform this image: " ++ i.prompt) none]
        ++ [Event.generateVideos (orDefault i.model "veo-3.0-generate-001")
          (videoPromptText i.prompt i.negativePrompt)
          (firstGeneratedImage (w.generateImages ([Event.stat i.imagePath] ++ [Event.now])
            "imagen-4.0-generate-001" ("Transform this image: " ++ i.prompt) none).1) none])
      (handleVeoImageToVideo w s i).2 := by
  unfold handleVeoImageToVideo
  simp only [hpath, hp, hstat, if_false, Bool.false_eq_true]
  split
  · exact quiet_refl _
  · split
    · exact quiet_refl _
    · split
      · exact pollLoop_quiet _ _ _ _
      · split
        · exact quiet_trans (pollLoop_quiet _ _ _ _) (videoOutcome_quiet _ _ _ _ _)
        · exact quiet_trans (quiet_trans (pollLoop_quiet _ _ _ _) (videoOutcome_quiet _ _ _ _ _))
            (sidecar_quiet _ _ _ _ _ _)

/-- The clause list of the image-generation prompt is, without an aspect ratio,
the base clause, the style clause and the two conditional clauses. -/
theorem genPromptParts_without_aspect (i : GeminiImageGenerationInput)
    (ha : i.aspectRatio = "") :
    genPromptParts i (orDefault i.style "photorealistic") (orDefault i.quality "high") =
      ["Create a picture of " ++ i.prompt,
        "Style: " ++ (if i.style = "" then "photorealistic" else i.style)] ++
      (if i.includeText then ["Include high-fidelity text rendering"] else []) ++
      (if (if i.quality = "" then "high" else i.quality) = "high"
        then ["High quality, detailed rendering"] else []) := by
  have hs : orDefault i.style "photorealistic" ≠ "" := by
    unfold orDefault
    split
    · decide
    · assumption
  unfold genPromptParts
  simp only [hs, ha, ne_eq, not_false_eq_true, not_true_eq_false, if_true, if_false]
  unfold orDefault
  by_cases ht : i.includeText = true <;>
    by_cases hq : (if i.quality = "" then "high" else i.quality) = "high" <;>
    simp [ht, hq]

/-- C6.  Defaults of the optional fields.  The three Gemini image handlers
report and send the model `gemini-2.5-flash-image-preview` when the model is
omitted; `handleGeminiImageGeneration` reports quality `high` and language
`en` when these are omitted, passes the aspect ratio through unchanged and,
when it is empty, sends a prompt without an aspect-ratio clause; every video
handler reports aspect ratio `16:9`, resolution `720p` and model
`veo-3.0-generate-001` when these are omitted and submits with that model.  A
supplied non-empty value is kept unchanged in every case. -/
theorem C6_optional_fields_default (w : World) (s : Server) :
    (∀ (i : GeminiImageGenerationInput) (out : GeminiImageGenerationOutput),
      (handleGeminiImageGeneration w s i).1 = .ok out →
      out.model = (if i.model = "" then "gemini-2.5-flash-image-preview" else i.model) ∧
      out.quality = (if i.quality = "" then "high" else i.quality) ∧
      out.language = (if i.language = "" then "en" else i.language) ∧
      out.aspectRatio = i.aspectRatio) ∧
    (∀ (i : GeminiImageGenerationInput) (m : String) (c : List Content),
      Event.generateContent m c ∈ (handleGeminiImageGeneration w s i).2 →
      m = (if i.model = "" then "gemini-2.5-flash-image-preview" else i.model) ∧
      (i.aspectRatio = "" → c = genaiText (stringsJoin
        (["Create a picture of " ++ i.prompt,
          "Style: " ++ (if i.style = "" then "photorealistic" else i.style)] ++
         (if i.includeText then ["Include high-fidelity text rendering"] else []) ++
         (if (if i.quality = "" then "high" else i.quality) = "high"
           then ["High quality, detailed rendering"] else [])) ". "))) ∧
    (∀ (i : GeminiImageEditInput) (out : GeminiImageEditOutput),
      (handleGeminiImageEdit w s i).1 = .ok out →
      out.model = (if i.model = "" then "gemini-2.5-flash-image-preview" else i.model)) ∧
    (∀ (i : GeminiImageEditInput) (m : String) (c : List Content),
      Event.generateContent m c ∈ (handleGeminiImageEdit w s i).2 →
      m = (if i.model = "" then "gemini-2.5-flash-image-preview" else i.model)) ∧
    (∀ (i : GeminiMultiImageInput) (out : GeminiMultiImageOutput),
      (handleGeminiMultiImage w s i).1 = .ok out →
      out.model = (if i.model = "" then "gemini-2.5-flash-image-preview" else i.model)) ∧
    (∀ (i : GeminiMultiImageInput) (m : String) (c : List Content),
      Event.generateContent m c ∈ (handleGeminiMultiImage w s i).2 →
      m = (if i.model = "" then "gemini-2.5-flash-image-preview" else i.model)) ∧
    (∀ (i : VeoGenerationInput) (out : VeoGenerationOutput), (handleVeoGeneration w s i).1 = .ok out →
      out.aspectRatio = (if i.aspectRatio = "" then "16:9" else i.aspectRatio) ∧
      out.resolution = (if i.resolution = "" then "720p" else i.resolution) ∧
      out.model = (if i.model = "" then "veo-3.0-generate-001" else i.model)) ∧
    (∀ (i : VeoGenerationInput) (m p : String) (img : Option Image) (cfg : Option GenerateVideosConfig),
      Event.generateVideos m p img cfg ∈ (handleVeoGeneration w s i).2 →
      m = (if i.model = "" then "veo-3.0-generate-001" else i.model)) ∧
    (∀ (i : VeoTextToVideoInput) (out : VeoGenerationOutput), (handleVeoTextToVideo w s i).1 = .ok out →
      out.aspectRatio = (if i.aspectRatio = "" then "16:9" else i.aspectRatio) ∧
      out.resolution = (if i.resolution = "" then "720p" else i.resolution) ∧
      out.model = (if i.model = "" then "veo-3.0-generate-001" else i.model)) ∧
    (∀ (i : VeoTextToVideoInput) (m p : String) (img : Option Image) (cfg : Option GenerateVideosConfig),
      Event.generateVideos m p img cfg ∈ (handleVeoTextToVideo w s i).2 →
      m = (if i.model = "" then "veo-3.0-generate-001" else i.model)) ∧
    (∀ (i : VeoImageToVideoInput) (out : VeoGenerationOutput), (handleVeoImageToVideo w s i).1 = .ok out →
      out.aspectRatio = (if i.aspectRatio = "" then "16:9" else i.aspectRatio) ∧
      out.resolution = (if i.resolution = "" then "720p" else i.resolution) ∧
      out.model = (if i.model = "" then "veo-3.0-generate-001" else i.model)) ∧
    (∀ (i : VeoImageToVideoInput) (m p : String) (img : Option Image) (cfg : Option GenerateVideosConfig),
      Event.generateVideos m p img cfg ∈ (handleVeoImageToVideo w s i).2 →
      m = (if i.model = "" then "veo-3.0-generate-001" else i.model)) := by
  refine ⟨?_, ?_, ?_, ?_, ?_, ?_, ?_, ?_, ?_, ?_, ?_, ?_⟩
  · intro i out h
    unfold handleGeminiImageGeneration at h
    simp only [] at h
    repeat' split at h
    all_goals first
      | (simp at h; done)
      | (injection h with h; subst h; exact ⟨rfl, rfl, rfl, rfl⟩)
  · intro i m c hm
    by_cases hp : i.prompt = ""
    · simp [handleGeminiImageGeneration, hp] at hm
    · have := quiet_mem (imageGeneration_trace w s i hp) (Event.generateContent m c) rfl hm
      simp only [List.mem_singleton, Event.generateContent.injEq] at this
      refine ⟨this.1, fun ha => ?_⟩
      rw [this.2, genPromptParts_without_aspect i ha]
  · intro i out h
    unfold handleGeminiImageEdit at h
    simp only [] at h
    repeat' split at h
    all_goals first
      | (simp at h; done)
      | (injection h with h; subst h; rfl)
  · intro i m c hm
    exact imageEdit_request_model w s i m c hm
  · intro i out h
    unfold handleGeminiMultiImage at h
    simp only [] at h
    repeat' split at h
    all_goals first
      | (simp at h; done)
      | (injection h with h; subst h; rfl)
  · intro i m c hm
    exact multiImage_request_model w s i m c hm
  · intro i out h
    unfold handleVeoGeneration at h
    simp only [] at h
    repeat' split at h
    all_goals first
      | (simp at h; done)
      | (injection h with h; subst h; exact ⟨rfl, rfl, rfl⟩)
  · intro i m p img cfg hm
    by_cases hp : i.prompt = ""
    · simp [handleVeoGeneration, hp] at hm
    · have := quiet_mem (legacyVideo_trace w s i hp) (Event.generateVideos m p img cfg) rfl hm
      simp at this
      exact this.1
  · intro i out h
    unfold handleVeoTextToVideo at h
    simp only [] at h
    repeat' split at h
    all_goals first
      | (simp at h; done)
      | (injection h with h; subst h; exact ⟨rfl, rfl, rfl⟩)
  · intro i m p img cfg hm
    by_cases hp : i.prompt = ""
    · simp [handleVeoTextToVideo, hp] at hm
    · have := quiet_mem (textToVideo_trace w s i hp) (Event.generateVideos m p img cfg) rfl hm
      simp at this
      exact this.1
  · intro i out h
    unfold handleVeoImageToVideo at h
    simp only [] at h
    repeat' split at h
    all_goals first
      | (simp at h; done)
      | (injection h with h; subst h; exact ⟨rfl, rfl, rfl⟩)
  · intro i m p img cfg hm
    by_cases hpath : i.imagePath = ""
    · simp [handleVeoImageToVideo, hpath] at hm
    · by_cases hp : i.prompt = ""
      · simp [handleVeoImageToVideo, hpath, hp] at hm
      · by_cases hstat : w.statNotExist [] i.imagePath = true
        · simp [handleVeoImageToVideo, hpath, hp, hstat] at hm
        · have := quiet_mem (imageToVideo_trace w s i hpath hp (by simpa using hstat))
            (Event.generateVideos m p img cfg) rfl hm
          simp at this
          exact this.1

/-- C6 at concrete inputs: an image request with only a prompt that succeeds in
`pictureWorld`, and a text-to-video request with only a prompt in
`stuckWorld`. -/
theorem C6_optional_fields_default_witness :
    (∃ out, (handleGeminiImageGeneration pictureWorld defaultServer
        (promptOnly "a red fox in snow")).1 = .ok out ∧
      out.model = "gemini-2.5-flash-image-preview" ∧ out.quality = "high" ∧
      out.language = "en" ∧ out.aspectRatio = "") ∧
    (∃ out, (handleVeoTextToVideo stuckWorld defaultServer
        (textToVideoOnly "a fox running")).1 = .ok out ∧
      out.aspectRatio = "16:9" ∧ out.resolution = "720p" ∧
      out.model = "veo-3.0-generate-001") :=
  ⟨⟨_, rfl, (C6_optional_fields_default pictureWorld defaultServer).1
      (promptOnly "a red fox in snow") _ rfl⟩,
   ⟨_, rfl, (C6_optional_fields_default stuckWorld defaultServer).2.2.2.2.2.2.2.2.1
      (textToVideoOnly "a fox running") _ rfl⟩⟩

/-! ## C7 and C8: documented defaults the handlers do not apply -/

/-- C7, the failing input evaluated: an edit request that leaves out
preserve_style (the Go zero value `false` of the `omitempty` field) succeeds in
`pictureWorld`; the prompt it sends has no preservation clause and the returned
metadata has preserve_style = `false`, against the documented default
`true`. -/
theorem C7_preserve_style_defaults_to_false :
    (editOnly "fox.png" "make the fox blue").preserveStyle = false ∧
    (∃ out, (handleGeminiImageEdit pictureWorld defaultServer
        (editOnly "fox.png" "make the fox blue")).1 = .ok out ∧
      lookup out.metadata "preserve_style" = some "false") ∧
    editPromptParts (editOnly "fox.png" "make the fox blue") "modify" =
      ["make the fox blue", "Modify the image as requested"] ∧
    (handleGeminiImageEdit pictureWorld defaultServer
        (editOnly "fox.png" "make the fox blue")).2.filter Event.isGeneration =
      [Event.generateContent "gemini-2.5-flash-image-preview"
        [newContentFromParts
          [newPartFromText "make the fox blue. Modify the image as requested",
           { text := "", inlineData := some { mimeType := "image/png", data := [1, 2, 3] } }]]] :=
  ⟨rfl, ⟨_, rfl, rfl⟩, rfl, rfl⟩

/-- The metadata of a successful image generation carries the safety level of
the input unchanged. -/
theorem safety_level_passed_through (w : World) (s : Server)
    (i : GeminiImageGenerationInput) (out : GeminiImageGenerationOutput)
    (h : (handleGeminiImageGeneration w s i).1 = .ok out) :
    lookup out.metadata "safety_level" = some i.safetyLevel := by
  unfold handleGeminiImageGeneration at h
  simp only [] at h
  repeat' split at h
  all_goals first
    | (simp at h; done)
    | (injection h with h; subst h; rfl)

/-- C8, the failing input evaluated: an image request with only a prompt
succeeds in `pictureWorld`, and the returned metadata has safety_level = `""`,
against the documented default `moderate`. -/
theorem C8_safety_level_defaults_to_empty :
    (promptOnly "a red fox in snow").safetyLevel = "" ∧
    ∃ out, (handleGeminiImageGeneration pictureWorld defaultServer
        (promptOnly "a red fox in snow")).1 = .ok out ∧
      lookup out.metadata "safety_level" = some "" ∧
      lookup out.metadata "safety_level" ≠ some "moderate" :=
  ⟨rfl, _, rfl, rfl, by decide⟩

/-! ## C9: a failing remote generation call -/

theorem remoteCalls_reads (paths : List String) :
    remoteCalls (paths.map Event.readFile) = 0 := by
  unfold remoteCalls
  rw [List.countP_eq_zero]
  intro e he
  obtain ⟨p, -, rfl⟩ := List.mem_map.mp he
  simp [Event.isRemote]

theorem fileWrites_reads (paths : List String) :
    fileWrites (paths.map Event.readFile) = 0 := by
  unfold fileWrites
  rw [List.countP_eq_zero]
  intro e he
  obtain ⟨p, -, rfl⟩ := List.mem_map.mp he
  simp [Event.isWrite]

/-- C9.  In each of the four image handlers, once validation has passed and
the input images have been read, a remote generation call that returns an
error makes the handler return an error; the handler has then issued exactly
one remote call (no retry) and written no file. -/
theorem C9_remote_error_is_terminal (w : World) (s : Server)
    (hcontent : ∀ tr m c, ∃ e, (w.generateContent tr m c).2 = some e)
    (himages : ∀ tr m p cfg, ∃ e, (w.generateImages tr m p cfg).2 = some e) :
    (∀ i : GeminiImageGenerationInput, i.prompt ≠ "" →
      FailsAfterOneCall (handleGeminiImageGeneration w s i)) ∧
    (∀ i : GeminiImageEditInput, i.inputImagePath ≠ "" → i.editPrompt ≠ "" →
      (∃ d, w.readFile [] i.inputImagePath = .ok d) →
      FailsAfterOneCall (handleGeminiImageEdit w s i)) ∧
    (∀ i : GeminiMultiImageInput,
      i.inputImagePaths.length = 2 ∨ i.inputImagePaths.length = 3 → i.combinePrompt ≠ "" →
      (∀ tr p, p ∈ i.inputImagePaths → ∃ d, w.readFile tr p = .ok d) →
      FailsAfterOneCall (handleGeminiMultiImage w s i)) ∧
    (∀ i : ImagenGenerationInput, i.prompt ≠ "" →
      FailsAfterOneCall (handleImagenGeneration w s i)) := by
  refine ⟨?_, ?_, ?_, ?_⟩
  · intro i hp
    obtain ⟨e, he⟩ := hcontent [] (orDefault i.model "gemini-2.5-flash-image-preview")
      (genaiText (stringsJoin (genPromptParts i (orDefault i.style "photorealistic")
        (orDefault i.quality "high")) ". "))
    unfold FailsAfterOneCall handleGeminiImageGeneration
    simp only [hp, if_false, he]
    simp [HandlerResult.isError, remoteCalls, fileWrites, Event.isRemote, Event.isWrite]
  · intro i hpath hp hread
    obtain ⟨d, hd⟩ := hread
    obtain ⟨e, he⟩ := hcontent [Event.readFile i.inputImagePath]
      (orDefault i.model "gemini-2.5-flash-image-preview")
      [newContentFromParts
        [newPartFromText (stringsJoin (editPromptParts i (orDefault i.editType "modify")) ". "),
         { text := "", inlineData := some { mimeType := "image/png", data := d } }]]
    unfold FailsAfterOneCall handleGeminiImageEdit
    simp only [hpath, hp, if_false, hd, he]
    simp [HandlerResult.isError, remoteCalls, fileWrites, Event.isRemote, Event.isWrite]
  · intro i hlen hp hread
    have h2 : ¬ i.inputImagePaths.length < 2 := by omega
    have h3 : ¬ i.inputImagePaths.length > 3 := by omega
    obtain ⟨parts2, hrd⟩ := readImages_ok w i.inputImagePaths hread 0
      [newPartFromText (stringsJoin (multiPromptParts i (orDefault i.blendMode "merge")) ". ")]
      []
    obtain ⟨e, he⟩ := hcontent ([] ++ i.inputImagePaths.map Event.readFile)
      (orDefault i.model "gemini-2.5-flash-image-preview") [newContentFromParts parts2]
    unfold FailsAfterOneCall handleGeminiMultiImage
    simp only [h2, h3, hp, if_false, hrd, he]
    refine ⟨rfl, ?_, ?_⟩
    · have := remoteCalls_reads i.inputImagePaths
      unfold remoteCalls at this ⊢
      simp [List.countP_append, this, Event.isRemote]
    · have := fileWrites_reads i.inputImagePaths
      unfold fileWrites at this ⊢
      simp [List.countP_append, this, Event.isWrite]
  · intro i hp
    obtain ⟨e, he⟩ := himages [] (orDefault i.model "imagen-4.0-generate-001") i.prompt
      (some { numberOfImages := toInt32 (if i.numImages = 0 then 1 else i.numImages),
              aspectRatio := orDefault i.aspectRatio "1:1" })
    unfold FailsAfterOneCall handleImagenGeneration
    simp only [hp, if_false, he]
    simp [HandlerResult.isError, remoteCalls, fileWrites, Event.isRemote, Event.isWrite]

/-- C9 at a concrete world: in `failingWorld` an image request and an edit
request end in an error after one remote call and no file write. -/
theorem C9_remote_error_is_terminal_witness :
    ((promptOnly "a red fox in snow").prompt ≠ "" ∧
      FailsAfterOneCall (handleGeminiImageGeneration failingWorld defaultServer
        (promptOnly "a red fox in snow"))) ∧
    ((editOnly "fox.png" "make the fox blue").inputImagePath ≠ "" ∧
      (editOnly "fox.png" "make the fox blue").editPrompt ≠ "" ∧
      (∃ d, failingWorld.readFile [] (editOnly "fox.png" "make the fox blue").inputImagePath
        = .ok d) ∧
      FailsAfterOneCall (handleGeminiImageEdit failingWorld defaultServer
        (editOnly "fox.png" "make the fox blue"))) :=
  ⟨⟨by decide,
    (C9_remote_error_is_terminal failingWorld defaultServer
      (fun _ _ _ => ⟨_, rfl⟩) (fun _ _ _ _ => ⟨_, rfl⟩)).1
      (promptOnly "a red fox in snow") (by decide)⟩,
   ⟨by decide, by decide, ⟨_, rfl⟩,
    (C9_remote_error_is_terminal failingWorld defaultServer
      (fun _ _ _ => ⟨_, rfl⟩) (fun _ _ _ _ => ⟨_, rfl⟩)).2.1
      (editOnly "fox.png" "make the fox blue") (by decide) (by decide) ⟨_, rfl⟩⟩⟩

/-! ## C10: responses without content -/

theorem genCandidates_noFragments (w : World) (s : Server) (i : GeminiImageGenerationInput)
    (style timestamp : String) (cands : List Candidate)
    (h : ∀ c ∈ cands, ∀ content, c.content = some content → content.parts = []) :
    ∀ st : GenLoop, genCandidates w s i style timestamp cands st = st := by
  induction cands with
  | nil => intro st; rfl
  | cons c rest ih =>
    intro st
    have hrest := ih (fun c2 hc2 => h c2 (List.mem_cons_of_mem _ hc2))
    cases hc : c.content with
    | none => simp [genCandidates, hc, hrest]
    | some content =>
      have := h c (List.mem_cons_self _ _) content hc
      simp [genCandidates, hc, this, genParts, hrest]

theorem saveCandidates_noFragments (w : World) (s : Server)
    (outputDirectory stem timestamp : String) (cands : List Candidate)
    (h : ∀ c ∈ cands, ∀ content, c.content = some content → content.parts = []) :
    ∀ st : SaveLoop, saveCandidates w s outputDirectory stem timestamp cands st = st := by
  induction cands with
  | nil => intro st; rfl
  | cons c rest ih =>
    intro st
    have hrest := ih (fun c2 hc2 => h c2 (List.mem_cons_of_mem _ hc2))
    cases hc : c.content with
    | none => simp [saveCandidates, hc, hrest]
    | some content =>
      have := h c (List.mem_cons_self _ _) content hc
      simp [saveCandidates, hc, this, saveParts, hrest]

/-- Let the remote content-generation call succeed with the response `resp`.
When `resp` is nil or has zero candidates, each Gemini image handler returns
its empty-result error.  When `resp` has at least one candidate but the
candidates together contain zero content fragments, no handler tests for it:
each returns a successful output that holds no image (images_created is 0 for
image generation; no file is saved and no image path is reported for edit and
multi-image). -/
theorem emptyResponse_outcomes (w : World) (s : Server) (resp : Option GenerateContentResponse)
    (hcall : ∀ tr m c, w.generateContent tr m c = (resp, none)) :
    ((resp = none ∨ ∃ r, resp = some r ∧ r.candidates = []) →
      (∀ i : GeminiImageGenerationInput, i.prompt ≠ "" →
        (handleGeminiImageGeneration w s i).1 = .error "no content was generated") ∧
      (∀ i : GeminiImageEditInput, i.inputImagePath ≠ "" → i.editPrompt ≠ "" →
        (∃ d, w.readFile [] i.inputImagePath = .ok d) →
        (handleGeminiImageEdit w s i).1 = .error "no edited content was generated") ∧
      (∀ i : GeminiMultiImageInput,
        i.inputImagePaths.length = 2 ∨ i.inputImagePaths.length = 3 → i.combinePrompt ≠ "" →
        (∀ tr p, p ∈ i.inputImagePaths → ∃ d, w.readFile tr p = .ok d) →
        (handleGeminiMultiImage w s i).1 = .error "no combined content was generated")) ∧
    (∀ r, resp = some r → r.candidates ≠ [] → NoFragments r →
      (∀ i : GeminiImageGenerationInput, i.prompt ≠ "" →
        ∃ out, (handleGeminiImageGeneration w s i).1 = .ok out ∧ out.imagesCreated = 0) ∧
      (∀ i : GeminiImageEditInput, i.inputImagePath ≠ "" → i.editPrompt ≠ "" →
        (∃ d, w.readFile [] i.inputImagePath = .ok d) →
        ∃ out, (handleGeminiImageEdit w s i).1 = .ok out ∧ out.savedFiles = [] ∧
          out.editedImage = "") ∧
      (∀ i : GeminiMultiImageInput,
        i.inputImagePaths.length = 2 ∨ i.inputImagePaths.length = 3 → i.combinePrompt ≠ "" →
        (∀ tr p, p ∈ i.inputImagePaths → ∃ d, w.readFile tr p = .ok d) →
        ∃ out, (handleGeminiMultiImage w s i).1 = .ok out ∧ out.savedFiles = [] ∧
          out.combinedImage = "")) := by
  constructor
  · intro hempty
    refine ⟨?_, ?_, ?_⟩
    · intro i hp
      unfold handleGeminiImageGeneration
      rcases hempty with h | ⟨r, h, hc⟩
      · simp only [hp, if_false, hcall, h]
      · simp only [hp, if_false, hcall, h, hc, List.length_nil, if_true]
    · intro i hpath hp hread
      obtain ⟨d, hd⟩ := hread
      unfold handleGeminiImageEdit
      rcases hempty with h | ⟨r, h, hc⟩
      · simp only [hpath, hp, if_false, hd, hcall, h]
      · simp only [hpath, hp, if_false, hd, hcall, h, hc, List.length_nil, if_true]
    · intro i hlen hp hread
      have h2 : ¬ i.inputImagePaths.length < 2 := by omega
      have h3 : ¬ i.inputImagePaths.length > 3 := by omega
      obtain ⟨parts2, hrd⟩ := readImages_ok w i.inputImagePaths hread 0
        [newPartFromText (stringsJoin (multiPromptParts i (orDefault i.blendMode "merge")) ". ")]
        []
      unfold handleGeminiMultiImage
      rcases hempty with h | ⟨r, h, hc⟩
      · simp only [h2, h3, hp, if_false, hrd, hcall, h]
      · simp only [h2, h3, hp, if_false, hrd, hcall, h, hc, List.length_nil, if_true]
  · intro r h hne hno
    have hlen : ¬ r.candidates.length = 0 := fun h0 => hne (List.length_eq_zero.mp h0)
    refine ⟨?_, ?_, ?_⟩
    · intro i hp
      unfold handleGeminiImageGeneration
      simp only [hp, if_false, hcall, h, hlen, genCandidates_noFragments _ _ _ _ _ _ hno]
      exact ⟨_, rfl, rfl⟩
    · intro i hpath hp hread
      obtain ⟨d, hd⟩ := hread
      unfold handleGeminiImageEdit
      simp only [hpath, hp, if_false, hd, hcall, h, hlen,
        saveCandidates_noFragments _ _ _ _ _ _ hno]
      exact ⟨_, rfl, rfl, rfl⟩
    · intro i hlen2 hp hread
      have h2 : ¬ i.inputImagePaths.length < 2 := by omega
      have h3 : ¬ i.inputImagePaths.length > 3 := by omega
      obtain ⟨parts2, hrd⟩ := readImages_ok w i.inputImagePaths hread 0
        [newPartFromText (stringsJoin (multiPromptParts i (orDefault i.blendMode "merge")) ". ")]
        []
      unfold handleGeminiMultiImage
      simp only [h2, h3, hp, if_false, hrd, hcall, h, hlen,
        saveCandidates_noFragments _ _ _ _ _ _ hno]
      exact ⟨_, rfl, rfl, rfl⟩

/-- The two cases at concrete worlds: zero candidates in `quietWorld` give the
empty-result error, and one candidate without parts in `emptyPartsWorld` gives
a successful output with images_created = 0. -/
theorem emptyResponse_outcomes_example :
    ((promptOnly "a red fox in snow").prompt ≠ "" ∧
      (handleGeminiImageGeneration quietWorld defaultServer
        (promptOnly "a red fox in snow")).1 = .error "no content was generated") ∧
    (emptyPartsResponse.candidates ≠ [] ∧ NoFragments emptyPartsResponse ∧
      ∃ out, (handleGeminiImageGeneration emptyPartsWorld defaultServer
        (promptOnly "a red fox in snow")).1 = .ok out ∧ out.imagesCreated = 0) :=
  ⟨⟨by decide,
    ((emptyResponse_outcomes quietWorld defaultServer (some { candidates := [] })
      (fun _ _ _ => rfl)).1 (Or.inr ⟨_, rfl, rfl⟩)).1
      (promptOnly "a red fox in snow") (by decide)⟩,
   ⟨by decide, by simp [NoFragments, emptyPartsResponse],
    ((emptyResponse_outcomes emptyPartsWorld defaultServer (some emptyPartsResponse)
      (fun _ _ _ => rfl)).2 emptyPartsResponse rfl (by decide)
      (by simp [NoFragments, emptyPartsResponse])).1
      (promptOnly "a red fox in snow") (by decide)⟩⟩

/-- C10, the failing input evaluated: the remote call succeeds with a response
of one candidate whose content has zero parts.  No handler returns an
empty-result error.  Image generation returns a successful output with
description `Image generated successfully`, images_created = 0 and no saved
file; edit and multi-image return a successful output without any image.  The
same handlers do return the empty-result error for a response with zero
candidates (`quietWorld`). -/
theorem C10_zero_fragments_is_success :
    emptyPartsResponse.candidates.length = 1 ∧
    (emptyPartsResponse.candidates.map
      (fun c => (c.content.map (fun ct => ct.parts.length)).getD 0)).sum = 0 ∧
    (∃ out, (handleGeminiImageGeneration emptyPartsWorld defaultServer
        (promptOnly "a red fox in snow")).1 = .ok out ∧
      out.description = "Image generated successfully" ∧ out.imagesCreated = 0 ∧
      out.savedFiles = []) ∧
    (∃ out, (handleGeminiImageEdit emptyPartsWorld defaultServer
        (editOnly "fox.png" "make the fox blue")).1 = .ok out ∧
      out.editedImage = "" ∧ out.savedFiles = []) ∧
    (∃ out, (handleGeminiMultiImage emptyPartsWorld defaultServer
        (multiOnly ["a.png", "b.png"] "blend them")).1 = .ok out ∧
      out.combinedImage = "" ∧ out.savedFiles = []) ∧
    (handleGeminiImageGeneration quietWorld defaultServer
      (promptOnly "a red fox in snow")).1 = .error "no content was generated" ∧
    (handleGeminiImageEdit quietWorld defaultServer
      (editOnly "fox.png" "make the fox blue")).1 = .error "no edited content was generated" :=
  ⟨rfl, rfl, ⟨_, rfl, rfl, rfl, rfl⟩, ⟨_, rfl, rfl, rfl⟩, ⟨_, rfl, rfl, rfl⟩, rfl, rfl⟩

/-! ## C11: names of the saved images -/

/-- The image saved by `genPart` is written under `generatedImageName`, which
depends on the style, the timestamp and the index of the part only. -/
theorem genPart_saved_name (w : World) (s : Server) (i : GeminiImageGenerationInput)
    (style timestamp : String) (k : Nat) (part : Part) (st : GenLoop) (e : Event)
    (he : e ∈ (genPart w s i style timestamp k part st).trace) (hw : e.isWrite = true) :
    e ∈ st.trace ∨ ∃ dir data,
      e = Event.writeFile (w.filepathJoin dir (generatedImageName style timestamp k)) data := by
  unfold genPart at he
  simp only [] at he
  unfold saveFile at he
  simp only [] at he
  repeat' split at he
  all_goals first
    | exact Or.inl he
    | (simp only [List.mem_append, List.mem_singleton] at he
       rcases he with (he | he) | he
       · exact Or.inl he
       · rw [he] at hw; simp [Event.isWrite] at hw
       · exact Or.inr ⟨_, _, he⟩)
    | (simp only [List.mem_append, List.mem_singleton] at he
       rcases he with he | he
       · exact Or.inl he
       · rw [he] at hw; simp [Event.isWrite] at hw)

/-- C11, the failing input evaluated: a response with two candidates, each
holding one image fragment, with different payloads.  Both payloads are written
in the same call under the same file name (index 0 of their candidate): the
two writes go to one path and saved_files lists that path twice. -/
theorem C11_two_candidates_share_a_filename :
    (handleGeminiImageGeneration twoCandidatesWorld defaultServer
        (promptOnly "a red fox in snow")).2.filter Event.isWrite =
      [Event.writeFile "./output/gemini_generated_photorealistic_20240101_000000_0.png" [1, 1, 1],
       Event.writeFile "./output/gemini_generated_photorealistic_20240101_000000_0.png" [2, 2, 2]] ∧
    ∃ out, (handleGeminiImageGeneration twoCandidatesWorld defaultServer
        (promptOnly "a red fox in snow")).1 = .ok out ∧
      out.imagesCreated = 2 ∧
      out.savedFiles =
        ["./output/gemini_generated_photorealistic_20240101_000000_0.png",
         "./output/gemini_generated_photorealistic_20240101_000000_0.png"] :=
  ⟨by decide, _, rfl, rfl, by decide⟩

/-! ## C13: the prompt-only scenario -/

/-- The prompt-only scenario in general: `handleGeminiImageGeneration` called
with prompt "a red fox in snow" and no other field, against a backend returning
one candidate with one image fragment, with a configured default output
directory and working directory creation and file writes, succeeds with
images_created = 1, quality = `high` and language = `en`; saved_files is
exactly one `.png` in the default output directory, and that image is the only
file written.  The sidecar block does not fall back to the default directory,
so no metadata `.json` is written. -/
theorem promptOnly_scenario_saves_image_only (w : World) (s : Server) (text role : String) (blob : Blob)
    (hblob : blob.data.length > 0)
    (hresp : ∀ tr m c, w.generateContent tr m c =
      (some { candidates :=
        [{ content := some { parts := [{ text := text, inlineData := some blob }],
                             role := role } }] }, none))
    (hdir : s.config.outputDir ≠ "")
    (hmk : ∀ tr dir, w.mkdirAll tr dir = true)
    (hwr : ∀ tr path data, w.writeFile tr path data = true) :
    ∃ out, (handleGeminiImageGeneration w s (promptOnly "a red fox in snow")).1 = .ok out ∧
      out.imagesCreated = 1 ∧ out.quality = "high" ∧ out.language = "en" ∧
      out.savedFiles = [w.filepathJoin s.config.outputDir
        (generatedImageName "photorealistic" out.generatedAt 0)] ∧
      writtenPaths (handleGeminiImageGeneration w s (promptOnly "a red fox in snow")).2 =
        out.savedFiles := by
  have hlen : ¬ blob.data.length = 0 := by omega
  unfold handleGeminiImageGeneration
  by_cases ht : text = ""
  all_goals
    simp only [promptOnly, hresp, genCandidates, genParts, genPart, saveFile, hmk, hwr, hdir,
      hblob, orDefault, List.length_singleton, if_true, if_false, ne_eq, not_false_eq_true,
      not_true_eq_false, String.reduceEq, one_ne_zero, List.length_cons, List.length_nil,
      Nat.succ_ne_zero, zero_add, reduceCtorEq, ht]
    refine ⟨_, rfl, rfl, rfl, rfl, rfl, ?_⟩
    simp [writtenPaths]

/-- The prompt-only scenario at a concrete world: `pictureWorld` with the
default server, whose output directory is `./output`. -/
theorem promptOnly_scenario_saves_image_only_example :
    defaultServer.config.outputDir ≠ "" ∧
    ∃ out, (handleGeminiImageGeneration pictureWorld defaultServer
        (promptOnly "a red fox in snow")).1 = .ok out ∧
      out.imagesCreated = 1 ∧ out.quality = "high" ∧ out.language = "en" ∧
      out.savedFiles = [pictureWorld.filepathJoin defaultServer.config.outputDir
        (generatedImageName "photorealistic" out.generatedAt 0)] ∧
      writtenPaths (handleGeminiImageGeneration pictureWorld defaultServer
        (promptOnly "a red fox in snow")).2 = out.savedFiles :=
  ⟨by decide,
    promptOnly_scenario_saves_image_only pictureWorld defaultServer "" "model"
      { mimeType := "image/png", data := [137, 80, 78, 71] } (by decide)
      (fun _ _ _ => rfl) (by decide) (fun _ _ => rfl) (fun _ _ _ => rfl)⟩

/-- C13, the failing input evaluated: the prompt-only request in
`pictureWorld`, with the default output directory `./output` and every file
operation working.  The call succeeds with images_created = 1, quality =
`high` and language = `en`, and the image goes to the default directory; but
saved_files is that one image and nothing else, and the image is the only file
written: there is no metadata `.json`.  The same request with
output_directory = `out` (`strictRequest`) writes the image and the sidecar. -/
theorem C13_no_metadata_sidecar_without_output_directory :
    (promptOnly "a red fox in snow").outputDirectory = "" ∧
    defaultServer.config.outputDir = "./output" ∧
    (∃ out, (handleGeminiImageGeneration pictureWorld defaultServer
        (promptOnly "a red fox in snow")).1 = .ok out ∧
      out.imagesCreated = 1 ∧ out.quality = "high" ∧ out.language = "en" ∧
      out.savedFiles =
        ["./output/gemini_generated_photorealistic_20240101_000000_0.png"]) ∧
    writtenPaths (handleGeminiImageGeneration pictureWorld defaultServer
        (promptOnly "a red fox in snow")).2 =
      ["./output/gemini_generated_photorealistic_20240101_000000_0.png"] ∧
    writtenPaths (handleGeminiImageGeneration pictureWorld defaultServer strictRequest).2 =
      ["out/gemini_generated_photorealistic_20240101_000000_0.png",
       "out/gemini_metadata_20240101_000000.json"] :=
  ⟨rfl, rfl, ⟨_, rfl, rfl, rfl, rfl, by decide⟩, by decide, by decide⟩

/-! ## C15 and C16: the starting image of a video -/

/-- C15, the failing input evaluated: an image-to-video request for `fox.png`.
The handler never reads the file.  In `imagenWorld`, where the file holds
`[1, 2, 3]` and Imagen returns an image `[9, 9]` generated from the prompt, the
video request carries `[9, 9]`; in `quietWorld`, where Imagen returns nothing,
the video request carries no image at all. -/
theorem C15_image_to_video_ignores_the_file :
    imagenWorld.readFile [] foxToVideo.imagePath = .ok [1, 2, 3] ∧
    (handleVeoImageToVideo imagenWorld defaultServer foxToVideo).2.filter Event.isRead = [] ∧
    (handleVeoImageToVideo imagenWorld defaultServer foxToVideo).2.filter Event.isGeneration =
      [Event.generateImages "imagen-4.0-generate-001" "Transform this image: make it move" none,
       Event.generateVideos "veo-3.0-generate-001" "make it move"
         (some { imageBytes := [9, 9] }) none] ∧
    (handleVeoImageToVideo quietWorld defaultServer foxToVideo).2.filter Event.isRead = [] ∧
    (handleVeoImageToVideo quietWorld defaultServer foxToVideo).2.filter Event.isGeneration =
      [Event.generateImages "imagen-4.0-generate-001" "Transform this image: make it move" none,
       Event.generateVideos "veo-3.0-generate-001" "make it move" none none] :=
  ⟨rfl, rfl, rfl, rfl, rfl⟩

/-- C16, the failing input evaluated: a legacy video request with
image_path = `fox.png`.  The handler never reads the file and submits the video
request with a nil image. -/
theorem C16_legacy_video_ignores_image_path :
    legacyWithImage.imagePath = "fox.png" ∧
    (handleVeoGeneration quietWorld defaultServer legacyWithImage).2.filter Event.isRead = [] ∧
    (handleVeoGeneration quietWorld defaultServer legacyWithImage).2.filter
        Event.isGeneration =
      [Event.generateVideos "veo-3.0-generate-001" "a fox" none none] :=
  ⟨rfl, rfl, rfl⟩

/-! ## C17: the number of images of an Imagen request -/

/-- C17, the failing inputs evaluated: Imagen requests for 7 and for -2 images.
Neither is rejected: the handler sends NumberOfImages = 7, respectively -2, to
the remote API, and with a backend that returns an image the call succeeds. -/
theorem C17_num_images_is_not_range_checked :
    (handleImagenGeneration imagenWorld defaultServer (imagenCount 7)).2.head? =
      some (Event.generateImages "imagen-4.0-generate-001" "a fox"
        (some { numberOfImages := 7, aspectRatio := "1:1" })) ∧
    (handleImagenGeneration imagenWorld defaultServer (imagenCount 7)).1.isOk = true ∧
    (handleImagenGeneration imagenWorld defaultServer (imagenCount (-2))).2.head? =
      some (Event.generateImages "imagen-4.0-generate-001" "a fox"
        (some { numberOfImages := -2, aspectRatio := "1:1" })) ∧
    (handleImagenGeneration imagenWorld defaultServer (imagenCount (-2))).1.isOk = true :=
  ⟨by decide, rfl, by decide, rfl⟩

/-! ## C18: configuration defaults -/

theorem osGetenv_unsetOrEmpty (env : Environ) (key : String) (h : unsetOrEmpty env key) :
    osGetenv env key = "" := by
  rcases h with h | h <;> simp [osGetenv, h]

theorem osGetenv_set (env : Environ) (key v : String) (h : env key = some v) :
    osGetenv env key = v := by
  simp [osGetenv, h]

/-- The two cases of `getEnvOrDefault`. -/
theorem getEnvOrDefault_cases (env : Environ) (key d : String) :
    (unsetOrEmpty env key → getEnvOrDefault env key d = d) ∧
    (∀ v, env key = some v → v ≠ "" → getEnvOrDefault env key d = v) := by
  constructor
  · intro h
    simp [getEnvOrDefault, osGetenv_unsetOrEmpty env key h]
  · intro v h hv
    simp [getEnvOrDefault, osGetenv_set env key v h, hv]

/-- The two cases of the copy of `getEnvOrDefault` in `internal/config`. -/
theorem config_getEnvOrDefault_cases (env : Environ) (key d : String) :
    (unsetOrEmpty env key → config.getEnvOrDefault env key d = d) ∧
    (∀ v, env key = some v → v ≠ "" → config.getEnvOrDefault env key d = v) := by
  constructor
  · intro h
    simp [config.getEnvOrDefault, osGetenv_unsetOrEmpty env key h]
  · intro v h hv
    simp [config.getEnvOrDefault, osGetenv_set env key v h, hv]

/-- The value of `getEnvOrDefault` is the default in exactly two situations:
the variable is unset or empty, or it is set to the default itself. -/
theorem getEnvOrDefault_eq_default_iff (env : Environ) (key d : String) :
    getEnvOrDefault env key d = d ↔ unsetOrEmpty env key ∨ env key = some d := by
  unfold getEnvOrDefault osGetenv unsetOrEmpty
  cases h : env key with
  | none => simp
  | some v =>
    by_cases hv : v = ""
    · simp [hv]
    · simp [hv]

/-- C18.  `getEnvOrDefault env key d` is the value of the variable when it is
set and non-empty, and `d` otherwise.  Hence, for every environment,
`LoadConfig` (and `config.Load`, when it succeeds) yields Location
`us-central1`, OutputDir `./output` and Transport `stdio` when the
corresponding variable is unset or empty, and the value of the variable
otherwise; apart from a variable set to the default text itself, these are the
only environments that yield the defaults. -/
theorem C18_configuration_defaults (env : Environ) :
    (∀ key d, (unsetOrEmpty env key → getEnvOrDefault env key d = d) ∧
      (∀ v, env key = some v → v ≠ "" → getEnvOrDefault env key d = v)) ∧
    ((unsetOrEmpty env "GOOGLE_LOCATION" → (LoadConfig env).1.location = "us-central1") ∧
      (∀ v, env "GOOGLE_LOCATION" = some v → v ≠ "" → (LoadConfig env).1.location = v) ∧
      (unsetOrEmpty env "OUTPUT_DIR" → (LoadConfig env).1.outputDir = "./output") ∧
      (∀ v, env "OUTPUT_DIR" = some v → v ≠ "" → (LoadConfig env).1.outputDir = v) ∧
      (unsetOrEmpty env "TRANSPORT" → (LoadConfig env).1.transport = "stdio") ∧
      (∀ v, env "TRANSPORT" = some v → v ≠ "" → (LoadConfig env).1.transport = v)) ∧
    (((LoadConfig env).1.location = "us-central1" ↔
        unsetOrEmpty env "GOOGLE_LOCATION" ∨ env "GOOGLE_LOCATION" = some "us-central1") ∧
      ((LoadConfig env).1.outputDir = "./output" ↔
        unsetOrEmpty env "OUTPUT_DIR" ∨ env "OUTPUT_DIR" = some "./output") ∧
      ((LoadConfig env).1.transport = "stdio" ↔
        unsetOrEmpty env "TRANSPORT" ∨ env "TRANSPORT" = some "stdio")) ∧
    (∀ (w : World) (c : config.Config), (config.Load w env).1 = .ok c →
      (unsetOrEmpty env "GOOGLE_LOCATION" → c.location = "us-central1") ∧
      (∀ v, env "GOOGLE_LOCATION" = some v → v ≠ "" → c.location = v) ∧
      (unsetOrEmpty env "OUTPUT_DIR" → c.outputDir = "./output") ∧
      (∀ v, env "OUTPUT_DIR" = some v → v ≠ "" → c.outputDir = v) ∧
      (unsetOrEmpty env "TRANSPORT" → c.transport = "stdio") ∧
      (∀ v, env "TRANSPORT" = some v → v ≠ "" → c.transport = v)) := by
  have hloc : (LoadConfig env).1.location = getEnvOrDefault env "GOOGLE_LOCATION" "us-central1" := by
    unfold LoadConfig; simp only []; split <;> rfl
  have hout : (LoadConfig env).1.outputDir = getEnvOrDefault env "OUTPUT_DIR" "./output" := by
    unfold LoadConfig; simp only []; split <;> rfl
  have htr : (LoadConfig env).1.transport = getEnvOrDefault env "TRANSPORT" "stdio" := by
    unfold LoadConfig; simp only []; split <;> rfl
  refine ⟨fun key d => getEnvOrDefault_cases env key d, ?_, ?_, ?_⟩
  · rw [hloc, hout, htr]
    exact ⟨(getEnvOrDefault_cases env _ _).1, (getEnvOrDefault_cases env _ _).2,
      (getEnvOrDefault_cases env _ _).1, (getEnvOrDefault_cases env _ _).2,
      (getEnvOrDefault_cases env _ _).1, (getEnvOrDefault_cases env _ _).2⟩
  · rw [hloc, hout, htr]
    exact ⟨getEnvOrDefault_eq_default_iff env _ _, getEnvOrDefault_eq_default_iff env _ _,
      getEnvOrDefault_eq_default_iff env _ _⟩
  · intro w c hc
    have hcfg : c.location = config.getEnvOrDefault env "GOOGLE_LOCATION" "us-central1" ∧
        c.outputDir = config.getEnvOrDefault env "OUTPUT_DIR" "./output" ∧
        c.transport = config.getEnvOrDefault env "TRANSPORT" "stdio" := by
      unfold config.Load at hc
      simp only [] at hc
      repeat' split at hc
      all_goals first
        | (simp at hc; done)
        | (injection hc with hc; subst hc; exact ⟨rfl, rfl, rfl⟩)
    rw [hcfg.1, hcfg.2.1, hcfg.2.2]
    exact ⟨(config_getEnvOrDefault_cases env _ _).1, (config_getEnvOrDefault_cases env _ _).2,
      (config_getEnvOrDefault_cases env _ _).1, (config_getEnvOrDefault_cases env _ _).2,
      (config_getEnvOrDefault_cases env _ _).1, (config_getEnvOrDefault_cases env _ _).2⟩

/-- C18 at a concrete environment: the API key and `TRANSPORT=sse` are set,
`GOOGLE_LOCATION` is not. -/
theorem C18_configuration_defaults_witness :
    (unsetOrEmpty (environOf [("GOOGLE_API_KEY", "key"), ("TRANSPORT", "sse")])
        "GOOGLE_LOCATION" ∧
      (LoadConfig (environOf [("GOOGLE_API_KEY", "key"), ("TRANSPORT", "sse")])).1.location =
        "us-central1") ∧
    (environOf [("GOOGLE_API_KEY", "key"), ("TRANSPORT", "sse")] "TRANSPORT" = some "sse" ∧
      "sse" ≠ "" ∧
      (LoadConfig (environOf [("GOOGLE_API_KEY", "key"), ("TRANSPORT", "sse")])).1.transport =
        "sse") :=
  ⟨⟨Or.inl rfl,
    (C18_configuration_defaults
      (environOf [("GOOGLE_API_KEY", "key"), ("TRANSPORT", "sse")])).2.1.1 (Or.inl rfl)⟩,
   ⟨rfl, by decide,
    (C18_configuration_defaults
      (environOf [("GOOGLE_API_KEY", "key"), ("TRANSPORT", "sse")])).2.1.2.2.2.2.2
      "sse" rfl (by decide)⟩⟩

/-! ## C19: the API key is required -/

/-- C19.  `Config.Validate` returns an error if and only if APIKey is the
empty string, and leaves the configuration as it was; `config.Load` returns an
error whenever `GOOGLE_API_KEY` is unset or empty, and has then not created the
output directory. -/
theorem C19_api_key_required :
    (∀ c : Config, ((Config.Validate c).1.isSome = true ↔ c.apiKey = "") ∧
      (Config.Validate c).2 = c) ∧
    (∀ (w : World) (env : Environ), unsetOrEmpty env "GOOGLE_API_KEY" →
      (config.Load w env).1 = .error "GOOGLE_API_KEY environment variable is required" ∧
      (config.Load w env).2 = []) := by
  constructor
  · intro c
    unfold Config.Validate
    by_cases h : c.apiKey = "" <;> simp [h]
  · intro w env h
    unfold config.Load
    simp [osGetenv_unsetOrEmpty env _ h]

/-- C19 at a concrete environment: nothing is set. -/
theorem C19_api_key_required_witness :
    unsetOrEmpty (environOf []) "GOOGLE_API_KEY" ∧
    (config.Load quietWorld (environOf [])).1 =
      .error "GOOGLE_API_KEY environment variable is required" ∧
    (config.Load quietWorld (environOf [])).2 = [] :=
  ⟨Or.inl rfl, C19_api_key_required.2 quietWorld (environOf []) (Or.inl rfl)⟩

/-! ## C20: the transport the service runs on -/

/-- Whenever `main` gets as far as running the server, it runs it on the
stdio transport. -/
theorem main_serves_on_stdio (build : BuildInfo) (flags : Flags) (env : Environ)
    (newClient : String → Option String) (t : McpTransport)
    (h : (main build flags env newClient).1.transport? = some t) : t = McpTransport.stdio := by
  unfold main at h
  simp only [] at h
  repeat' split at h
  all_goals first
    | (simp [MainOutcome.transport?] at h; done)
    | (simp only [MainOutcome.transport?, Option.some.injEq] at h; exact h.symm)

/-- C20, the failing inputs evaluated: with the flag `--transport http`, and
with `TRANSPORT=sse` in the environment and no flag, the configuration in
force names `http`, respectively `sse`, and the start-up line logs it, but the
server is run on the stdio transport. -/
theorem C20_transport_setting_is_not_used :
    ((main devBuild { transport := "http", showVersion := false }
        (environOf [("GOOGLE_API_KEY", "key")]) (fun _ => none)).1.transport? =
        some McpTransport.stdio ∧
      ((main devBuild { transport := "http", showVersion := false }
        (environOf [("GOOGLE_API_KEY", "key")]) (fun _ => none)).1.config?.map
          (fun c => c.transport)) = some "http" ∧
      McpTransport.stdio.name ≠ "http") ∧
    ((main devBuild { transport := "", showVersion := false }
        (environOf [("GOOGLE_API_KEY", "key"), ("TRANSPORT", "sse")])
        (fun _ => none)).1.transport? = some McpTransport.stdio ∧
      ((main devBuild { transport := "", showVersion := false }
        (environOf [("GOOGLE_API_KEY", "key"), ("TRANSPORT", "sse")])
        (fun _ => none)).1.config?.map (fun c => c.transport)) = some "sse" ∧
      McpTransport.stdio.name ≠ "sse") :=
  ⟨⟨rfl, rfl, by decide⟩, ⟨rfl, rfl, by decide⟩⟩

/-! ## C14: best-effort artifact writes -/

theorem successfulWritesFrom_append (w : World) (a : List Event) :
    ∀ (pre b : List Event), successfulWritesFrom w pre (a ++ b) =
      successfulWritesFrom w pre a ++ successfulWritesFrom w (pre ++ a) b := by
  induction a with
  | nil => intro pre b; simp [successfulWritesFrom]
  | cons e rest ih =>
    intro pre b
    simp [successfulWritesFrom, ih, List.append_assoc]

theorem tracks_refl (w : World) (tr : List Event) (saved : List String) :
    Tracks w tr saved tr saved :=
  ⟨[], by simp, by simp [successfulWritesFrom]⟩

theorem tracks_trans {w : World} {tr1 tr2 tr3 : List Event} {s1 s2 s3 : List String}
    (h1 : Tracks w tr1 s1 tr2 s2) (h2 : Tracks w tr2 s2 tr3 s3) : Tracks w tr1 s1 tr3 s3 := by
  obtain ⟨a, rfl, rfl⟩ := h1
  obtain ⟨b, rfl, rfl⟩ := h2
  exact ⟨a ++ b, by simp, by simp [successfulWritesFrom_append]⟩

theorem tracks_mkdir (w : World) (tr : List Event) (saved : List String) (dir : String) :
    Tracks w tr saved (tr ++ [Event.mkdirAll dir]) saved :=
  ⟨[Event.mkdirAll dir], rfl, by simp [successfulWritesFrom, successfulWriteOf]⟩

theorem tracks_write_ok (w : World) (tr : List Event) (saved : List String)
    (dir path : String) (data : Bytes)
    (h : w.writeFile (tr ++ [Event.mkdirAll dir]) path data = true) :
    Tracks w tr saved (tr ++ [Event.mkdirAll dir] ++ [Event.writeFile path data])
      (saved ++ [path]) :=
  ⟨[Event.mkdirAll dir, Event.writeFile path data], by simp,
    by simp [successfulWritesFrom, successfulWriteOf, h]⟩

theorem tracks_write_failed (w : World) (tr : List Event) (saved : List String)
    (dir path : String) (data : Bytes)
    (h : ¬ w.writeFile (tr ++ [Event.mkdirAll dir]) path data = true) :
    Tracks w tr saved (tr ++ [Event.mkdirAll dir] ++ [Event.writeFile path data]) saved :=
  ⟨[Event.mkdirAll dir, Event.writeFile path data], by simp,
    by simp [successfulWritesFrom, successfulWriteOf, h]⟩

theorem saveFile_tracks (w : World) (tr : List Event) (saved : List String)
    (dir filename : String) (data : Bytes) :
    Tracks w tr saved (saveFile w tr dir filename data).2
      (saved ++ (saveFile w tr dir filename data).1.toList) := by
  unfold saveFile
  simp only []
  split
  · split
    · rename_i h
      simpa using tracks_write_ok w tr saved dir _ data h
    · rename_i h
      simpa using tracks_write_failed w tr saved dir _ data h
  · simpa using tracks_mkdir w tr saved dir

theorem saveMetadata_tracks (w : World) (tr : List Event) (saved : List String)
    (dir filename : String) (doc : List (String × JVal)) :
    Tracks w tr saved (saveMetadata w tr dir filename doc).2
      (saved ++ (saveMetadata w tr dir filename doc).1.toList) := by
  unfold saveMetadata
  simp only []
  split
  · split
    · split
      · rename_i h
        simpa using tracks_write_ok w tr saved dir _ _ h
      · rename_i h
        simpa using tracks_write_failed w tr saved dir _ _ h
    · simpa using tracks_mkdir w tr saved dir
  · simpa using tracks_mkdir w tr saved dir

theorem genPart_tracks (w : World) (s : Server) (i : GeminiImageGenerationInput)
    (style timestamp : String) (k : Nat) (part : Part) (st : GenLoop) :
    Tracks w st.trace st.savedFiles (genPart w s i style timestamp k part st).trace
      (genPart w s i style timestamp k part st).savedFiles := by
  unfold genPart
  generalize (if i.outputDirectory = "" then s.config.outputDir else i.outputDirectory) =
    outputDir
  by_cases ht : part.text = ""
  all_goals
    simp only [ht, ne_eq, not_true_eq_false, not_false_eq_true, if_true, if_false]
    cases part.inlineData with
    | none => exact tracks_refl _ _ _
    | some blob =>
      simp only []
      by_cases hl : blob.data.length > 0
      · by_cases hd : outputDir = ""
        · simp only [hl, hd, if_true, not_true_eq_false, if_false]
          exact tracks_refl _ _ _
        · simp only [hl, hd, if_true, not_false_eq_true]
          have := saveFile_tracks w st.trace st.savedFiles outputDir
            ("gemini_generated_" ++ style ++ "_" ++ timestamp ++ "_" ++ toString k ++ ".png")
            blob.data
          cases hs : (saveFile w st.trace outputDir
            ("gemini_generated_" ++ style ++ "_" ++ timestamp ++ "_" ++ toString k ++ ".png")
            blob.data).1 with
          | none => simpa [hs] using this
          | some path => simpa [hs] using this
      · simp only [hl, if_false]
        exact tracks_refl _ _ _

theorem genParts_tracks (w : World) (s : Server) (i : GeminiImageGenerationInput)
    (style timestamp : String) (parts : List Part) :
    ∀ (k : Nat) (st : GenLoop),
      Tracks w st.trace st.savedFiles (genParts w s i style timestamp k parts st).trace
        (genParts w s i style timestamp k parts st).savedFiles := by
  induction parts with
  | nil => intro k st; exact tracks_refl _ _ _
  | cons part rest ih =>
    intro k st
    simp only [genParts]
    exact tracks_trans (genPart_tracks w s i style timestamp k part st) (ih _ _)

theorem genCandidates_tracks (w : World) (s : Server) (i : GeminiImageGenerationInput)
    (style timestamp : String) (cands : List Candidate) :
    ∀ st : GenLoop,
      Tracks w st.trace st.savedFiles (genCandidates w s i style timestamp cands st).trace
        (genCandidates w s i style timestamp cands st).savedFiles := by
  induction cands with
  | nil => intro st; exact tracks_refl _ _ _
  | cons c rest ih =>
    intro st
    simp only [genCandidates]
    cases c.content with
    | none => exact ih st
    | some content =>
      exact tracks_trans (genParts_tracks w s i style timestamp content.parts 0 st) (ih _)

theorem savePart_tracks (w : World) (s : Server) (outputDirectory stem timestamp : String)
    (k : Nat) (part : Part) (st : SaveLoop) :
    Tracks w st.trace st.savedFiles
      (savePart w s outputDirectory stem timestamp k part st).trace
      (savePart w s outputDirectory stem timestamp k part st).savedFiles := by
  unfold savePart
  generalize (if outputDirectory = "" then s.config.outputDir else outputDirectory) = outputDir
  cases part.inlineData with
  | none => exact tracks_refl _ _ _
  | some blob =>
    simp only []
    by_cases hl : blob.data.length > 0
    · by_cases hd : outputDir = ""
      · simp only [hl, hd, if_true, ne_eq, not_true_eq_false, if_false]
        exact tracks_refl _ _ _
      · simp only [hl, hd, if_true, ne_eq, not_false_eq_true]
        have := saveFile_tracks w st.trace st.savedFiles outputDir
          (stem ++ "_" ++ timestamp ++ "_" ++ toString k ++ ".png") blob.data
        cases hs : (saveFile w st.trace outputDir
          (stem ++ "_" ++ timestamp ++ "_" ++ toString k ++ ".png") blob.data).1 with
        | none => simpa [hs] using this
        | some path => simpa [hs] using this
    · simp only [hl, if_false]
      exact tracks_refl _ _ _

theorem saveParts_tracks (w : World) (s : Server) (outputDirectory stem timestamp : String)
    (parts : List Part) :
    ∀ (k : Nat) (st : SaveLoop),
      Tracks w st.trace st.savedFiles
        (saveParts w s outputDirectory stem timestamp k parts st).trace
        (saveParts w s outputDirectory stem timestamp k parts st).savedFiles := by
  induction parts with
  | nil => intro k st; exact tracks_refl _ _ _
  | cons part rest ih =>
    intro k st
    simp only [saveParts]
    exact tracks_trans (savePart_tracks w s outputDirectory stem timestamp k part st) (ih _ _)

theorem saveCandidates_tracks (w : World) (s : Server)
    (outputDirectory stem timestamp : String) (cands : List Candidate) :
    ∀ st : SaveLoop,
      Tracks w st.trace st.savedFiles
        (saveCandidates w s outputDirectory stem timestamp cands st).trace
        (saveCandidates w s outputDirectory stem timestamp cands st).savedFiles := by
  induction cands with
  | nil => intro st; exact tracks_refl _ _ _
  | cons c rest ih =>
    intro st
    simp only [saveCandidates]
    cases c.content with
    | none => exact ih st
    | some content =>
      exact tracks_trans
        (saveParts_tracks w s outputDirectory stem timestamp content.parts 0 st) (ih _)

theorem imagenStep_tracks (w : World) (i : ImagenGenerationInput) (timestamp : String)
    (k : Nat) (g : GeneratedImage) (st : List String × List Event) :
    Tracks w st.2 st.1 (imagenStep w i timestamp k g st).2
      (imagenStep w i timestamp k g st).1 := by
  unfold imagenStep
  cases g.image with
  | none => exact tracks_refl _ _ _
  | some image =>
    simp only []
    split
    · split
      · split
        · split
          · rename_i h
            exact tracks_write_ok w st.2 st.1 _ _ _ h
          · rename_i h
            exact tracks_write_failed w st.2 st.1 _ _ _ h
        · exact tracks_mkdir _ _ _ _
      · exact tracks_mkdir _ _ _ _
    · exact tracks_refl _ _ _

theorem imagenLoop_tracks (w : World) (i : ImagenGenerationInput) (timestamp : String)
    (imgs : List GeneratedImage) :
    ∀ (k : Nat) (st : List String × List Event),
      Tracks w st.2 st.1 (imagenLoop w i timestamp k imgs st).2
        (imagenLoop w i timestamp k imgs st).1 := by
  induction imgs with
  | nil => intro k st; exact tracks_refl _ _ _
  | cons g rest ih =>
    intro k st
    simp only [imagenLoop]
    exact tracks_trans (imagenStep_tracks w i timestamp k g st) (ih _ _)

/-- The optional metadata sidecar appends its path exactly when its write
succeeded. -/
theorem sidecar_tracks (w : World) (tr : List Event) (saved : List String)
    (dir filename : String) (doc : List (String × JVal)) (c : Prop) [Decidable c] :
    Tracks w tr saved (if c then saveMetadata w tr dir filename doc else (none, tr)).2
      (saved ++ (if c then saveMetadata w tr dir filename doc else (none, tr)).1.toList) := by
  split
  · exact saveMetadata_tracks _ _ _ _ _ _
  · simpa using tracks_refl w tr saved

/-- A run that starts with events `pre`, none of them a successful write, and
then tracks its writes from an empty list, ends with the list of the paths
whose write succeeded. -/
theorem tracks_from_start {w : World} {pre tr : List Event} {saved : List String}
    (h : Tracks w pre [] tr saved) (hpre : successfulWritesFrom w [] pre = []) :
    saved = successfulWrites w tr := by
  obtain ⟨added, rfl, rfl⟩ := h
  simp [successfulWrites, successfulWritesFrom_append, hpre]

theorem successfulWritesFrom_reads (w : World) (paths : List String) :
    ∀ pre : List Event, successfulWritesFrom w pre (paths.map Event.readFile) = [] := by
  induction paths with
  | nil => intro pre; rfl
  | cons p rest ih => intro pre; simp [successfulWritesFrom, successfulWriteOf, ih]

/-- C14.  Best-effort artifact writes.  In each of the four image handlers,
once the request is valid, its input images were read and the remote call
returned a non-empty response, the handler returns success whatever the
outcomes of the directory creations and file writes are, and saved_files is
exactly the list of the paths whose write succeeded, in write order. -/
theorem C14_best_effort_writes (w : World) (s : Server) (resp : GenerateContentResponse)
    (imgs : GenerateImagesResponse)
    (hcall : ∀ tr m c, w.generateContent tr m c = (some resp, none))
    (hne : resp.candidates ≠ [])
    (himg : ∀ tr m p cfg, w.generateImages tr m p cfg = (some imgs, none))
    (hine : imgs.generatedImages ≠ []) :
    (∀ i : GeminiImageGenerationInput, i.prompt ≠ "" →
      ∃ out, (handleGeminiImageGeneration w s i).1 = .ok out ∧
        out.savedFiles = successfulWrites w (handleGeminiImageGeneration w s i).2) ∧
    (∀ i : GeminiImageEditInput, i.inputImagePath ≠ "" → i.editPrompt ≠ "" →
      (∃ d, w.readFile [] i.inputImagePath = .ok d) →
      ∃ out, (handleGeminiImageEdit w s i).1 = .ok out ∧
        out.savedFiles = successfulWrites w (handleGeminiImageEdit w s i).2) ∧
    (∀ i : GeminiMultiImageInput,
      i.inputImagePaths.length = 2 ∨ i.inputImagePaths.length = 3 → i.combinePrompt ≠ "" →
      (∀ tr p, p ∈ i.inputImagePaths → ∃ d, w.readFile tr p = .ok d) →
      ∃ out, (handleGeminiMultiImage w s i).1 = .ok out ∧
        out.savedFiles = successfulWrites w (handleGeminiMultiImage w s i).2) ∧
    (∀ i : ImagenGenerationInput, i.prompt ≠ "" →
      ∃ out, (handleImagenGeneration w s i).1 = .ok out ∧
        out.savedFiles = successfulWrites w (handleImagenGeneration w s i).2) := by
  have hlen : ¬ resp.candidates.length = 0 := fun h0 => hne (List.length_eq_zero.mp h0)
  have hilen : ¬ imgs.generatedImages.length = 0 := fun h0 => hine (List.length_eq_zero.mp h0)
  refine ⟨?_, ?_, ?_, ?_⟩
  · intro i hp
    unfold handleGeminiImageGeneration
    simp only [hp, if_false, hcall, hlen]
    refine ⟨_, rfl, ?_⟩
    exact tracks_from_start
      (tracks_trans (genCandidates_tracks w s i _ _ _ _) (sidecar_tracks w _ _ _ _ _ _))
      (by simp [successfulWritesFrom, successfulWriteOf])
  · intro i hpath hp hread
    obtain ⟨d, hd⟩ := hread
    unfold handleGeminiImageEdit
    simp only [hpath, hp, if_false, hd, hcall, hlen]
    refine ⟨_, rfl, ?_⟩
    exact tracks_from_start (saveCandidates_tracks w s _ _ _ _ _)
      (by simp [successfulWritesFrom, successfulWriteOf])
  · intro i hlen2 hp hread
    have h2 : ¬ i.inputImagePaths.length < 2 := by omega
    have h3 : ¬ i.inputImagePaths.length > 3 := by omega
    obtain ⟨parts2, hrd⟩ := readImages_ok w i.inputImagePaths hread 0
      [newPartFromText (stringsJoin (multiPromptParts i (orDefault i.blendMode "merge")) ". ")]
      []
    unfold handleGeminiMultiImage
    simp only [h2, h3, hp, if_false, hrd, hcall, hlen]
    refine ⟨_, rfl, ?_⟩
    exact tracks_from_start (saveCandidates_tracks w s _ _ _ _ _)
      (by simp [successfulWritesFrom_append, successfulWritesFrom, successfulWriteOf,
        successfulWritesFrom_reads])
  · intro i hp
    unfold handleImagenGeneration
    simp only [hp, if_false, himg, hilen]
    refine ⟨_, rfl, ?_⟩
    exact tracks_from_start (imagenLoop_tracks w i _ _ 0 ([], _))
      (by simp [successfulWritesFrom, successfulWriteOf])

/-- C14 at a concrete world: on `flakyDiskWorld` the first of two image writes
fails; the image request still succeeds and saved_files is the list of the
successful writes. -/
theorem C14_best_effort_writes_witness :
    (promptOnly "a red fox in snow").prompt ≠ "" ∧
    ∃ out, (handleGeminiImageGeneration flakyDiskWorld defaultServer
        (promptOnly "a red fox in snow")).1 = .ok out ∧
      out.savedFiles = successfulWrites flakyDiskWorld
        (handleGeminiImageGeneration flakyDiskWorld defaultServer
          (promptOnly "a red fox in snow")).2 :=
  ⟨by decide,
    (C14_best_effort_writes flakyDiskWorld defaultServer
      { candidates := [imageCandidate [1, 1, 1], imageCandidate [2, 2, 2]] }
      { generatedImages := [{ image := some { imageBytes := [9, 9] } }] }
      (fun _ _ _ => rfl) (by decide) (fun _ _ _ _ => rfl) (by decide)).1
      (promptOnly "a red fox in snow") (by decide)⟩

/-! ## C12: the metadata sidecar -/

theorem codec_round_trip (doc : List (String × JVal)) (d : Bytes)
    (h : codecMarshal doc = some d) : codecUnmarshal d = some doc := by
  simp only [codecMarshal, Option.some.injEq] at h
  subst h
  simp [codecUnmarshal]

/-- When the directory can be created, the document can be serialised and the
file can be written, `saveMetadata` writes the serialised document as its last
action and returns the path. -/
theorem saveMetadata_written (w : World) (tr : List Event) (dir filename : String)
    (doc : List (String × JVal)) (d : Bytes)
    (hmk : w.mkdirAll tr dir = true) (hd : w.jsonMarshalIndent doc = some d)
    (hwr : w.writeFile (tr ++ [Event.mkdirAll dir]) (w.filepathJoin dir filename) d = true) :
    saveMetadata w tr dir filename doc =
      (some (w.filepathJoin dir filename),
        tr ++ [Event.mkdirAll dir] ++ [Event.writeFile (w.filepathJoin dir filename) d]) := by
  simp [saveMetadata, hmk, hd, hwr]

/-- A successful image generation with an output directory ends with the
metadata block, run on a document with the entries listed here. -/
theorem imageGeneration_sidecar_document (w : World) (s : Server)
    (i : GeminiImageGenerationInput) (out : GeminiImageGenerationOutput)
    (hok : (handleGeminiImageGeneration w s i).1 = .ok out) (hdir : i.outputDirectory ≠ "") :
    ∃ tr saved doc,
      (handleGeminiImageGeneration w s i).2 =
        (saveMetadata w tr i.outputDirectory
          ("gemini_metadata_" ++ out.generatedAt ++ ".json") doc).2 ∧
      out.savedFiles = saved ++
        (saveMetadata w tr i.outputDirectory
          ("gemini_metadata_" ++ out.generatedAt ++ ".json") doc).1.toList ∧
      docLookup doc "prompt" = some (.str i.prompt) ∧
      docLookup doc "model" = some (.str
        (if i.model = "" then "gemini-2.5-flash-image-preview" else i.model)) ∧
      docLookup doc "style" = some (.str
        (if i.style = "" then "photorealistic" else i.style)) ∧
      docLookup doc "aspect_ratio" = some (.str i.aspectRatio) ∧
      docLookup doc "quality" = some (.str (if i.quality = "" then "high" else i.quality)) ∧
      docLookup doc "language" = some (.str (if i.language = "" then "en" else i.language)) ∧
      docLookup doc "include_text" = some (.bool i.includeText) ∧
      docLookup doc "tags" = some (.strs i.tags) ∧
      (∃ enhanced, lookup out.metadata "enhanced_prompt" = some enhanced ∧
        docLookup doc "enhanced_prompt" = some (.str enhanced)) ∧
      docLookup doc "generated_at" = some (.str out.generatedAt) ∧
      docLookup doc "images_created" = some (.num out.imagesCreated) ∧
      docLookup doc "safety_level" = none := by
  unfold handleGeminiImageGeneration at hok ⊢
  simp only [] at hok ⊢
  repeat' split at hok
  all_goals first
    | (simp at hok; done)
    | skip
  all_goals
    rename_i hp _ h2 _ _ h1 hl _
    injection hok with hok
    subst hok
    simp only [hp, h2, h1, hl, hdir, if_false, if_true, ne_eq, not_false_eq_true]
    refine ⟨_, _, _, rfl, rfl, ?_⟩
    simp [docLookup, lookup, orDefault]

/-- A successful image generation with an output directory, on a disk where
the directory can be created and the metadata file can be written and with a
serialiser that does not fail, writes the metadata file as its last action;
the document it serialises has the entries of `SidecarEntries`. -/
theorem imageGeneration_sidecar_written (w : World) (s : Server)
    (i : GeminiImageGenerationInput) (out : GeminiImageGenerationOutput)
    (hok : (handleGeminiImageGeneration w s i).1 = .ok out) (hdir : i.outputDirectory ≠ "")
    (hmarshal : ∀ doc, ∃ d, w.jsonMarshalIndent doc = some d)
    (hmk : ∀ tr, w.mkdirAll tr i.outputDirectory = true)
    (hwr : ∀ tr ts d, w.writeFile tr
      (w.filepathJoin i.outputDirectory ("gemini_metadata_" ++ ts ++ ".json")) d = true) :
    ∃ d doc,
      (handleGeminiImageGeneration w s i).2.getLast? = some (Event.writeFile
        (w.filepathJoin i.outputDirectory ("gemini_metadata_" ++ out.generatedAt ++ ".json"))
        d) ∧
      out.savedFiles.getLast? = some
        (w.filepathJoin i.outputDirectory ("gemini_metadata_" ++ out.generatedAt ++ ".json")) ∧
      w.jsonMarshalIndent doc = some d ∧ SidecarEntries i out doc := by
  obtain ⟨tr, saved, doc, htrace, hsaved, hentries⟩ :=
    imageGeneration_sidecar_document w s i out hok hdir
  obtain ⟨d, hd⟩ := hmarshal doc
  have hsave := saveMetadata_written w tr i.outputDirectory
    ("gemini_metadata_" ++ out.generatedAt ++ ".json") doc d (hmk tr) hd (hwr _ _ _)
  refine ⟨d, doc, ?_, ?_, hd, hentries⟩
  · rw [htrace, hsave]
    simp
  · rw [hsaved, hsave]
    simp

/-- C12 (as amended).  For every successful `handleGeminiImageGeneration` call
that writes the metadata sidecar (an output directory is given, the directory
can be created, the document is serialised and the file is written), parsing
the written JSON reproduces prompt, aspect_ratio, include_text and tags as
supplied, reproduces model, style, quality and language with the value in
force (the supplied one, or the default when the field was left out), and
holds the derived enhanced prompt and generated-at timestamp.  The written JSON
has no safety_level entry.  `unmarshal` is the JSON parser; it is assumed to
give back the key-value mapping of every document that `json.MarshalIndent`
serialised. -/
theorem C12_metadata_sidecar_round_trip (w : World) (s : Server)
    (i : GeminiImageGenerationInput) (out : GeminiImageGenerationOutput)
    (unmarshal : Bytes → Option (List (String × JVal)))
    (hok : (handleGeminiImageGeneration w s i).1 = .ok out) (hdir : i.outputDirectory ≠ "")
    (hmarshal : ∀ doc, ∃ d, w.jsonMarshalIndent doc = some d)
    (hparse : ∀ doc d, w.jsonMarshalIndent doc = some d →
      ∃ doc2, unmarshal d = some doc2 ∧ ∀ k, docLookup doc2 k = docLookup doc k)
    (hmk : ∀ tr, w.mkdirAll tr i.outputDirectory = true)
    (hwr : ∀ tr ts d, w.writeFile tr
      (w.filepathJoin i.outputDirectory ("gemini_metadata_" ++ ts ++ ".json")) d = true) :
    ∃ d parsed,
      (handleGeminiImageGeneration w s i).2.getLast? = some (Event.writeFile
        (w.filepathJoin i.outputDirectory ("gemini_metadata_" ++ out.generatedAt ++ ".json"))
        d) ∧
      out.savedFiles.getLast? = some
        (w.filepathJoin i.outputDirectory ("gemini_metadata_" ++ out.generatedAt ++ ".json")) ∧
      unmarshal d = some parsed ∧ SidecarEntries i out parsed := by
  obtain ⟨d, doc, hlast, hsaved, hd, hentries⟩ :=
    imageGeneration_sidecar_written w s i out hok hdir hmarshal hmk hwr
  obtain ⟨parsed, hparsed, hsame⟩ := hparse doc d hd
  refine ⟨d, parsed, hlast, hsaved, hparsed, ?_⟩
  unfold SidecarEntries at hentries ⊢
  simp only [hsame]
  exact hentries

/-- C12 (as amended) at a concrete world: `codecWorld`, whose serialiser is
lossless, and a request that names an output directory. -/
theorem C12_metadata_sidecar_round_trip_witness :
    strictRequest.outputDirectory ≠ "" ∧
    ∃ out, (handleGeminiImageGeneration codecWorld defaultServer strictRequest).1 = .ok out ∧
      ∃ d parsed,
        (handleGeminiImageGeneration codecWorld defaultServer strictRequest).2.getLast? =
          some (Event.writeFile (codecWorld.filepathJoin strictRequest.outputDirectory
            ("gemini_metadata_" ++ out.generatedAt ++ ".json")) d) ∧
        out.savedFiles.getLast? = some (codecWorld.filepathJoin strictRequest.outputDirectory
          ("gemini_metadata_" ++ out.generatedAt ++ ".json")) ∧
        codecUnmarshal d = some parsed ∧ SidecarEntries strictRequest out parsed :=
  ⟨by decide, _, rfl,
    C12_metadata_sidecar_round_trip codecWorld defaultServer strictRequest _ codecUnmarshal
      rfl (by decide) (fun doc => ⟨_, rfl⟩)
      (fun doc d h => ⟨doc, codec_round_trip doc d h, fun _ => rfl⟩)
      (fun _ => rfl) (fun _ _ _ => rfl)⟩

/-- C12, counterexample to the claim as stated: the request `strictRequest`
supplies safety_level = `strict`; the call succeeds in `codecWorld` and writes
the metadata sidecar, and the parsed sidecar has no safety_level entry, so the
supplied value is not reproduced. -/
theorem C12_sidecar_drops_safety_level :
    strictRequest.safetyLevel = "strict" ∧
    ∃ out d parsed,
      (handleGeminiImageGeneration codecWorld defaultServer strictRequest).1 = .ok out ∧
      (handleGeminiImageGeneration codecWorld defaultServer strictRequest).2.getLast? =
        some (Event.writeFile (codecWorld.filepathJoin strictRequest.outputDirectory
          ("gemini_metadata_" ++ out.generatedAt ++ ".json")) d) ∧
      codecUnmarshal d = some parsed ∧
      docLookup parsed "safety_level" = none ∧
      docLookup parsed "safety_level" ≠ some (.str strictRequest.safetyLevel) := by
  have hrun : ∃ out,
      (handleGeminiImageGeneration codecWorld defaultServer strictRequest).1 = .ok out :=
    ⟨_, rfl⟩
  obtain ⟨out, hok⟩ := hrun
  obtain ⟨d, doc, hlast, -, hd, hentries⟩ :=
    imageGeneration_sidecar_written codecWorld defaultServer strictRequest out hok
      (by decide) (fun doc => ⟨_, rfl⟩) (fun _ => rfl) (fun _ _ _ => rfl)
  have hnone : docLookup doc "safety_level" = none := hentries.2.2.2.2.2.2.2.2.2.2.2
  refine ⟨rfl, out, d, doc, hok, hlast, codec_round_trip doc d hd, hnone, ?_⟩
  rw [hnone]
  exact fun h => Option.noConfusion h

/-! ## C21: the tool registry -/

/-- C21.  `registerTools` registers exactly seven tools; their names are the
seven fixed names, pairwise distinct, and each name is bound to its own
handler, no handler being registered twice. -/
theorem C21_seven_tools_registered :
    registerTools.length = 7 ∧
    registerTools.map (fun t => t.name) =
      ["gemini_image_generation", "gemini_image_edit", "gemini_multi_image", "imagen_t2i",
       "veo_text_to_video", "veo_image_to_video", "veo_generate_video"] ∧
    (registerTools.map (fun t => t.name)).Nodup ∧
    registerTools.map (fun t => t.handler) =
      [ToolHandler.handleGeminiImageGeneration, ToolHandler.handleGeminiImageEdit,
       ToolHandler.handleGeminiMultiImage, ToolHandler.handleImagenGeneration,
       ToolHandler.handleVeoTextToVideo, ToolHandler.handleVeoImageToVideo,
       ToolHandler.handleVeoGeneration] ∧
    (registerTools.map (fun t => t.handler)).Nodup := by
  refine ⟨rfl, rfl, by decide, rfl, by decide⟩

/-! ## C22: the prompt of image generation -/

theorem quiet_filter_generation {pre tr : List Event} (h : Quiet pre tr) :
    tr.filter Event.isGeneration = pre.filter Event.isGeneration := by
  obtain ⟨rest, rfl, hrest⟩ := h
  have : rest.filter Event.isGeneration = [] := by
    rw [List.filter_eq_nil_iff]
    intro e he
    simp [hrest e he]
  simp [List.filter_append, this]

theorem quiet_head {e : Event} {tr : List Event} (h : Quiet [e] tr) : tr.head? = some e := by
  obtain ⟨rest, rfl, -⟩ := h
  rfl

/-- The clause list the handler builds is the list the specification gives. -/
theorem genPromptParts_eq_spec (i : GeminiImageGenerationInput) :
    genPromptParts i (orDefault i.style "photorealistic") (orDefault i.quality "high") =
      specImagePromptClauses i := by
  have hs : orDefault i.style "photorealistic" ≠ "" := by
    unfold orDefault
    split
    · decide
    · assumption
  unfold genPromptParts specImagePromptClauses
  simp only [hs, ne_eq, not_false_eq_true, if_true]
  by_cases ha : i.aspectRatio = "" <;> by_cases ht : i.includeText = true <;>
    by_cases hq : orDefault i.quality "high" = "high" <;> simp [ha, ht, hq]

/-- C22.  Prompt assembly in `handleGeminiImageGeneration`.  For every valid
input the clause list of the handler is the list of the specification, in that
order; the clauses joined with `. ` are the text of the first and only
generation request the handler sends, and the value stored as metadata
enhanced_prompt of every successful output. -/
theorem C22_image_prompt_assembly (w : World) (s : Server) (i : GeminiImageGenerationInput)
    (hp : i.prompt ≠ "") :
    genPromptParts i (orDefault i.style "photorealistic") (orDefault i.quality "high") =
      specImagePromptClauses i ∧
    (handleGeminiImageGeneration w s i).2.head? =
      some (Event.generateContent (orDefault i.model "gemini-2.5-flash-image-preview")
        (genaiText (stringsJoin (specImagePromptClauses i) ". "))) ∧
    (handleGeminiImageGeneration w s i).2.filter Event.isGeneration =
      [Event.generateContent (orDefault i.model "gemini-2.5-flash-image-preview")
        (genaiText (stringsJoin (specImagePromptClauses i) ". "))] ∧
    (∀ out, (handleGeminiImageGeneration w s i).1 = .ok out →
      lookup out.metadata "enhanced_prompt" =
        some (stringsJoin (specImagePromptClauses i) ". ")) := by
  have htrace := imageGeneration_trace w s i hp
  rw [genPromptParts_eq_spec] at htrace
  refine ⟨genPromptParts_eq_spec i, quiet_head htrace, ?_, ?_⟩
  · rw [quiet_filter_generation htrace]
    simp [Event.isGeneration]
  · intro out hok
    rw [← genPromptParts_eq_spec]
    unfold handleGeminiImageGeneration at hok
    simp only [] at hok
    repeat' split at hok
    all_goals first
      | (simp at hok; done)
      | (injection hok with hok; subst hok; rfl)

/-- C22 at a concrete input: the prompt-only request in `pictureWorld`. -/
theorem C22_image_prompt_assembly_witness :
    (promptOnly "a red fox in snow").prompt ≠ "" ∧
    (handleGeminiImageGeneration pictureWorld defaultServer
        (promptOnly "a red fox in snow")).2.head? =
      some (Event.generateContent "gemini-2.5-flash-image-preview" (genaiText
        "Create a picture of a red fox in snow. Style: photorealistic. High quality, detailed rendering")) :=
  ⟨by decide,
    (C22_image_prompt_assembly pictureWorld defaultServer (promptOnly "a red fox in snow")
      (by decide)).2.1⟩

/-! ## C23: the clause order of the edit prompt -/

/-- The clause list the edit handler builds is the list in source order. -/
theorem editPromptParts_eq_source (i : GeminiImageEditInput) :
    editPromptParts i (orDefault i.editType "modify") = sourceEditPromptClauses i := by
  unfold editPromptParts sourceEditPromptClauses editTypeClause
  by_cases hs : i.preserveStyle = true <;> by_cases hm : i.maskArea = "" <;>
    by_cases h1 : orDefault i.editType "modify" = "add" <;>
    by_cases h2 : orDefault i.editType "modify" = "remove" <;>
    by_cases h3 : orDefault i.editType "modify" = "style" <;>
    simp [hs, hm, h1, h2, h3]

/-- After validation and a successful read of the input image, the trace of
`handleGeminiImageEdit` is the read and the one generation request, followed by
events that are no generation requests. -/
theorem imageEdit_trace (w : World) (s : Server) (i : GeminiImageEditInput)
    (hpath : i.inputImagePath ≠ "") (hp : i.editPrompt ≠ "") (d : Bytes)
    (hd : w.readFile [] i.inputImagePath = .ok d) :
    Quiet ([Event.readFile i.inputImagePath] ++
        [Event.generateContent (orDefault i.model "gemini-2.5-flash-image-preview")
          (editContents (stringsJoin (editPromptParts i (orDefault i.editType "modify")) ". ")
            d)])
      (handleGeminiImageEdit w s i).2 := by
  unfold handleGeminiImageEdit editContents
  simp only [hpath, hp, if_false, hd]
  split
  · exact quiet_refl _
  · split
    · exact quiet_refl _
    · split
      · exact quiet_refl _
      · exact quiet_snoc Event.now rfl
          (quiet_of_growsByFileOut (saveCandidates_grows _ _ _ _ _ _ _))

/-- C23 (as amended).  Clause order in `handleGeminiImageEdit`.  For every
valid input whose image can be read, the assembled edit prompt lists its
clauses in this order: the base instruction (edit prompt) first, then the
conditional preservation clause, then the conditional mask-area clause, then
the edit-type clause, joined with `. `; this text, together with the image, is
the one generation request the handler sends. -/
theorem C23_edit_prompt_clause_order (w : World) (s : Server) (i : GeminiImageEditInput)
    (hpath : i.inputImagePath ≠ "") (hp : i.editPrompt ≠ "") (d : Bytes)
    (hd : w.readFile [] i.inputImagePath = .ok d) :
    editPromptParts i (orDefault i.editType "modify") =
      [i.editPrompt] ++
      (if i.preserveStyle then ["Preserve the original image style and characteristics"]
        else []) ++
      (if i.maskArea ≠ "" then ["Focus changes on the " ++ i.maskArea ++ " area"] else []) ++
      [editTypeClause (orDefault i.editType "modify")] ∧
    (handleGeminiImageEdit w s i).2.filter Event.isGeneration =
      [Event.generateContent (orDefault i.model "gemini-2.5-flash-image-preview")
        (editContents (stringsJoin (sourceEditPromptClauses i) ". ") d)] := by
  have htrace := imageEdit_trace w s i hpath hp d hd
  rw [editPromptParts_eq_source] at htrace
  refine ⟨editPromptParts_eq_source i, ?_⟩
  rw [quiet_filter_generation htrace]
  simp [Event.isGeneration]

/-- C23 (as amended) at a concrete input: `maskedEdit` in `pictureWorld`. -/
theorem C23_edit_prompt_clause_order_witness :
    maskedEdit.inputImagePath ≠ "" ∧ maskedEdit.editPrompt ≠ "" ∧
    pictureWorld.readFile [] maskedEdit.inputImagePath = .ok [1, 2, 3] ∧
    (handleGeminiImageEdit pictureWorld defaultServer maskedEdit).2.filter Event.isGeneration =
      [Event.generateContent (orDefault maskedEdit.model "gemini-2.5-flash-image-preview")
        (editContents (stringsJoin (sourceEditPromptClauses maskedEdit) ". ") [1, 2, 3])] :=
  ⟨by decide, by decide, rfl,
    (C23_edit_prompt_clause_order pictureWorld defaultServer maskedEdit (by decide) (by decide)
      [1, 2, 3] rfl).2⟩

/-- C23, counterexample to the claim as stated: for `maskedEdit` the clauses
are not in the order base, edit-type, mask, preservation.  The handler sends
the preservation clause second and the edit-type clause last. -/
theorem C23_edit_type_clause_comes_last :
    editPromptParts maskedEdit (orDefault maskedEdit.editType "modify") =
      ["add a hat", "Preserve the original image style and characteristics",
       "Focus changes on the background area", "Add the requested elements to the image"] ∧
    specEditPromptClauses maskedEdit =
      ["add a hat", "Add the requested elements to the image",
       "Focus changes on the background area",
       "Preserve the original image style and characteristics"] ∧
    editPromptParts maskedEdit (orDefault maskedEdit.editType "modify") ≠
      specEditPromptClauses maskedEdit ∧
    (handleGeminiImageEdit pictureWorld defaultServer maskedEdit).2.filter Event.isGeneration =
      [Event.generateContent "gemini-2.5-flash-image-preview" (editContents
        "add a hat. Preserve the original image style and characteristics. Focus changes on the background area. Add the requested elements to the image"
        [1, 2, 3])] :=
  ⟨by decide, by decide, by decide, by decide⟩

/-! ## C24: what the video request depends on -/

theorem quiet_filter_videoRequest {pre tr : List Event} (h : Quiet pre tr) :
    tr.filter Event.isVideoRequest = pre.filter Event.isVideoRequest := by
  obtain ⟨rest, rfl, hrest⟩ := h
  have : rest.filter Event.isVideoRequest = [] := by
    rw [List.filter_eq_nil_iff]
    intro e he
    have := hrest e he
    cases e <;> simp_all [Event.isGeneration, Event.isVideoRequest]
  simp [List.filter_append, this]

/-- The video requests of a legacy run: none without a prompt, else exactly
one, built from the model, the prompt and the negative prompt. -/
theorem legacyVideo_requests (w : World) (s : Server) (i : VeoGenerationInput) :
    (handleVeoGeneration w s i).2.filter Event.isVideoRequest =
      if i.prompt = "" then []
      else [Event.generateVideos (orDefault i.model "veo-3.0-generate-001")
        (videoPromptText i.prompt i.negativePrompt) none none] := by
  by_cases hp : i.prompt = ""
  · simp [handleVeoGeneration, hp]
  · rw [quiet_filter_videoRequest (legacyVideo_trace w s i hp)]
    simp [hp, Event.isVideoRequest]

/-- The video requests of a text-to-video run. -/
theorem textToVideo_requests (w : World) (s : Server) (i : VeoTextToVideoInput) :
    (handleVeoTextToVideo w s i).2.filter Event.isVideoRequest =
      if i.prompt = "" then []
      else [Event.generateVideos (orDefault i.model "veo-3.0-generate-001")
        (videoPromptText i.prompt i.negativePrompt) none none] := by
  by_cases hp : i.prompt = ""
  · simp [handleVeoTextToVideo, hp]
  · rw [quiet_filter_videoRequest (textToVideo_trace w s i hp)]
    simp [hp, Event.isVideoRequest]

/-- The video requests of an image-to-video run: none when validation fails,
else exactly one; its image is the first image of the Imagen response. -/
theorem imageToVideo_requests (w : World) (s : Server) (i : VeoImageToVideoInput) :
    (handleVeoImageToVideo w s i).2.filter Event.isVideoRequest =
      if i.imagePath = "" ∨ i.prompt = "" ∨ w.statNotExist [] i.imagePath = true then []
      else [Event.generateVideos (orDefault i.model "veo-3.0-generate-001")
        (videoPromptText i.prompt i.negativePrompt)
        (firstGeneratedImage (w.generateImages ([Event.stat i.imagePath] ++ [Event.now])
          "imagen-4.0-generate-001" ("Transform this image: " ++ i.prompt) none).1) none] := by
  by_cases hpath : i.imagePath = ""
  · simp [handleVeoImageToVideo, hpath]
  · by_cases hp : i.prompt = ""
    · simp [handleVeoImageToVideo, hpath, hp]
    · by_cases hstat : w.statNotExist [] i.imagePath = true
      · simp [handleVeoImageToVideo, hpath, hp, hstat, Event.isVideoRequest]
      · rw [quiet_filter_videoRequest
          (imageToVideo_trace w s i hpath hp (by simpa using hstat))]
        simp [hpath, hp, hstat, Event.isVideoRequest]

/-- C24.  In each video handler the video-generation request does not depend
on aspect_ratio, resolution or seed: two inputs that agree on prompt,
negative_prompt and model (and on image_path, for image-to-video) send the
same video requests to the same backend.  For a valid input this is one
request, made of the model in force, the prompt text (the prompt, followed by
`. Avoid: ` and the negative prompt when there is one), the image (none for
the legacy and the text-to-video tool, the first Imagen image for
image-to-video) and a nil config. -/
theorem C24_video_request_independence (w : World) (s : Server) :
    (∀ i1 i2 : VeoGenerationInput, i1.prompt = i2.prompt →
      i1.negativePrompt = i2.negativePrompt → i1.model = i2.model →
      (handleVeoGeneration w s i1).2.filter Event.isVideoRequest =
        (handleVeoGeneration w s i2).2.filter Event.isVideoRequest ∧
      (i1.prompt ≠ "" → (handleVeoGeneration w s i1).2.filter Event.isVideoRequest =
        [Event.generateVideos (if i1.model = "" then "veo-3.0-generate-001" else i1.model)
          (if i1.negativePrompt ≠ "" then i1.prompt ++ ". Avoid: " ++ i1.negativePrompt
            else i1.prompt) none none])) ∧
    (∀ i1 i2 : VeoTextToVideoInput, i1.prompt = i2.prompt →
      i1.negativePrompt = i2.negativePrompt → i1.model = i2.model →
      (handleVeoTextToVideo w s i1).2.filter Event.isVideoRequest =
        (handleVeoTextToVideo w s i2).2.filter Event.isVideoRequest ∧
      (i1.prompt ≠ "" → (handleVeoTextToVideo w s i1).2.filter Event.isVideoRequest =
        [Event.generateVideos (if i1.model = "" then "veo-3.0-generate-001" else i1.model)
          (if i1.negativePrompt ≠ "" then i1.prompt ++ ". Avoid: " ++ i1.negativePrompt
            else i1.prompt) none none])) ∧
    (∀ i1 i2 : VeoImageToVideoInput, i1.prompt = i2.prompt →
      i1.negativePrompt = i2.negativePrompt → i1.model = i2.model →
      i1.imagePath = i2.imagePath →
      (handleVeoImageToVideo w s i1).2.filter Event.isVideoRequest =
        (handleVeoImageToVideo w s i2).2.filter Event.isVideoRequest ∧
      (i1.imagePath ≠ "" → i1.prompt ≠ "" → w.statNotExist [] i1.imagePath = false →
        (handleVeoImageToVideo w s i1).2.filter Event.isVideoRequest =
          [Event.generateVideos (if i1.model = "" then "veo-3.0-generate-001" else i1.model)
            (if i1.negativePrompt ≠ "" then i1.prompt ++ ". Avoid: " ++ i1.negativePrompt
              else i1.prompt)
            (firstGeneratedImage (w.generateImages ([Event.stat i1.imagePath] ++ [Event.now])
              "imagen-4.0-generate-001" ("Transform this image: " ++ i1.prompt) none).1)
            none])) := by
  refine ⟨?_, ?_, ?_⟩
  · intro i1 i2 h1 h2 h3
    constructor
    · rw [legacyVideo_requests, legacyVideo_requests, h1, h2, h3]
    · intro hp
      rw [legacyVideo_requests]
      simp [hp, orDefault, videoPromptText]
  · intro i1 i2 h1 h2 h3
    constructor
    · rw [textToVideo_requests, textToVideo_requests, h1, h2, h3]
    · intro hp
      rw [textToVideo_requests]
      simp [hp, orDefault, videoPromptText]
  · intro i1 i2 h1 h2 h3 h4
    constructor
    · rw [imageToVideo_requests, imageToVideo_requests, h1, h2, h3, h4]
    · intro hpath hp hstat
      rw [imageToVideo_requests]
      simp [hpath, hp, hstat, orDefault, videoPromptText]

/-- C24 at concrete inputs: `wideVideo` and `tallVideo` differ in aspect
ratio, resolution and seed; in `stuckWorld` they send the same video request,
while their outputs echo the differing aspect ratio and resolution. -/
theorem C24_video_request_independence_witness :
    (wideVideo.prompt = tallVideo.prompt ∧ wideVideo.negativePrompt = tallVideo.negativePrompt ∧
      wideVideo.model = tallVideo.model) ∧
    (handleVeoTextToVideo stuckWorld defaultServer wideVideo).2.filter Event.isVideoRequest =
      (handleVeoTextToVideo stuckWorld defaultServer tallVideo).2.filter Event.isVideoRequest ∧
    (∃ out1 out2,
      (handleVeoTextToVideo stuckWorld defaultServer wideVideo).1 = .ok out1 ∧
      (handleVeoTextToVideo stuckWorld defaultServer tallVideo).1 = .ok out2 ∧
      out1.aspectRatio = "16:9" ∧ out2.aspectRatio = "9:16" ∧
      out1.resolution = "1080p" ∧ out2.resolution = "720p") :=
  ⟨⟨rfl, rfl, rfl⟩,
    ((C24_video_request_independence stuckWorld defaultServer).2.1 wideVideo tallVideo
      rfl rfl rfl).1,
    ⟨_, _, rfl, rfl, rfl, rfl, rfl, rfl⟩⟩

/-! ## C25: status, video file and saved files of a video output -/

/-- What the block after the poll loop can produce. -/
theorem videoOutcome_invariant (w : World) (tr : List Event) (op : GenerateVideosOperation)
    (dir filename : String) (outcome : VideoOutcome)
    (h : (videoOutcome w tr op dir filename).1 = some outcome) :
    outcome.status ∈ ["completed", "failed", "timeout", "generating"] ∧
    ((outcome.savedFiles = [] ∧ outcome.videoURL = "") ∨
      (outcome.status = "completed" ∧ dir ≠ "" ∧ outcome.savedFiles = [outcome.videoURL])) := by
  unfold videoOutcome at h
  simp only [] at h
  repeat' split at h
  all_goals first
    | (simp at h; done)
    | (simp only [Option.some.injEq] at h
       subst h
       first
         | exact ⟨by simp, Or.inl ⟨rfl, rfl⟩⟩
         | exact ⟨by simp, Or.inr ⟨rfl, by assumption, rfl⟩⟩)

theorem toList_length_le_one (o : Option String) : o.toList.length ≤ 1 := by
  cases o <;> simp

/-- The sidecar block yields a path only when it runs. -/
theorem sidecar_none_of_not (w : World) (tr : List Event) (dir filename : String)
    (doc : List (String × JVal)) (c : Prop) [Decidable c] (hc : ¬ c) :
    (if c then saveMetadata w tr dir filename doc else (none, tr)).1.toList = [] := by
  simp [hc]

/-- The invariant, from the invariant of the block after the poll loop. -/
theorem videoOutput_invariant_of (dir : String) (outcome : VideoOutcome)
    (side : Option String) (out : VeoGenerationOutput)
    (hstatus : out.status = outcome.status) (hurl : out.videoURL = outcome.videoURL)
    (hsaved : out.savedFiles = outcome.savedFiles ++ side.toList)
    (hside : side.toList ≠ [] → dir ≠ "")
    (hinv : outcome.status ∈ ["completed", "failed", "timeout", "generating"] ∧
      ((outcome.savedFiles = [] ∧ outcome.videoURL = "") ∨
        (outcome.status = "completed" ∧ dir ≠ "" ∧
          outcome.savedFiles = [outcome.videoURL]))) :
    VideoOutputInvariant dir out := by
  unfold VideoOutputInvariant
  rw [hstatus, hurl, hsaved]
  obtain ⟨h1, h2⟩ := hinv
  have hlen := toList_length_le_one side
  refine ⟨h1, ?_, ⟨outcome.savedFiles, side.toList, rfl, ?_, hlen, ?_, hside⟩, ?_⟩
  · intro hne
    rcases h2 with ⟨-, h⟩ | ⟨h, hd, -⟩
    · exact absurd h hne
    · exact ⟨h, hd⟩
  · rcases h2 with ⟨h, -⟩ | ⟨-, -, h⟩ <;> simp [h]
  · intro hne
    rcases h2 with ⟨h, -⟩ | ⟨h, hd, hs⟩
    · exact absurd h hne
    · exact ⟨h, hd, hs⟩
  · rcases h2 with ⟨h, -⟩ | ⟨-, -, h⟩ <;> simp [h] <;> omega

/-- C25.  In every video handler, every returned output has a status among
`completed`, `failed`, `timeout` and `generating`; its video_url is non-empty
only if the status is `completed` and output_directory is non-empty; its
saved_files is at most one video file followed by at most one metadata
sidecar, hence has at most two entries, and a video file is among them only if
the status is `completed` and output_directory is non-empty. -/
theorem C25_video_output_invariant (w : World) (s : Server) :
    (∀ (i : VeoGenerationInput) (out : VeoGenerationOutput),
      (handleVeoGeneration w s i).1 = .ok out → VideoOutputInvariant i.outputDirectory out) ∧
    (∀ (i : VeoTextToVideoInput) (out : VeoGenerationOutput),
      (handleVeoTextToVideo w s i).1 = .ok out → VideoOutputInvariant i.outputDirectory out) ∧
    (∀ (i : VeoImageToVideoInput) (out : VeoGenerationOutput),
      (handleVeoImageToVideo w s i).1 = .ok out →
      VideoOutputInvariant i.outputDirectory out) := by
  refine ⟨?_, ?_, ?_⟩
  · intro i out h
    unfold handleVeoGeneration at h
    simp only [] at h
    repeat' split at h
    all_goals first
      | (simp at h; done)
      | (injection h with h
         subst h
         refine videoOutput_invariant_of _ _ _ _ rfl rfl rfl ?_
           (videoOutcome_invariant _ _ _ _ _ _ (by assumption))
         first
           | (intro _; assumption)
           | (intro hne; exact absurd rfl hne))
  · intro i out h
    unfold handleVeoTextToVideo at h
    simp only [] at h
    repeat' split at h
    all_goals first
      | (simp at h; done)
      | (injection h with h
         subst h
         refine videoOutput_invariant_of _ _ _ _ rfl rfl rfl ?_
           (videoOutcome_invariant _ _ _ _ _ _ (by assumption))
         first
           | (intro _; assumption)
           | (intro hne; exact absurd rfl hne))
  · intro i out h
    unfold handleVeoImageToVideo at h
    simp only [] at h
    repeat' split at h
    all_goals first
      | (simp at h; done)
      | (injection h with h
         subst h
         refine videoOutput_invariant_of _ _ _ _ rfl rfl rfl ?_
           (videoOutcome_invariant _ _ _ _ _ _ (by assumption))
         first
           | (intro _; assumption)
           | (intro hne; exact absurd rfl hne))

/-- C25 at a concrete world: in `doneWorld` the request `savedVideo` ends with
status `completed`, the video file and the metadata sidecar. -/
theorem C25_video_output_invariant_witness :
    ∃ out, (handleVeoTextToVideo doneWorld defaultServer savedVideo).1 = .ok out ∧
      out.status = "completed" ∧ out.savedFiles.length = 2 ∧
      VideoOutputInvariant savedVideo.outputDirectory out :=
  ⟨_, rfl, rfl, rfl,
    (C25_video_output_invariant doneWorld defaultServer).2.1 savedVideo _ rfl⟩

/-! ## C26: the image count of image generation -/

theorem countsImages_refl (w : World) (style timestamp : String) (st : GenLoop) :
    CountsImages w style timestamp 0 st st :=
  ⟨rfl, [], by simp, by simp, by simp⟩

theorem countsImages_trans {w : World} {style timestamp : String} {n m : Nat}
    {a b c : GenLoop} (h1 : CountsImages w style timestamp n a b)
    (h2 : CountsImages w style timestamp m b c) :
    CountsImages w style timestamp (n + m) a c := by
  obtain ⟨hn, e1, hs1, hl1, hp1⟩ := h1
  obtain ⟨hm, e2, hs2, hl2, hp2⟩ := h2
  refine ⟨by omega, e1 ++ e2, by rw [hs2, hs1, List.append_assoc], by simp; omega, ?_⟩
  intro p hp
  rcases List.mem_append.mp hp with h | h
  · exact hp1 p h
  · exact hp2 p h

theorem saveFile_path (w : World) (tr : List Event) (dir filename : String) (data : Bytes)
    (p : String) (h : (saveFile w tr dir filename data).1 = some p) :
    p = w.filepathJoin dir filename := by
  unfold saveFile at h
  simp only [] at h
  repeat' split at h
  all_goals first
    | (simp at h; done)
    | (simp only [Option.some.injEq] at h; exact h.symm)

theorem genPart_counts (w : World) (s : Server) (i : GeminiImageGenerationInput)
    (style timestamp : String) (k : Nat) (part : Part) (st : GenLoop) :
    CountsImages w style timestamp (if part.hasImage then 1 else 0) st
      (genPart w s i style timestamp k part st) := by
  unfold genPart Part.hasImage
  generalize (if i.outputDirectory = "" then s.config.outputDir else i.outputDirectory) =
    outputDir
  by_cases ht : part.text = ""
  all_goals
    simp only [ht, ne_eq, not_true_eq_false, not_false_eq_true, if_true, if_false]
    cases part.inlineData with
    | none => exact ⟨rfl, [], by simp, by simp, by simp⟩
    | some blob =>
      simp only []
      by_cases hl : blob.data.length > 0
      · by_cases hd : outputDir = ""
        · simp only [hl, hd, if_true, not_true_eq_false, if_false, decide_True]
          exact ⟨rfl, [], by simp, by simp, by simp⟩
        · simp only [hl, hd, if_true, not_false_eq_true, decide_True]
          cases hs : (saveFile w st.trace outputDir
            ("gemini_generated_" ++ style ++ "_" ++ timestamp ++ "_" ++ toString k ++ ".png")
            blob.data).1 with
          | none => exact ⟨rfl, [], by simp, by simp, by simp⟩
          | some path =>
            refine ⟨rfl, [path], rfl, by simp, ?_⟩
            intro p hp
            rw [List.mem_singleton] at hp
            rw [hp, saveFile_path w _ _ _ _ path hs]
            exact ⟨outputDir, k, rfl⟩
      · simp only [hl, if_false, decide_False]
        exact ⟨rfl, [], by simp, by simp, by simp⟩

theorem genParts_counts (w : World) (s : Server) (i : GeminiImageGenerationInput)
    (style timestamp : String) (parts : List Part) :
    ∀ (k : Nat) (st : GenLoop),
      CountsImages w style timestamp (parts.countP Part.hasImage) st
        (genParts w s i style timestamp k parts st) := by
  induction parts with
  | nil => intro k st; exact countsImages_refl _ _ _ _
  | cons part rest ih =>
    intro k st
    have h := countsImages_trans (genPart_counts w s i style timestamp k part st)
      (ih (k + 1) (genPart w s i style timestamp k part st))
    have hcount : (part :: rest).countP Part.hasImage =
        (if part.hasImage then 1 else 0) + rest.countP Part.hasImage := by
      rw [List.countP_cons]
      omega
    rw [hcount]
    exact h

theorem genCandidates_counts (w : World) (s : Server) (i : GeminiImageGenerationInput)
    (style timestamp : String) (cands : List Candidate) :
    ∀ st : GenLoop,
      CountsImages w style timestamp (candidateFragments cands) st
        (genCandidates w s i style timestamp cands st) := by
  induction cands with
  | nil => intro st; exact countsImages_refl _ _ _ _
  | cons c rest ih =>
    intro st
    simp only [genCandidates, candidateFragments]
    cases c.content with
    | none =>
      simp only [Nat.zero_add]
      exact ih st
    | some content =>
      exact countsImages_trans (genParts_counts w s i style timestamp content.parts 0 st) (ih _)

theorem saveMetadata_path (w : World) (tr : List Event) (dir filename : String)
    (doc : List (String × JVal)) (p : String)
    (h : (saveMetadata w tr dir filename doc).1 = some p) :
    p = w.filepathJoin dir filename := by
  unfold saveMetadata at h
  simp only [] at h
  repeat' split at h
  all_goals first
    | (simp at h; done)
    | (simp only [Option.some.injEq] at h; exact h.symm)

/-- The optional sidecar block yields at most the sidecar path. -/
theorem sidecar_paths (w : World) (tr : List Event) (dir filename : String)
    (doc : List (String × JVal)) (c : Prop) [Decidable c] :
    ∀ p ∈ (if c then saveMetadata w tr dir filename doc else (none, tr)).1.toList,
      p = w.filepathJoin dir filename := by
  intro p hp
  split at hp
  · cases hs : (saveMetadata w tr dir filename doc).1 with
    | none => simp [hs] at hp
    | some q =>
      simp only [hs, Option.toList_some, List.mem_singleton] at hp
      rw [hp]
      exact saveMetadata_path w tr dir filename doc q hs
  · simp at hp

theorem length_append_toList_le (xs : List String) (o : Option String) (n : Nat)
    (h : xs.length ≤ n) : (xs ++ o.toList).length ≤ n + 1 := by
  have := toList_length_le_one o
  simp only [List.length_append]
  omega

/-- C26.  In `handleGeminiImageGeneration`, for every returned output and
whatever the file operations do, images_created is the number of content
fragments with non-empty inline binary data over the candidates with non-nil
content of the response.  saved_files is a list of generated-image (`.png`)
paths, at most images_created of them, followed by at most the one metadata
sidecar path, so it has at most images_created + 1 entries. -/
theorem C26_images_created_counts_fragments (w : World) (s : Server)
    (i : GeminiImageGenerationInput) (out : GeminiImageGenerationOutput)
    (resp : GenerateContentResponse)
    (hok : (handleGeminiImageGeneration w s i).1 = .ok out)
    (hresp : (w.generateContent [] (orDefault i.model "gemini-2.5-flash-image-preview")
      (genaiText (stringsJoin (genPromptParts i (orDefault i.style "photorealistic")
        (orDefault i.quality "high")) ". "))).1 = some resp) :
    out.imagesCreated = imageFragments resp ∧
    (∃ images sidecar, out.savedFiles = images ++ sidecar ∧
      images.length ≤ out.imagesCreated ∧ sidecar.length ≤ 1 ∧
      (∀ p ∈ images, IsGeneratedImagePath w out.style out.generatedAt p) ∧
      (∀ p ∈ sidecar, p = w.filepathJoin i.outputDirectory
        ("gemini_metadata_" ++ out.generatedAt ++ ".json"))) ∧
    out.savedFiles.length ≤ out.imagesCreated + 1 := by
  unfold handleGeminiImageGeneration at hok
  simp only [hresp] at hok
  split at hok
  · simp at hok
  · split at hok
    · simp at hok
    · split at hok
      · simp at hok
      · injection hok with hok
        subst hok
        obtain ⟨hcount, extra, hsaved, hlen, hpaths⟩ := genCandidates_counts w s i
          (orDefault i.style "photorealistic")
          (w.now [Event.generateContent (orDefault i.model "gemini-2.5-flash-image-preview")
            (genaiText (stringsJoin (genPromptParts i (orDefault i.style "photorealistic")
              (orDefault i.quality "high")) ". "))])
          resp.candidates
          { resultText := "", savedFiles := [], imagesCreated := 0,
            trace := [Event.generateContent
              (orDefault i.model "gemini-2.5-flash-image-preview")
              (genaiText (stringsJoin (genPromptParts i (orDefault i.style "photorealistic")
                (orDefault i.quality "high")) ". "))] ++ [Event.now] }
        simp only [Nat.zero_add, List.nil_append] at hcount hsaved
        simp only []
        refine ⟨hcount, ⟨extra, _, by rw [hsaved], by rw [hcount]; exact hlen,
          toList_length_le_one _, hpaths, sidecar_paths _ _ _ _ _ _⟩, ?_⟩
        exact length_append_toList_le _ _ _ (by rw [hsaved, hcount]; exact hlen)

/-- C26 at a concrete world: on `flakyDiskWorld` two image fragments are
counted although only one of them can be written. -/
theorem C26_images_created_counts_fragments_witness :
    ∃ out, (handleGeminiImageGeneration flakyDiskWorld defaultServer
        (promptOnly "a red fox in snow")).1 = .ok out ∧
      out.imagesCreated = 2 ∧ out.savedFiles.length = 1 ∧
      out.imagesCreated = imageFragments
        { candidates := [imageCandidate [1, 1, 1], imageCandidate [2, 2, 2]] } ∧
      out.savedFiles.length ≤ out.imagesCreated + 1 :=
  ⟨_, rfl, rfl, rfl,
    (C26_images_created_counts_fragments flakyDiskWorld defaultServer
      (promptOnly "a red fox in snow") _
      { candidates := [imageCandidate [1, 1, 1], imageCandidate [2, 2, 2]] } rfl rfl).1,
    (C26_images_created_counts_fragments flakyDiskWorld defaultServer
      (promptOnly "a red fox in snow") _
      { candidates := [imageCandidate [1, 1, 1], imageCandidate [2, 2, 2]] } rfl rfl).2.2⟩

/-! ## C27: the legacy video tool and the text-to-video tool -/

theorem growsByFileOut_filter_remote {a b : List Event} (h : GrowsByFileOut a b) :
    b.filter Event.isRemote = a.filter Event.isRemote := by
  obtain ⟨rest, rfl, hrest⟩ := h
  have : rest.filter Event.isRemote = [] := by
    rw [List.filter_eq_nil_iff]
    intro e he
    have := hrest e he
    cases e <;> simp_all [Event.isFileOut, Event.isRemote]
  simp [List.filter_append, this]

/-- The optional sidecar block adds no remote call. -/
theorem sidecar_filter_remote (w : World) (tr : List Event) (dir filename : String)
    (doc : List (String × JVal)) (c : Prop) [Decidable c] :
    (if c then saveMetadata w tr dir filename doc else (none, tr)).2.filter Event.isRemote =
      tr.filter Event.isRemote := by
  split
  · exact growsByFileOut_filter_remote (saveMetadata_grows _ _ _ _ _)
  · rfl

/-- The block after the poll loop, run for two file names on the same
operation and history: both runs crash or neither does, they arrive at the
same status, and they make the same remote calls. -/
theorem videoOutcome_agree (w : World) (tr : List Event) (op : GenerateVideosOperation)
    (dir f1 f2 : String) :
    ((videoOutcome w tr op dir f1).1 = none ↔ (videoOutcome w tr op dir f2).1 = none) ∧
    (∀ o1 o2, (videoOutcome w tr op dir f1).1 = some o1 →
      (videoOutcome w tr op dir f2).1 = some o2 → o1.status = o2.status) ∧
    (videoOutcome w tr op dir f1).2.filter Event.isRemote =
      (videoOutcome w tr op dir f2).2.filter Event.isRemote := by
  unfold videoOutcome
  by_cases hd : op.done = true
  · by_cases he : op.error.isSome = true
    · simp [hd, he]
    · cases hr : op.response with
      | none => simp [hd, he, hr]
      | some response =>
        cases hv : response.generatedVideos with
        | nil => simp [hd, he, hr, hv]
        | cons video rest =>
          by_cases hdir : dir = ""
          · simp [hd, he, hr, hv, hdir]
          · by_cases hmk : w.mkdirAll tr dir = true
            · cases hvv : video.video with
              | none => simp [hd, he, hr, hv, hdir, hmk, hvv]
              | some v =>
                simp only [hd, he, hr, hv, hdir, hmk, hvv, if_true, if_false, ne_eq,
                  not_false_eq_true, Bool.false_eq_true]
                split <;> split <;>
                  simp [List.filter_append, Event.isRemote]
            · simp [hd, he, hr, hv, hdir, hmk]
  · simp [hd]


/-- On a working file system the block after the poll loop saves the video
exactly when the job completed and a directory was given. -/
theorem videoOutcome_working (w : World) (hfs : WorkingFileSystem w) (tr : List Event)
    (op : GenerateVideosOperation) (dir filename : String) (outcome : VideoOutcome)
    (h : (videoOutcome w tr op dir filename).1 = some outcome) :
    outcome.savedFiles =
      (if outcome.status = "completed" ∧ dir ≠ "" then [w.filepathJoin dir filename] else []) ∧
    outcome.videoURL =
      (if outcome.status = "completed" ∧ dir ≠ "" then w.filepathJoin dir filename else "") := by
  obtain ⟨hmk, hwr, _⟩ := hfs
  unfold videoOutcome at h
  simp only [hmk, hwr, if_true] at h
  repeat' split at h
  all_goals first
    | (simp at h; done)
    | (simp only [Option.some.injEq] at h
       subst h
       simp_all)

/-- On a working file system the sidecar block yields its path. -/
theorem saveMetadata_working (w : World) (hfs : WorkingFileSystem w) (tr : List Event)
    (dir filename : String) (doc : List (String × JVal)) :
    (saveMetadata w tr dir filename doc).1 = some (w.filepathJoin dir filename) := by
  obtain ⟨hmk, hwr, hjs⟩ := hfs
  unfold saveMetadata
  have := hjs doc
  cases hdoc : w.jsonMarshalIndent doc with
  | none => simp [hdoc] at this
  | some data => simp [hmk, hwr]

theorem sidecar_working (w : World) (hfs : WorkingFileSystem w) (tr : List Event)
    (dir filename : String) (doc : List (String × JVal)) :
    (if dir ≠ "" then saveMetadata w tr dir filename doc else (none, tr)).1.toList =
      (if dir ≠ "" then [w.filepathJoin dir filename] else []) := by
  by_cases hdir : dir = ""
  · simp [hdir]
  · simp [hdir, saveMetadata_working w hfs]


/-- A filter that selects remote calls only sees the remote calls of a trace. -/
theorem filter_of_filter_remote (p : Event → Bool) (hp : ∀ e, p e = true → e.isRemote = true)
    {a b : List Event} (h : a.filter Event.isRemote = b.filter Event.isRemote) :
    a.filter p = b.filter p := by
  have key : ∀ l : List Event, l.filter p = (l.filter Event.isRemote).filter p := by
    intro l
    rw [List.filter_filter]
    apply List.filter_congr
    intro e _
    cases hpe : p e
    · simp
    · simp [hp e hpe]
  rw [key a, key b, h]

/-- The two text-to-video handlers on inputs with the same common fields: the
same remote calls, and corresponding results. -/
theorem videoRuns_agree (w : World) (s : Server) (i1 : VeoGenerationInput)
    (i2 : VeoTextToVideoInput)
    (hprompt : i1.prompt = i2.prompt) (hnegative : i1.negativePrompt = i2.negativePrompt)
    (hmodel : i1.model = i2.model) (haspect : i1.aspectRatio = i2.aspectRatio)
    (hresolution : i1.resolution = i2.resolution)
    (hdir : i1.outputDirectory = i2.outputDirectory) :
    (handleVeoGeneration w s i1).2.filter Event.isRemote =
      (handleVeoTextToVideo w s i2).2.filter Event.isRemote ∧
    VideoResultsAgree i2.seed (handleVeoGeneration w s i1).1 (handleVeoTextToVideo w s i2).1 := by
  obtain ⟨p, np, ar, res, m, ip, sd1, od⟩ := i1
  obtain ⟨p2, np2, ar2, res2, m2, sd2, od2⟩ := i2
  simp only at hprompt hnegative hmodel haspect hresolution hdir
  subst hprompt hnegative hmodel haspect hresolution hdir
  unfold handleVeoGeneration handleVeoTextToVideo
  simp only []
  by_cases hp : p = ""
  · simp [hp, VideoResultsAgree]
  · simp only [hp, if_false]
    rcases hsub : w.generateVideos [Event.now] (orDefault m "veo-3.0-generate-001")
      (videoPromptText p np) none none with ⟨s1, s2⟩
    cases s2 with
    | some err => exact ⟨rfl, Or.inr ⟨err, rfl, rfl⟩⟩
    | none =>
      cases s1 with
      | none => exact ⟨rfl, trivial⟩
      | some submitted =>
        simp only []
        rcases hpoll : pollLoop w 60 (some submitted) ([Event.now] ++
          [Event.generateVideos (orDefault m "veo-3.0-generate-001")
            (videoPromptText p np) none none]) with ⟨po, ptr⟩
        cases po with
        | none => exact ⟨rfl, trivial⟩
        | some operation =>
          simp only []
          have hag := videoOutcome_agree w ptr operation od
            ("veo_video_" ++ w.now [] ++ ".mp4") ("veo_text_to_video_" ++ w.now [] ++ ".mp4")
          rcases hv1 : videoOutcome w ptr operation od ("veo_video_" ++ w.now [] ++ ".mp4")
            with ⟨vo1, vtr1⟩
          rcases hv2 : videoOutcome w ptr operation od
            ("veo_text_to_video_" ++ w.now [] ++ ".mp4") with ⟨vo2, vtr2⟩
          rw [hv1, hv2] at hag
          simp only [] at hag
          obtain ⟨hnone, hstatus, htrace⟩ := hag
          cases vo1 with
          | none =>
            cases vo2 with
            | none => exact ⟨htrace, trivial⟩
            | some o2 => simp at hnone
          | some o1 =>
            cases vo2 with
            | none => simp at hnone
            | some o2 =>
              simp only []
              refine ⟨?_, hstatus o1 o2 rfl rfl, rfl, rfl, rfl, rfl, rfl, rfl, ?_⟩
              · rw [sidecar_filter_remote, sidecar_filter_remote]
                exact htrace
              · by_cases hs : sd2 > 0 <;> simp [hs]


/-- On a working file system the legacy video tool reports the video under
`veo_video_` and the sidecar under `veo_metadata_`. -/
theorem legacyVideo_reports_files (w : World) (hfs : WorkingFileSystem w) (s : Server)
    (i : VeoGenerationInput) (o : VeoGenerationOutput)
    (h : (handleVeoGeneration w s i).1 = .ok o) :
    ReportsVideoFiles w i.outputDirectory ("veo_video_" ++ o.generatedAt ++ ".mp4")
      ("veo_metadata_" ++ o.generatedAt ++ ".json") o := by
  unfold handleVeoGeneration at h
  simp only [] at h
  split at h
  · simp at h
  split at h
  · simp at h
  split at h
  · simp at h
  split at h
  · simp at h
  split at h
  · simp at h
  rename_i outcome hvo
  injection h with h
  subst h
  obtain ⟨hsaved, hurl⟩ := videoOutcome_working w hfs _ _ _ _ _ hvo
  simp only [ReportsVideoFiles]
  rw [sidecar_working w hfs]
  exact ⟨by rw [← hsaved], hurl⟩

/-- On a working file system the text-to-video tool reports the video under
`veo_text_to_video_` and the sidecar under `veo_text_to_video_metadata_`. -/
theorem textToVideo_reports_files (w : World) (hfs : WorkingFileSystem w) (s : Server)
    (i : VeoTextToVideoInput) (o : VeoGenerationOutput)
    (h : (handleVeoTextToVideo w s i).1 = .ok o) :
    ReportsVideoFiles w i.outputDirectory ("veo_text_to_video_" ++ o.generatedAt ++ ".mp4")
      ("veo_text_to_video_metadata_" ++ o.generatedAt ++ ".json") o := by
  unfold handleVeoTextToVideo at h
  simp only [] at h
  split at h
  · simp at h
  split at h
  · simp at h
  split at h
  · simp at h
  split at h
  · simp at h
  split at h
  · simp at h
  rename_i outcome hvo
  injection h with h
  subst h
  obtain ⟨hsaved, hurl⟩ := videoOutcome_working w hfs _ _ _ _ _ hvo
  simp only [ReportsVideoFiles]
  rw [sidecar_working w hfs]
  exact ⟨by rw [← hsaved], hurl⟩


/-- C27: `handleVeoGeneration` and `handleVeoTextToVideo`, run in the same world
on inputs with the same prompt, negative_prompt, model, aspect_ratio,
resolution and output_directory, make the same sequence of remote calls (the
same submit request, the same number of status checks) and end the same way:
both return an output with the same status, operation_id, model, aspect_ratio,
resolution, estimated_length and generated_at, the text-to-video `metadata`
being the legacy one with the entry `generation_type` added, and `seed` when
the seed is positive; or both return an error; or both dereference nil.  When
nothing fails on disk the reported files differ in the file-name prefixes only:
`veo_video_` and `veo_metadata_` against `veo_text_to_video_` and
`veo_text_to_video_metadata_`. -/
theorem C27_legacy_and_text_to_video_agree (w : World) (s : Server) (i1 : VeoGenerationInput)
    (i2 : VeoTextToVideoInput)
    (hprompt : i1.prompt = i2.prompt) (hnegative : i1.negativePrompt = i2.negativePrompt)
    (hmodel : i1.model = i2.model) (haspect : i1.aspectRatio = i2.aspectRatio)
    (hresolution : i1.resolution = i2.resolution)
    (hdir : i1.outputDirectory = i2.outputDirectory) :
    (handleVeoGeneration w s i1).2.filter Event.isRemote =
      (handleVeoTextToVideo w s i2).2.filter Event.isRemote ∧
    (handleVeoGeneration w s i1).2.filter Event.isVideoRequest =
      (handleVeoTextToVideo w s i2).2.filter Event.isVideoRequest ∧
    ((handleVeoGeneration w s i1).2.filter Event.isStatusCheck).length =
      ((handleVeoTextToVideo w s i2).2.filter Event.isStatusCheck).length ∧
    VideoResultsAgree i2.seed (handleVeoGeneration w s i1).1 (handleVeoTextToVideo w s i2).1 ∧
    (WorkingFileSystem w → ∀ o1 o2, (handleVeoGeneration w s i1).1 = .ok o1 →
      (handleVeoTextToVideo w s i2).1 = .ok o2 →
      ReportsVideoFiles w i1.outputDirectory ("veo_video_" ++ o1.generatedAt ++ ".mp4")
        ("veo_metadata_" ++ o1.generatedAt ++ ".json") o1 ∧
      ReportsVideoFiles w i1.outputDirectory ("veo_text_to_video_" ++ o1.generatedAt ++ ".mp4")
        ("veo_text_to_video_metadata_" ++ o1.generatedAt ++ ".json") o2) := by
  obtain ⟨hremote, hresult⟩ :=
    videoRuns_agree w s i1 i2 hprompt hnegative hmodel haspect hresolution hdir
  refine ⟨hremote, ?_, ?_, hresult, ?_⟩
  · exact filter_of_filter_remote _ (fun e he => by cases e <;> simp_all [Event.isVideoRequest,
      Event.isRemote]) hremote
  · rw [filter_of_filter_remote _ (fun e he => by cases e <;> simp_all [Event.isStatusCheck,
      Event.isRemote]) hremote]
  · intro hfs o1 o2 h1 h2
    rw [h1, h2] at hresult
    have hat : o1.generatedAt = o2.generatedAt := hresult.2.2.2.2.2.2.1
    refine ⟨legacyVideo_reports_files w hfs s i1 o1 h1, ?_⟩
    rw [hat, hdir]
    exact textToVideo_reports_files w hfs s i2 o2 h2

/-- C27 at a concrete world: on `doneWorld` both tools report a completed job
and two saved files each, under the two families of file names. -/
theorem C27_legacy_and_text_to_video_agree_witness :
    ∃ o1 o2, (handleVeoGeneration doneWorld defaultServer legacySaved).1 = .ok o1 ∧
      (handleVeoTextToVideo doneWorld defaultServer textSaved).1 = .ok o2 ∧
      o1.status = "completed" ∧ o2.status = "completed" ∧
      o1.savedFiles = ["out/veo_video_20240101_000000.mp4",
        "out/veo_metadata_20240101_000000.json"] ∧
      o2.savedFiles = ["out/veo_text_to_video_20240101_000000.mp4",
        "out/veo_text_to_video_metadata_20240101_000000.json"] ∧
      o1.metadata = [("original_prompt", "a fox running"), ("negative_prompt", "rain"),
        ("operation_id", "op-1")] ∧
      o2.metadata = [("generation_type", "text-to-video"),
        ("original_prompt", "a fox running"), ("negative_prompt", "rain"),
        ("operation_id", "op-1"), ("seed", "7")] ∧
      (handleVeoGeneration doneWorld defaultServer legacySaved).2.filter Event.isRemote =
        (handleVeoTextToVideo doneWorld defaultServer textSaved).2.filter Event.isRemote ∧
      VideoResultsAgree textSaved.seed (handleVeoGeneration doneWorld defaultServer legacySaved).1
        (handleVeoTextToVideo doneWorld defaultServer textSaved).1 :=
  ⟨_, _, rfl, rfl, rfl, rfl, by decide, by decide, by decide, by decide,
    (C27_legacy_and_text_to_video_agree doneWorld defaultServer legacySaved textSaved
      rfl rfl rfl rfl rfl rfl).1,
    (C27_legacy_and_text_to_video_agree doneWorld defaultServer legacySaved textSaved
      rfl rfl rfl rfl rfl rfl).2.2.2.1⟩

end GeminiMcp
